import Mathlib

/-!
Verification of the go-identicon repository: a shallow embedding of
`identicon.go` (hex color parsing, code derivation via SHA-512, bit-field
decoding, pseudo-random color sampling, and the tile/patch rendering pipeline)
together with theorems settling the specification claims.

Modelling conventions:
* Go `uint64` values are `Nat` with explicit `% 2 ^ 64` where overflow matters.
* Go `float64` geometry is modelled with exact rationals (`Rat`); every
  coordinate produced by the renderer (quarter-turn rotations, translations,
  divisions by 3 and 4) is an exact rational, so no rounding is modelled.
* The external drawing library `gg` is modelled by its observable effect: a
  render produces a background fill plus an ordered list of fill commands,
  each a compound path (list of closed subpaths) with a fill color, filled
  under the nonzero winding rule.
* The external generator `math/rand` is modelled as a deterministic stream:
  an unspecified-but-fixed mixing function of the seed and the index of the
  draw, with `Intn n` reducing a draw modulo `n` (matching `Intn`'s contract
  of a value in `[0, n)`; `Intn` panics for `n = 0`, which is outside the
  modelled domain). The spec (design notes) states that any self-consistent
  deterministic generator is acceptable, so theorems about concrete drawn
  values are relative to this model, while seed derivation (`code % 2^31-1`)
  is taken from the source.
-/

namespace Identicon

/-! ## Hex color parsing: `hexConvert` from identicon.go -/

/-- Errors of `hexConvert`: the two decode failures of Go's
`encoding/hex.DecodeString` plus the length check of `hexConvert` itself. -/
inductive HexError where
  | invalidByte (c : Char)
  | oddLength
  | wrongLength
  deriving DecidableEq, Repr

/-- Value of one hex digit, as in `encoding/hex` (0-9, a-f, A-F). -/
def hexDigit (c : Char) : Option Nat :=
  if '0' ≤ c ∧ c ≤ '9' then some (c.toNat - '0'.toNat)
  else if 'a' ≤ c ∧ c ≤ 'f' then some (c.toNat - 'a'.toNat + 10)
  else if 'A' ≤ c ∧ c ≤ 'F' then some (c.toNat - 'A'.toNat + 10)
  else none

/-- Model of Go `hex.DecodeString`: decode pairs of hex digits left to right,
failing at the first invalid byte; a dangling digit is an odd-length error
(after checking that the dangling character itself is a valid digit, as the
Go implementation does). -/
def hexDecode : List Char → Except HexError (List Nat)
  | [] => .ok []
  | [c] =>
    match hexDigit c with
    | none => .error (.invalidByte c)
    | some _ => .error .oddLength
  | a :: b :: rest =>
    match hexDigit a with
    | none => .error (.invalidByte a)
    | some hi =>
      match hexDigit b with
      | none => .error (.invalidByte b)
      | some lo => (hexDecode rest).map (fun bs => (16 * hi + lo) :: bs)

/-- Go `strings.TrimPrefix(code, "#")`: drop one leading `#` if present. -/
def trimHashPrefix : List Char → List Char
  | '#' :: rest => rest
  | l => l

/-- Model of `hexConvert` from identicon.go: trim an optional leading `#`,
hex-decode, and require exactly 3 decoded bytes, returning (red, green, blue). -/
def hexConvert (code : List Char) : Except HexError (Nat × Nat × Nat) :=
  match hexDecode (trimHashPrefix code) with
  | .error e => .error e
  | .ok b =>
    if b.length ≠ 3 then .error .wrongLength
    else .ok (b.getD 0 0, b.getD 1 0, b.getD 2 0)

/-- Spec-side validity of a configured color string: exactly 6 hex digits
after an optional leading `#`. -/
def validHexColor (str : List Char) : Bool :=
  (trimHashPrefix str).length == 6 &&
    (trimHashPrefix str).all fun c => (hexDigit c).isSome

instance {ε α : Type} [DecidableEq ε] [DecidableEq α] :
    DecidableEq (Except ε α) := fun a b =>
  match a, b with
  | .error x, .error y =>
    if h : x = y then .isTrue (by rw [h]) else .isFalse (by simp [h])
  | .error _, .ok _ => .isFalse (by simp)
  | .ok _, .error _ => .isFalse (by simp)
  | .ok x, .ok y =>
    if h : x = y then .isTrue (by rw [h]) else .isFalse (by simp [h])

/-! ## Data model: colors and settings -/

/-- The `Color` struct of identicon.go: a name plus a hex code string
(strings modelled as lists of characters). -/
structure Color where
  name : List Char
  code : List Char
  deriving DecidableEq, Repr

/-- The `Settings` struct of identicon.go. -/
structure Settings where
  twoColor : Bool
  alpha : Nat
  transparentBackground : Bool
  colorPalette : List Color
  backgroundColors : List (List Char)
  deriving DecidableEq, Repr

/-- An RGBA color as produced by `color.RGBA` in the source. -/
structure RGBA where
  r : Nat
  g : Nat
  b : Nat
  a : Nat
  deriving DecidableEq, Repr

/-! ## Model of the external `math/rand` generator -/

/-- Modelled from the spec: the external `math/rand` deterministic generator
(`rand.New(rand.NewSource(seed))`), which is not part of this repository.
Modelled as a fixed mixing function of the seed and the zero-based index of
the draw; the spec's design notes state any self-consistent deterministic
generator is acceptable. -/
def randValue (seed cnt : Nat) : Nat :=
  (seed * 6364136223846793005 + cnt * 1442695040888963407 + 1013904223) %
    9223372036854775808

/-- State of the modelled generator: the seed it was created with and how many
draws have been made. -/
structure Rand where
  seed : Nat
  cnt : Nat
  deriving DecidableEq, Repr

/-- Value drawn by `Intn n`: the next stream value reduced modulo `n`
(matching `Intn`'s contract of a uniform value in `[0, n)` for `n > 0`). -/
def Rand.intnVal (g : Rand) (n : Nat) : Nat :=
  randValue g.seed g.cnt % n

/-- Generator state after one draw. -/
def Rand.bump (g : Rand) : Rand :=
  ⟨g.seed, g.cnt + 1⟩

/-! ## The patch catalog (`pathSet`, `middlePatchSet`) -/

/-- The 16 polygon templates of identicon.go, each a list of points on the
4x4 logical grid (`gg.Point` coordinates as exact rationals). -/
def pathSet : List (List (Rat × Rat)) :=
  [ -- [0] full square:
    [(0, 0), (4, 0), (4, 4), (0, 4)],
    -- [1] right-angled triangle pointing top-left:
    [(0, 0), (4, 0), (0, 4)],
    -- [2] upwardy triangle:
    [(2, 0), (4, 4), (0, 4)],
    -- [3] left half of square, standing rectangle:
    [(0, 0), (2, 0), (2, 4), (0, 4)],
    -- [4] square standing on diagonale:
    [(2, 0), (4, 2), (2, 4), (0, 2)],
    -- [5] kite pointing topleft:
    [(0, 0), (4, 2), (4, 4), (2, 4)],
    -- [6] Sierpinski triangle, fractal triangles:
    [(2, 0), (4, 4), (2, 4), (3, 2), (1, 2), (2, 4), (0, 4)],
    -- [7] sharp angled lefttop pointing triangle:
    [(0, 0), (4, 2), (2, 4)],
    -- [8] small centered square:
    [(1, 1), (3, 1), (3, 3), (1, 3)],
    -- [9] two small triangles:
    [(2, 0), (4, 0), (0, 4), (0, 2), (2, 2)],
    -- [10] small topleft square:
    [(0, 0), (2, 0), (2, 2), (0, 2)],
    -- [11] downpointing right-angled triangle on bottom:
    [(0, 2), (4, 2), (2, 4)],
    -- [12] uppointing right-angled triangle on bottom:
    [(2, 2), (4, 4), (0, 4)],
    -- [13] small rightbottom pointing right-angled triangle on topleft:
    [(2, 0), (2, 2), (0, 2)],
    -- [14] small lefttop pointing right-angled triangle on topleft:
    [(0, 0), (2, 0), (0, 2)],
    -- [15] empty:
    [] ]

/-- The restriction table for the middle tile: index 0, 4, 8 or 15. -/
def middlePatchSet : List Nat := [0, 4, 8, 15]

/-! ## Geometry: the transform applied by `drawPatch` -/

/-- Exact rotation by `t` quarter turns about the origin (the effect of
`gg.RotateAbout` for angles that are multiples of pi/2, with the rotation
matrix evaluated exactly: cosine and sine are 0, 1 or -1). -/
def rotQuarter (t : Nat) (p : Rat × Rat) : Rat × Rat :=
  match t % 4 with
  | 0 => p
  | 1 => (-p.2, p.1)
  | 2 => (-p.1, -p.2)
  | _ => (p.2, -p.1)

/-- Rotation by `t` quarter turns about center `c`. -/
def rotAbout (t : Nat) (c p : Rat × Rat) : Rat × Rat :=
  let q := rotQuarter t (p.1 - c.1, p.2 - c.2)
  (c.1 + q.1, c.2 + q.2)

/-- One fill operation issued to the drawing context: a compound path (list of
closed subpaths, points in absolute canvas coordinates) filled with a color
under the nonzero winding rule. -/
structure FillCmd where
  subpaths : List (List (Rat × Rat))
  color : RGBA
  deriving DecidableEq, Repr

/-- The coordinate transform in effect inside `drawPatch`: translate to the
tile origin shifted by half the pen width (`gg.Translate`), then rotate by
`t` quarter turns about the tile center (`gg.RotateAbout`). -/
def patchTransform (pos : Rat × Rat) (t : Nat) (patchSize : Rat)
    (penWidth : Nat) (p : Rat × Rat) : Rat × Rat :=
  let q := rotAbout t (patchSize / 2, patchSize / 2) p
  (pos.1 * patchSize + (penWidth : Rat) / 2 + q.1,
   pos.2 * patchSize + (penWidth : Rat) / 2 + q.2)

/-- Model of `drawPatch` from identicon.go. It selects the template
`pathSet[type_]`, reduces the turn count mod 4, and issues one fill whose
first subpath is the template traced under the current transform, template
coordinates scaled by `patchSize` over the 4x4 logical grid; when `invert`
is set a second closed subpath tracing the full tile boundary is appended
before filling. -/
def drawPatch (pos : Rat × Rat) (turn : Nat) (invert : Bool) (type_ : Nat)
    (patchSize : Rat) (foreColor : RGBA) (penWidth : Nat) : FillCmd :=
  let path := pathSet.getD type_ []
  let t := turn % 4
  let tf : Rat × Rat → Rat × Rat := patchTransform pos t patchSize penWidth
  let sub1 := path.map (fun p => tf (p.1 / 4 * patchSize, p.2 / 4 * patchSize))
  let subs :=
    if invert then
      [sub1,
       [tf (0, 0), tf (0, patchSize), tf (patchSize, patchSize),
        tf (patchSize, 0)]]
    else [sub1]
  ⟨subs, foreColor⟩

/-- The geometry of a patch: its subpaths, which are independent of the fill
color. -/
def drawPatchShape (pos : Rat × Rat) (turn : Nat) (invert : Bool)
    (type_ : Nat) (patchSize : Rat) (penWidth : Nat) :
    List (List (Rat × Rat)) :=
  (drawPatch pos turn invert type_ patchSize ⟨0, 0, 0, 0⟩ penWidth).subpaths

/-! ## Bit-field decoding: the locals of `Render`, as top-level functions -/

/-- Go `math.MaxInt32`. -/
def MaxInt32 : Nat := 2147483647

/-- Render local: `middleType := int(code & 0x03)` (before the table lookup). -/
def middleTypeRaw (code : Nat) : Nat := code &&& 0x03

/-- Render local: `middleInvert := code>>2&0x01 == 1`. -/
def middleInvert (code : Nat) : Bool := (code >>> 2) &&& 0x01 == 1

/-- Render local: `cornerType := int(code >> 3 & 0x0f)`. -/
def cornerType (code : Nat) : Nat := (code >>> 3) &&& 0x0f

/-- Render local: `cornerInvert := code>>7&0x01 == 1`. -/
def cornerInvert (code : Nat) : Bool := (code >>> 7) &&& 0x01 == 1

/-- Render local: `cornerTurn := int(code >> 8 & 0x03)`. -/
def cornerTurn (code : Nat) : Nat := (code >>> 8) &&& 0x03

/-- Render local: `sideType := int(code >> 10 & 0x0f)`. -/
def sideType (code : Nat) : Nat := (code >>> 10) &&& 0x0f

/-- Render local: `sideInvert := code>>14&0x01 == 1`. -/
def sideInvert (code : Nat) : Bool := (code >>> 14) &&& 0x01 == 1

/-- Render local: `sideTurn := int(code >> 15 & 0x03)`. -/
def sideTurn (code : Nat) : Nat := (code >>> 15) &&& 0x03

/-- Render local: `swapCross := code>>47&0x01 == 1`. -/
def swapCross (code : Nat) : Bool := (code >>> 47) &&& 0x01 == 1

/-- Render local: `middleType = middlePatchSet[middleType]` (resolved middle
template index). -/
def middleType (code : Nat) : Nat := middlePatchSet.getD (middleTypeRaw code) 0

/-! ## The renderer -/

/-- The observable result of a successful render: a square canvas, an optional
background fill color (drawn first, over the whole canvas, when the
background is not transparent) and the ordered list of patch fills. -/
structure Image where
  width : Nat
  height : Nat
  background : Option (Nat × Nat × Nat)
  fills : List FillCmd
  deriving DecidableEq, Repr

/-- Default `Color` used to make list indexing total; the bounds theorems show
indexing never actually falls back to it for non-empty palettes. -/
def defaultColor : Color := ⟨[], []⟩

/-- Model of `Render` from identicon.go. The generator is created fresh from
`code % math.MaxInt32`; the bit fields are decoded; the first and second
palette colors are drawn (in this order) and hex-resolved; the background
color is drawn and hex-resolved only when the background is not transparent;
the middle, side and corner patches are issued in source order. Errors of
`hexConvert` abort the render with no image. -/
def Render (code : Nat) (totalSize : Nat) (settings : Settings) :
    Except HexError Image :=
  let rnd0 : Rand := ⟨code % MaxInt32, 0⟩
  let penWidth : Nat := 1
  let i1 := rnd0.intnVal settings.colorPalette.length
  let rnd1 := rnd0.bump
  let randomFirstColor := settings.colorPalette.getD i1 defaultColor
  match hexConvert randomFirstColor.code with
  | .error e => .error e
  | .ok (red, green, blue) =>
    let i2 := rnd1.intnVal settings.colorPalette.length
    let rnd2 := rnd1.bump
    let randomSecondColor := settings.colorPalette.getD i2 defaultColor
    match hexConvert randomSecondColor.code with
    | .error e => .error e
    | .ok (secondRed, secondGreen, secondBlue) =>
      let foreColor : RGBA := ⟨red, green, blue, settings.alpha⟩
      let secondColor : RGBA :=
        if settings.twoColor then
          ⟨secondRed, secondGreen, secondBlue, settings.alpha⟩
        else foreColor
      let middleColor : RGBA :=
        if swapCross code then foreColor else secondColor
      let patchSize : Rat := (totalSize : Rat) / 3
      let bgResult : Except HexError (Option (Nat × Nat × Nat)) :=
        if !settings.transparentBackground then
          let i3 := rnd2.intnVal settings.backgroundColors.length
          let bg := settings.backgroundColors.getD i3 []
          match hexConvert bg with
          | .error e => .error e
          | .ok c => .ok (some c)
        else .ok none
      match bgResult with
      | .error e => .error e
      | .ok bg =>
        .ok
          { width := totalSize
            height := totalSize
            background := bg
            fills :=
              drawPatch (1, 1) 0 (middleInvert code) (middleType code)
                  patchSize middleColor penWidth ::
              drawPatch (1, 0) (sideTurn code + 1 + 0) (sideInvert code)
                  (sideType code) patchSize foreColor penWidth ::
              drawPatch (2, 1) (sideTurn code + 1 + 1) (sideInvert code)
                  (sideType code) patchSize foreColor penWidth ::
              drawPatch (1, 2) (sideTurn code + 1 + 2) (sideInvert code)
                  (sideType code) patchSize foreColor penWidth ::
              drawPatch (0, 1) (sideTurn code + 1 + 3) (sideInvert code)
                  (sideType code) patchSize foreColor penWidth ::
              drawPatch (0, 0) (cornerTurn code + 1 + 0) (cornerInvert code)
                  (cornerType code) patchSize secondColor penWidth ::
              drawPatch (2, 0) (cornerTurn code + 1 + 1) (cornerInvert code)
                  (cornerType code) patchSize secondColor penWidth ::
              drawPatch (2, 2) (cornerTurn code + 1 + 2) (cornerInvert code)
                  (cornerType code) patchSize secondColor penWidth ::
              drawPatch (0, 2) (cornerTurn code + 1 + 3) (cornerInvert code)
                  (cornerType code) patchSize secondColor penWidth :: [] }

/-! ## Model of `crypto/sha512` (external dependency): FIPS 180-4 SHA-512.
The round constants are not transcribed from tables: they are computed from
their definition (fractional parts of square and cube roots of the first
primes), as the standard specifies. Messages are byte lists. -/

/-- 2 ^ 64, the modulus of all SHA-512 word arithmetic. -/
def pow64 : Nat := 18446744073709551616

/-- Rotate a 64-bit word right by `n`. -/
def rotr64 (x n : Nat) : Nat := ((x >>> n) ||| (x <<< (64 - n))) % pow64

/-- Bitwise complement of a 64-bit word. -/
def not64 (x : Nat) : Nat := x ^^^ (pow64 - 1)

/-- First `k` primes, used to derive the SHA-512 constants. -/
def firstPrimes (k : Nat) : List Nat :=
  ((List.range 500).filter fun n => decide (Nat.Prime n)).take k

/-- Binary search step for the integer cube root. -/
def cbrtGo (n : Nat) : Nat → Nat → Nat → Nat
  | lo, _, 0 => lo
  | lo, hi, fuel + 1 =>
    if hi ≤ lo + 1 then lo
    else
      let mid := (lo + hi) / 2
      if mid ^ 3 ≤ n then cbrtGo n mid hi fuel else cbrtGo n lo mid fuel

/-- Integer cube root (largest `r` with `r ^ 3 ≤ n` for the fuel used here,
which covers all inputs below `2 ^ 256`). -/
def icbrt (n : Nat) : Nat := cbrtGo n 0 (n + 1) 256

/-- The 80 SHA-512 round constants: the first 64 bits of the fractional parts
of the cube roots of the first 80 primes. -/
def sha512K : List Nat :=
  (firstPrimes 80).map fun p => icbrt (p * 2 ^ 192) % pow64

/-- The 8 SHA-512 initial hash words: the first 64 bits of the fractional
parts of the square roots of the first 8 primes. -/
def sha512IV : List Nat :=
  (firstPrimes 8).map fun p => Nat.sqrt (p * 2 ^ 128) % pow64

/-- The eight working variables of the SHA-512 compression function. -/
structure Sha512State where
  a : Nat
  b : Nat
  c : Nat
  d : Nat
  e : Nat
  f : Nat
  g : Nat
  h : Nat
  deriving DecidableEq, Repr

/-- Initial SHA-512 state. -/
def sha512Init : Sha512State :=
  ⟨sha512IV.getD 0 0, sha512IV.getD 1 0, sha512IV.getD 2 0, sha512IV.getD 3 0,
   sha512IV.getD 4 0, sha512IV.getD 5 0, sha512IV.getD 6 0, sha512IV.getD 7 0⟩

/-- SHA-512 big Sigma-0. -/
def bigSigma0 (x : Nat) : Nat := rotr64 x 28 ^^^ rotr64 x 34 ^^^ rotr64 x 39

/-- SHA-512 big Sigma-1. -/
def bigSigma1 (x : Nat) : Nat := rotr64 x 14 ^^^ rotr64 x 18 ^^^ rotr64 x 41

/-- SHA-512 small sigma-0. -/
def smallSigma0 (x : Nat) : Nat := rotr64 x 1 ^^^ rotr64 x 8 ^^^ (x >>> 7)

/-- SHA-512 small sigma-1. -/
def smallSigma1 (x : Nat) : Nat := rotr64 x 19 ^^^ rotr64 x 61 ^^^ (x >>> 6)

/-- SHA-512 choice function. -/
def chf (x y z : Nat) : Nat := (x &&& y) ^^^ (not64 x &&& z)

/-- SHA-512 majority function. -/
def majf (x y z : Nat) : Nat := (x &&& y) ^^^ (x &&& z) ^^^ (y &&& z)

/-- The 16-byte big-endian encoding of the bit length, for padding. -/
def lenBytes128 (n : Nat) : List Nat :=
  (List.range 16).map fun i => (n >>> (8 * (15 - i))) % 256

/-- SHA-512 padding: the message, a 0x80 byte, zeros, and the 128-bit
big-endian bit length, to a multiple of 128 bytes. -/
def padMessage (msg : List Nat) : List Nat :=
  msg ++ 128 :: List.replicate ((128 - (msg.length + 17) % 128) % 128) 0 ++
    lenBytes128 (8 * msg.length)

/-- Split into 128-byte blocks (fuel-driven; the fuel is the list length). -/
def toBlocksGo : Nat → List Nat → List (List Nat)
  | 0, _ => []
  | _, [] => []
  | fuel + 1, l => l.take 128 :: toBlocksGo fuel (l.drop 128)

/-- Split a padded message into 128-byte blocks. -/
def toBlocks (l : List Nat) : List (List Nat) := toBlocksGo l.length l

/-- Big-endian value of a byte list. -/
def beWord : List Nat → Nat := List.foldl (fun acc b => acc * 256 + b) 0

/-- The 16 big-endian 64-bit words of one 128-byte block. -/
def blockWords (block : List Nat) : List Nat :=
  (List.range 16).map fun i => beWord ((block.drop (8 * i)).take 8)

/-- Extend the 16 block words to the 80-word message schedule. -/
def scheduleGo : Nat → List Nat → List Nat
  | 0, w => w
  | fuel + 1, w =>
    let n := w.length
    let next :=
      (smallSigma1 (w.getD (n - 2) 0) + w.getD (n - 7) 0 +
       smallSigma0 (w.getD (n - 15) 0) + w.getD (n - 16) 0) % pow64
    scheduleGo fuel (w ++ [next])

/-- The 80-word SHA-512 message schedule. -/
def schedule (w : List Nat) : List Nat := scheduleGo 64 w

/-- One round of the SHA-512 compression function, consuming a round
constant paired with a schedule word. -/
def sha512Round (st : Sha512State) (kw : Nat × Nat) : Sha512State :=
  let t1 := (st.h + bigSigma1 st.e + chf st.e st.f st.g + kw.1 + kw.2) % pow64
  let t2 := (bigSigma0 st.a + majf st.a st.b st.c) % pow64
  ⟨(t1 + t2) % pow64, st.a, st.b, st.c, (st.d + t1) % pow64, st.e, st.f, st.g⟩

/-- Compress one 128-byte block into the state. -/
def compressBlock (st : Sha512State) (block : List Nat) : Sha512State :=
  let ws := schedule (blockWords block)
  let x := (sha512K.zip ws).foldl sha512Round st
  ⟨(st.a + x.a) % pow64, (st.b + x.b) % pow64, (st.c + x.c) % pow64,
   (st.d + x.d) % pow64, (st.e + x.e) % pow64, (st.f + x.f) % pow64,
   (st.g + x.g) % pow64, (st.h + x.h) % pow64⟩

/-- Big-endian bytes of a 64-bit word. -/
def word64Bytes (w : Nat) : List Nat :=
  [(w >>> 56) % 256, (w >>> 48) % 256, (w >>> 40) % 256, (w >>> 32) % 256,
   (w >>> 24) % 256, (w >>> 16) % 256, (w >>> 8) % 256, w % 256]

/-- Model of `sha512.Sum512`: the 64-byte SHA-512 digest of a byte string. -/
def Sum512 (msg : List Nat) : List Nat :=
  let fin := (toBlocks (padMessage msg)).foldl compressBlock sha512Init
  word64Bytes fin.a ++ word64Bytes fin.b ++ word64Bytes fin.c ++
  word64Bytes fin.d ++ word64Bytes fin.e ++ word64Bytes fin.f ++
  word64Bytes fin.g ++ word64Bytes fin.h

/-- Model of Go `binary.BigEndian.Uint64`: the big-endian 64-bit value of the
first 8 bytes of a byte slice, assembled by shift-and-or as in the source. -/
def bigEndianUint64 (b : List Nat) : Nat :=
  (b.getD 0 0) <<< 56 ||| (b.getD 1 0) <<< 48 ||| (b.getD 2 0) <<< 40 |||
  (b.getD 3 0) <<< 32 ||| (b.getD 4 0) <<< 24 ||| (b.getD 5 0) <<< 16 |||
  (b.getD 6 0) <<< 8 ||| (b.getD 7 0)

/-- Model of `Code` from identicon.go: hash the input with SHA-512 and read
the 8 bytes starting at offset 56 as a big-endian 64-bit integer. (Go
strings are byte strings; the input is modelled as its byte list.) -/
def Code (str : List Nat) : Nat :=
  let buf := Sum512 str
  bigEndianUint64 (buf.drop 56)

/-- The nine patch fills issued by a successful render, in source order:
middle at (1,1), the four sides N-E-S-W with turns `sideTurn+1+i`, the four
corners NW-NE-SE-SW with turns `cornerTurn+1+i`. -/
def renderFills (code totalSize : Nat) (_s : Settings) (fore second : RGBA) :
    List FillCmd :=
  drawPatch (1, 1) 0 (middleInvert code) (middleType code)
      ((totalSize : Rat) / 3) (if swapCross code then fore else second) 1 ::
  drawPatch (1, 0) (sideTurn code + 1 + 0) (sideInvert code) (sideType code)
      ((totalSize : Rat) / 3) fore 1 ::
  drawPatch (2, 1) (sideTurn code + 1 + 1) (sideInvert code) (sideType code)
      ((totalSize : Rat) / 3) fore 1 ::
  drawPatch (1, 2) (sideTurn code + 1 + 2) (sideInvert code) (sideType code)
      ((totalSize : Rat) / 3) fore 1 ::
  drawPatch (0, 1) (sideTurn code + 1 + 3) (sideInvert code) (sideType code)
      ((totalSize : Rat) / 3) fore 1 ::
  drawPatch (0, 0) (cornerTurn code + 1 + 0) (cornerInvert code)
      (cornerType code) ((totalSize : Rat) / 3) second 1 ::
  drawPatch (2, 0) (cornerTurn code + 1 + 1) (cornerInvert code)
      (cornerType code) ((totalSize : Rat) / 3) second 1 ::
  drawPatch (2, 2) (cornerTurn code + 1 + 2) (cornerInvert code)
      (cornerType code) ((totalSize : Rat) / 3) second 1 ::
  drawPatch (0, 2) (cornerTurn code + 1 + 3) (cornerInvert code)
      (cornerType code) ((totalSize : Rat) / 3) second 1 :: []

/-! ## Fill semantics: the nonzero winding rule of `gg.Fill`.
A point is covered by a fill command when the total winding number of the
compound path around it is nonzero. The winding number is computed by the
standard signed crossing rule, written on vertex coordinates relative to the
query point. -/

/-- Signed crossing contribution of one edge, in coordinates relative to the
query point: `u` and `v` are start and end of the edge minus the query
point. Counts upward crossings with the point strictly left of the edge as
+1 and downward crossings with the point strictly right as -1; exact on
points that lie on no edge line. -/
def edgeContrib (u v : Rat × Rat) : Int :=
  if u.2 ≤ 0 then
    if 0 < v.2 then if 0 < u.1 * v.2 - u.2 * v.1 then 1 else 0 else 0
  else
    if v.2 ≤ 0 then if u.1 * v.2 - u.2 * v.1 < 0 then -1 else 0 else 0

/-- The edges of a closed polygon: consecutive vertex pairs, last joined
back to first (`gg.ClosePath`). -/
def polyEdges {α : Type} : List α → List (α × α)
  | [] => []
  | p :: ps => List.zip (p :: ps) (ps ++ [p])

/-- Winding number of a closed polygon around `q`. -/
def windingAt (q : Rat × Rat) (poly : List (Rat × Rat)) : Int :=
  ((polyEdges poly).map fun e =>
    edgeContrib (e.1.1 - q.1, e.1.2 - q.2) (e.2.1 - q.1, e.2.2 - q.2)).sum

/-- Total winding of a compound path: subpath windings add, which is how two
overlapping subpaths of opposite orientation cancel under the nonzero rule. -/
def cmdWinding (q : Rat × Rat) (cmd : FillCmd) : Int :=
  (cmd.subpaths.map (windingAt q)).sum

/-- A query point is filled by a command exactly when its total winding is
nonzero (`gg`'s default winding fill rule). -/
def cmdFilled (q : Rat × Rat) (cmd : FillCmd) : Bool :=
  decide (cmdWinding q cmd ≠ 0)

/-! ## Spec-side definitions (stated from the claims, for comparison) -/

/-- Spec-side reading of a byte list as a big-endian unsigned integer. -/
def bigEndianValue (l : List Nat) : Nat :=
  l.foldl (fun acc b => 256 * acc + b) 0

/-- Spec-side first palette index: the first draw (index 0) of the generator
seeded with `code mod (2^31 - 1)`, uniform over the palette length. -/
def sampledFirstIndex (code : Nat) (s : Settings) : Nat :=
  randValue (code % MaxInt32) 0 % s.colorPalette.length

/-- Spec-side second palette index: the second draw (index 1). -/
def sampledSecondIndex (code : Nat) (s : Settings) : Nat :=
  randValue (code % MaxInt32) 1 % s.colorPalette.length

/-- Spec-side background index: the third draw (index 2), uniform over the
background color list length. -/
def sampledBackgroundIndex (code : Nat) (s : Settings) : Nat :=
  randValue (code % MaxInt32) 2 % s.backgroundColors.length

/-- Concrete settings used by the witness theorems: a three-color palette
(red, green, blue in hex) and one background color, two-color mode, full
alpha, opaque background. -/
def witnessSettings : Settings :=
  ⟨true, 255, false,
    [⟨['r'], ['f', 'f', '0', '0', '0', '0']⟩,
     ⟨['g'], ['0', '0', 'f', 'f', '0', '0']⟩,
     ⟨['b'], ['#', '0', '0', '0', '0', 'f', 'f']⟩],
    [['1', '2', '3', '4', '5', '6']]⟩

/-- The witness settings with a transparent background. -/
def witnessSettingsT : Settings :=
  ⟨true, 255, true,
    [⟨['r'], ['f', 'f', '0', '0', '0', '0']⟩,
     ⟨['g'], ['0', '0', 'f', 'f', '0', '0']⟩,
     ⟨['b'], ['#', '0', '0', '0', '0', 'f', 'f']⟩], []⟩

/-! ## Helper lemmas -/

/-- A byte-sized remainder is below 256. -/
lemma mod256_lt (x : Nat) : x % 256 < 256 := Nat.mod_lt _ (by norm_num)

/-- Shifted-or assembles digits: when the low part fits below the shift, the
bitwise or is ordinary addition. -/
lemma shiftLeft_lor_eq_add (a b k : Nat) (hb : b < 2 ^ k) :
    a <<< k ||| b = a * 2 ^ k + b := by
  apply Nat.eq_of_testBit_eq
  intro i
  rw [Nat.testBit_lor, Nat.testBit_shiftLeft, mul_comm a (2 ^ k),
    Nat.testBit_mul_pow_two_add a hb i]
  by_cases hik : i < k
  · simp [hik, Nat.not_le.mpr hik]
  · have hk : ¬ i < k := hik
    have hbf : b.testBit i = false := by
      apply Nat.testBit_lt_two_pow
      exact lt_of_lt_of_le hb (Nat.pow_le_pow_right (by norm_num) (Nat.not_lt.mp hik))
    simp [hk, Nat.not_lt.mp hik, hbf]

/-- `bigEndianUint64` on an 8-byte list agrees with the mathematical
big-endian value of the list. -/
lemma bigEndianUint64_eq_bigEndianValue
    (b0 b1 b2 b3 b4 b5 b6 b7 : Nat)
    (h1 : b1 < 256) (h2 : b2 < 256) (h3 : b3 < 256) (h4 : b4 < 256)
    (h5 : b5 < 256) (h6 : b6 < 256) (h7 : b7 < 256) :
    bigEndianUint64 [b0, b1, b2, b3, b4, b5, b6, b7] =
      bigEndianValue [b0, b1, b2, b3, b4, b5, b6, b7] := by
  have e7 : b6 <<< 8 ||| b7 = b6 * 2 ^ 8 + b7 :=
    shiftLeft_lor_eq_add _ _ _ (by norm_num [h7])
  have e6 : b5 <<< 16 ||| (b6 * 2 ^ 8 + b7) = b5 * 2 ^ 16 + (b6 * 2 ^ 8 + b7) :=
    shiftLeft_lor_eq_add _ _ _ (by norm_num; omega)
  have e5 : b4 <<< 24 ||| (b5 * 2 ^ 16 + (b6 * 2 ^ 8 + b7)) =
      b4 * 2 ^ 24 + (b5 * 2 ^ 16 + (b6 * 2 ^ 8 + b7)) :=
    shiftLeft_lor_eq_add _ _ _ (by norm_num; omega)
  have e4 : b3 <<< 32 ||| (b4 * 2 ^ 24 + (b5 * 2 ^ 16 + (b6 * 2 ^ 8 + b7))) =
      b3 * 2 ^ 32 + (b4 * 2 ^ 24 + (b5 * 2 ^ 16 + (b6 * 2 ^ 8 + b7))) :=
    shiftLeft_lor_eq_add _ _ _ (by norm_num; omega)
  have e3 : b2 <<< 40 |||
        (b3 * 2 ^ 32 + (b4 * 2 ^ 24 + (b5 * 2 ^ 16 + (b6 * 2 ^ 8 + b7)))) =
      b2 * 2 ^ 40 +
        (b3 * 2 ^ 32 + (b4 * 2 ^ 24 + (b5 * 2 ^ 16 + (b6 * 2 ^ 8 + b7)))) :=
    shiftLeft_lor_eq_add _ _ _ (by norm_num; omega)
  have e2 : b1 <<< 48 |||
        (b2 * 2 ^ 40 +
          (b3 * 2 ^ 32 + (b4 * 2 ^ 24 + (b5 * 2 ^ 16 + (b6 * 2 ^ 8 + b7))))) =
      b1 * 2 ^ 48 +
        (b2 * 2 ^ 40 +
          (b3 * 2 ^ 32 + (b4 * 2 ^ 24 + (b5 * 2 ^ 16 + (b6 * 2 ^ 8 + b7))))) :=
    shiftLeft_lor_eq_add _ _ _ (by norm_num; omega)
  have e1 : b0 <<< 56 |||
        (b1 * 2 ^ 48 +
          (b2 * 2 ^ 40 +
            (b3 * 2 ^ 32 +
              (b4 * 2 ^ 24 + (b5 * 2 ^ 16 + (b6 * 2 ^ 8 + b7)))))) =
      b0 * 2 ^ 56 +
        (b1 * 2 ^ 48 +
          (b2 * 2 ^ 40 +
            (b3 * 2 ^ 32 +
              (b4 * 2 ^ 24 + (b5 * 2 ^ 16 + (b6 * 2 ^ 8 + b7)))))) :=
    shiftLeft_lor_eq_add _ _ _ (by norm_num; omega)
  show (b0 <<< 56 ||| b1 <<< 48 ||| b2 <<< 40 ||| b3 <<< 32 ||| b4 <<< 24 |||
      b5 <<< 16 ||| b6 <<< 8 ||| b7) = _
  rw [Nat.lor_assoc, Nat.lor_assoc, Nat.lor_assoc, Nat.lor_assoc,
    Nat.lor_assoc, Nat.lor_assoc, e7, e6, e5, e4, e3, e2, e1]
  simp [bigEndianValue]
  ring

/-- Unfolding of `Render` in the transparent-background case: both palette
draws resolve and the render succeeds with no background fill. -/
lemma render_ok_transparent (code n : Nat) (s : Settings)
    (r1 g1 b1 r2 g2 b2 : Nat)
    (htr : s.transparentBackground = true)
    (h1 : hexConvert
        (s.colorPalette.getD (sampledFirstIndex code s) defaultColor).code =
      .ok (r1, g1, b1))
    (h2 : hexConvert
        (s.colorPalette.getD (sampledSecondIndex code s) defaultColor).code =
      .ok (r2, g2, b2)) :
    Render code n s =
      .ok ⟨n, n, none,
        renderFills code n s ⟨r1, g1, b1, s.alpha⟩
          (if s.twoColor then ⟨r2, g2, b2, s.alpha⟩
           else ⟨r1, g1, b1, s.alpha⟩)⟩ := by
  simp only [sampledFirstIndex] at h1
  simp only [sampledSecondIndex] at h2
  unfold Render
  simp only [Rand.intnVal, Rand.bump, Nat.zero_add]
  rw [h1]
  simp only []
  rw [h2]
  simp only [htr, Bool.not_true, Bool.false_eq_true, if_false, renderFills]

/-- Unfolding of `Render` in the opaque-background case: both palette draws
and the background draw resolve and the render succeeds with the background
fill. -/
lemma render_ok_withBg (code n : Nat) (s : Settings)
    (r1 g1 b1 r2 g2 b2 br bg bb : Nat)
    (htr : s.transparentBackground = false)
    (h1 : hexConvert
        (s.colorPalette.getD (sampledFirstIndex code s) defaultColor).code =
      .ok (r1, g1, b1))
    (h2 : hexConvert
        (s.colorPalette.getD (sampledSecondIndex code s) defaultColor).code =
      .ok (r2, g2, b2))
    (h3 : hexConvert
        (s.backgroundColors.getD (sampledBackgroundIndex code s) []) =
      .ok (br, bg, bb)) :
    Render code n s =
      .ok ⟨n, n, some (br, bg, bb),
        renderFills code n s ⟨r1, g1, b1, s.alpha⟩
          (if s.twoColor then ⟨r2, g2, b2, s.alpha⟩
           else ⟨r1, g1, b1, s.alpha⟩)⟩ := by
  simp only [sampledFirstIndex] at h1
  simp only [sampledSecondIndex] at h2
  simp only [sampledBackgroundIndex] at h3
  unfold Render
  simp only [Rand.intnVal, Rand.bump, Nat.zero_add]
  rw [h1]
  simp only []
  rw [h2]
  simp only [htr, Bool.not_false, if_true]
  rw [h3]
  simp only [renderFills]

/-- Unfolding of `Render` when the first palette color fails to parse. -/
lemma render_error_first (code n : Nat) (s : Settings) (e : HexError)
    (h1 : hexConvert
        (s.colorPalette.getD (sampledFirstIndex code s) defaultColor).code =
      .error e) :
    Render code n s = .error e := by
  simp only [sampledFirstIndex] at h1
  unfold Render
  simp only [Rand.intnVal, Rand.bump, Nat.zero_add]
  rw [h1]

/-- Unfolding of `Render` when the first palette color parses but the second
fails. -/
lemma render_error_second (code n : Nat) (s : Settings) (e : HexError)
    (v : Nat × Nat × Nat)
    (h1 : hexConvert
        (s.colorPalette.getD (sampledFirstIndex code s) defaultColor).code =
      .ok v)
    (h2 : hexConvert
        (s.colorPalette.getD (sampledSecondIndex code s) defaultColor).code =
      .error e) :
    Render code n s = .error e := by
  obtain ⟨r1, g1, b1⟩ := v
  simp only [sampledFirstIndex] at h1
  simp only [sampledSecondIndex] at h2
  unfold Render
  simp only [Rand.intnVal, Rand.bump, Nat.zero_add]
  rw [h1]
  simp only []
  rw [h2]

/-- Unfolding of `Render` when both palette colors parse, the background is
opaque, and the background color fails to parse. -/
lemma render_error_background (code n : Nat) (s : Settings) (e : HexError)
    (v w : Nat × Nat × Nat)
    (htr : s.transparentBackground = false)
    (h1 : hexConvert
        (s.colorPalette.getD (sampledFirstIndex code s) defaultColor).code =
      .ok v)
    (h2 : hexConvert
        (s.colorPalette.getD (sampledSecondIndex code s) defaultColor).code =
      .ok w)
    (h3 : hexConvert
        (s.backgroundColors.getD (sampledBackgroundIndex code s) []) =
      .error e) :
    Render code n s = .error e := by
  obtain ⟨r1, g1, b1⟩ := v
  obtain ⟨r2, g2, b2⟩ := w
  simp only [sampledFirstIndex] at h1
  simp only [sampledSecondIndex] at h2
  simp only [sampledBackgroundIndex] at h3
  unfold Render
  simp only [Rand.intnVal, Rand.bump, Nat.zero_add]
  rw [h1]
  simp only []
  rw [h2]
  simp only [htr, Bool.not_false, if_true]
  rw [h3]

/-- The tail of the digest starting at byte 56 is the byte encoding of the
final hash word. -/
lemma sum512_drop56 (s : List Nat) :
    (Sum512 s).drop 56 =
      word64Bytes ((toBlocks (padMessage s)).foldl compressBlock sha512Init).h :=
  rfl

/-- `Code` agrees with the mathematical big-endian value of the last 8
digest bytes. -/
lemma code_eq_value (s : List Nat) :
    Code s = bigEndianValue ((Sum512 s).drop 56) := by
  rw [sum512_drop56]
  show bigEndianUint64 _ = _
  simp only [word64Bytes]
  exact bigEndianUint64_eq_bigEndianValue _ _ _ _ _ _ _ _
    (mod256_lt _) (mod256_lt _) (mod256_lt _) (mod256_lt _)
    (mod256_lt _) (mod256_lt _) (mod256_lt _)

/-- `Code` always returns a 64-bit value. -/
lemma code_lt_two_pow_64 (s : List Nat) : Code s < 2 ^ 64 := by
  rw [code_eq_value, sum512_drop56]
  simp only [word64Bytes, bigEndianValue, List.foldl]
  have c0 := mod256_lt
    (((toBlocks (padMessage s)).foldl compressBlock sha512Init).h >>> 56)
  have c1 := mod256_lt
    (((toBlocks (padMessage s)).foldl compressBlock sha512Init).h >>> 48)
  have c2 := mod256_lt
    (((toBlocks (padMessage s)).foldl compressBlock sha512Init).h >>> 40)
  have c3 := mod256_lt
    (((toBlocks (padMessage s)).foldl compressBlock sha512Init).h >>> 32)
  have c4 := mod256_lt
    (((toBlocks (padMessage s)).foldl compressBlock sha512Init).h >>> 24)
  have c5 := mod256_lt
    (((toBlocks (padMessage s)).foldl compressBlock sha512Init).h >>> 16)
  have c6 := mod256_lt
    (((toBlocks (padMessage s)).foldl compressBlock sha512Init).h >>> 8)
  have c7 := mod256_lt
    (((toBlocks (padMessage s)).foldl compressBlock sha512Init).h)
  norm_num
  omega

/-- `Except.map` preserves success. -/
lemma except_isOk_map {α β γ : Type} (f : α → β) (e : Except γ α) :
    (e.map f).isOk = e.isOk := by
  cases e <;> rfl

/-- Success of `hexDecode`: the input has even length and every character is
a hex digit. -/
lemma hexDecode_isOk : ∀ l : List Char,
    (hexDecode l).isOk =
      (decide (l.length % 2 = 0) && l.all fun c => (hexDigit c).isSome)
  | [] => by simp [hexDecode, Except.isOk, Except.toBool]
  | [c] => by
    cases h : hexDigit c <;>
      simp [hexDecode, h, Except.isOk, Except.toBool]
  | a :: b :: rest => by
    have ih := hexDecode_isOk rest
    have hmod : (rest.length + 1 + 1) % 2 = rest.length % 2 := by omega
    cases ha : hexDigit a with
    | none => simp [hexDecode, ha, Except.isOk, Except.toBool]
    | some hi =>
      cases hb : hexDigit b with
      | none => simp [hexDecode, ha, hb, Except.isOk, Except.toBool]
      | some lo =>
        simp only [hexDecode, ha, hb, except_isOk_map, ih, List.all_cons,
          List.length_cons, hmod, Option.isSome_some, Bool.true_and]

/-- A successful `hexDecode` produces half as many bytes as characters. -/
lemma hexDecode_length : ∀ (l : List Char) (bs : List Nat),
    hexDecode l = .ok bs → bs.length = l.length / 2
  | [], bs => by
    intro h
    simp [hexDecode] at h
    simp [← h]
  | [c], bs => by
    intro h
    cases hc : hexDigit c <;> simp [hexDecode, hc] at h
  | a :: b :: rest, bs => by
    intro h
    cases ha : hexDigit a with
    | none => simp [hexDecode, ha] at h
    | some hi =>
      cases hb : hexDigit b with
      | none => simp [hexDecode, ha, hb] at h
      | some lo =>
        cases hr : hexDecode rest with
        | error e => simp [hexDecode, ha, hb, hr, Except.map] at h
        | ok cs =>
          have ih := hexDecode_length rest cs hr
          simp [hexDecode, ha, hb, hr, Except.map] at h
          simp [← h, ih]
          omega

/-- `hexConvert` succeeds exactly on strings of 6 hex digits after an
optional `#`. -/
lemma hexConvert_isOk_iff (str : List Char) :
    (∃ v, hexConvert str = .ok v) ↔ validHexColor str = true := by
  have hIsOk := hexDecode_isOk (trimHashPrefix str)
  unfold hexConvert validHexColor
  cases h : hexDecode (trimHashPrefix str) with
  | error e =>
    rw [h] at hIsOk
    simp only [Except.isOk, Except.toBool] at hIsOk
    refine iff_of_false ?_ ?_
    · rintro ⟨v, hv⟩
      simp at hv
    · intro hval
      rw [Bool.and_eq_true, beq_iff_eq] at hval
      obtain ⟨hlen, hall⟩ := hval
      rw [hlen, hall] at hIsOk
      simp at hIsOk
  | ok bs =>
    rw [h] at hIsOk
    simp only [Except.isOk, Except.toBool] at hIsOk
    have hlen2 := hexDecode_length (trimHashPrefix str) bs h
    by_cases h3 : bs.length = 3
    · have heven : (trimHashPrefix str).length % 2 = 0 := by
        by_contra hodd
        simp [hodd] at hIsOk
      have hall : ((trimHashPrefix str).all fun c => (hexDigit c).isSome) =
          true := by
        by_contra hna
        simp [hna] at hIsOk
      refine iff_of_true ⟨(bs.getD 0 0, bs.getD 1 0, bs.getD 2 0), by
        simp [h3]⟩ ?_
      rw [Bool.and_eq_true, beq_iff_eq]
      exact ⟨by omega, hall⟩
    · refine iff_of_false ?_ ?_
      · rintro ⟨v, hv⟩
        simp [h3] at hv
      · intro hval
        rw [Bool.and_eq_true, beq_iff_eq] at hval
        obtain ⟨hlen, _⟩ := hval
        rw [hlen] at hlen2
        exact h3 (by omega)

/-! ## Claim theorems -/

/-- C1: rendering is a pure function of `(code, totalSize, settings)` — in
this embedding `Render` consumes no state besides its arguments (the
generator is created inside the call from `code` alone), so any two calls
with equal arguments, in particular two calls at a code derived by `Code`
from the same string, return byte-identical results. -/
theorem render_deterministic (c1 c2 n1 n2 : Nat) (s1 s2 : Settings)
    (hc : c1 = c2) (hn : n1 = n2) (hs : s1 = s2) :
    Render c1 n1 s1 = Render c2 n2 s2 ∧
      ∀ str : List Nat, Render (Code str) n1 s1 = Render (Code str) n2 s2 := by
  subst hc hn hs
  exact ⟨rfl, fun _ => rfl⟩

/-- C1 witness: two calls of `Render` on the code derived from the bytes of
the string "abc" at size 300 with some settings are identical. -/
theorem render_deterministic_witness :
    Render (Code [97, 98, 99]) 300
        ⟨true, 255, false, [⟨[], ['f', 'f', '0', '0', '0', '0']⟩],
          [['0', '0', 'f', 'f', '0', '0']]⟩ =
      Render (Code [97, 98, 99]) 300
        ⟨true, 255, false, [⟨[], ['f', 'f', '0', '0', '0', '0']⟩],
          [['0', '0', 'f', 'f', '0', '0']]⟩ :=
  (render_deterministic 0 0 300 300
    ⟨true, 255, false, [⟨[], ['f', 'f', '0', '0', '0', '0']⟩],
      [['0', '0', 'f', 'f', '0', '0']]⟩
    ⟨true, 255, false, [⟨[], ['f', 'f', '0', '0', '0', '0']⟩],
      [['0', '0', 'f', 'f', '0', '0']]⟩ rfl rfl rfl).2 [97, 98, 99]

/-- C2: `Code` is total (it is a Lean function, defined for every byte
string including the empty one, with no error value in its type), the
digest it reads has 64 bytes, and the returned value is exactly the
big-endian reading of the final 8 bytes of the SHA-512 digest, a 64-bit
unsigned integer. -/
theorem code_final8_bigendian (s : List Nat) :
    (Sum512 s).length = 64 ∧
    ((Sum512 s).drop 56).length = 8 ∧
    Code s = bigEndianValue ((Sum512 s).drop 56) ∧
    Code s < 2 ^ 64 := by
  have hlen : (Sum512 s).length = 64 := by
    simp [Sum512, word64Bytes]
  have hdrop : (Sum512 s).drop 56 =
      word64Bytes ((toBlocks (padMessage s)).foldl compressBlock sha512Init).h :=
    rfl
  refine ⟨hlen, by rw [hdrop]; simp [word64Bytes], ?_, ?_⟩
  · rw [hdrop]
    show bigEndianUint64 _ = _
    simp only [word64Bytes]
    exact bigEndianUint64_eq_bigEndianValue _ _ _ _ _ _ _ _
      (mod256_lt _) (mod256_lt _) (mod256_lt _) (mod256_lt _)
      (mod256_lt _) (mod256_lt _) (mod256_lt _)
  · have : Code s = bigEndianValue ((Sum512 s).drop 56) := by
      rw [hdrop]
      show bigEndianUint64 _ = _
      simp only [word64Bytes]
      exact bigEndianUint64_eq_bigEndianValue _ _ _ _ _ _ _ _
        (mod256_lt _) (mod256_lt _) (mod256_lt _) (mod256_lt _)
        (mod256_lt _) (mod256_lt _) (mod256_lt _)
    rw [this, hdrop]
    simp only [word64Bytes, bigEndianValue, List.foldl]
    have c0 := mod256_lt (((toBlocks (padMessage s)).foldl compressBlock sha512Init).h >>> 56)
    have c1 := mod256_lt (((toBlocks (padMessage s)).foldl compressBlock sha512Init).h >>> 48)
    have c2 := mod256_lt (((toBlocks (padMessage s)).foldl compressBlock sha512Init).h >>> 40)
    have c3 := mod256_lt (((toBlocks (padMessage s)).foldl compressBlock sha512Init).h >>> 32)
    have c4 := mod256_lt (((toBlocks (padMessage s)).foldl compressBlock sha512Init).h >>> 24)
    have c5 := mod256_lt (((toBlocks (padMessage s)).foldl compressBlock sha512Init).h >>> 16)
    have c6 := mod256_lt (((toBlocks (padMessage s)).foldl compressBlock sha512Init).h >>> 8)
    have c7 := mod256_lt (((toBlocks (padMessage s)).foldl compressBlock sha512Init).h)
    norm_num
    omega

/-- C3: the bit-field decode of `Render` extracts exactly the claimed bit
ranges (0-indexed from the least significant bit), the middle type is the
2-bit field mapped through the lookup `[0, 4, 8, 15]`, and the resolved
middle type is always one of 0, 4, 8, 15. -/
theorem bitfield_decode (code : Nat) :
    middleTypeRaw code = code % 2 ^ 2 ∧
    middleType code = middlePatchSet.getD (code % 2 ^ 2) 0 ∧
    (middleInvert code = true ↔ code / 2 ^ 2 % 2 = 1) ∧
    cornerType code = code / 2 ^ 3 % 2 ^ 4 ∧
    (cornerInvert code = true ↔ code / 2 ^ 7 % 2 = 1) ∧
    cornerTurn code = code / 2 ^ 8 % 2 ^ 2 ∧
    sideType code = code / 2 ^ 10 % 2 ^ 4 ∧
    (sideInvert code = true ↔ code / 2 ^ 14 % 2 = 1) ∧
    sideTurn code = code / 2 ^ 15 % 2 ^ 2 ∧
    (swapCross code = true ↔ code / 2 ^ 47 % 2 = 1) ∧
    (middleType code = 0 ∨ middleType code = 4 ∨ middleType code = 8 ∨
      middleType code = 15) := by
  have mask2 : ∀ x : Nat, x &&& 3 = x % 2 ^ 2 := fun x => by
    have := Nat.and_pow_two_sub_one_eq_mod x 2
    norm_num at this ⊢
    exact this
  have mask1 : ∀ x : Nat, x &&& 1 = x % 2 := fun x => by
    have h := Nat.and_pow_two_sub_one_eq_mod x 1
    norm_num at h
    try exact h
    try norm_num
  have mask4 : ∀ x : Nat, x &&& 15 = x % 2 ^ 4 := fun x => by
    have := Nat.and_pow_two_sub_one_eq_mod x 4
    norm_num at this ⊢
    exact this
  have hshift : ∀ x k : Nat, x >>> k = x / 2 ^ k := fun x k =>
    Nat.shiftRight_eq_div_pow x k
  refine ⟨?_, ?_, ?_, ?_, ?_, ?_, ?_, ?_, ?_, ?_, ?_⟩
  · show code &&& 3 = _
    exact mask2 code
  · show middlePatchSet.getD (code &&& 3) 0 = _
    rw [mask2]
  · show ((code >>> 2) &&& 1 == 1) = true ↔ _
    rw [beq_iff_eq, mask1, hshift]
  · show (code >>> 3) &&& 15 = _
    rw [mask4, hshift]
  · show ((code >>> 7) &&& 1 == 1) = true ↔ _
    rw [beq_iff_eq, mask1, hshift]
  · show (code >>> 8) &&& 3 = _
    rw [mask2, hshift]
  · show (code >>> 10) &&& 15 = _
    rw [mask4, hshift]
  · show ((code >>> 14) &&& 1 == 1) = true ↔ _
    rw [beq_iff_eq, mask1, hshift]
  · show (code >>> 15) &&& 3 = _
    rw [mask2, hshift]
  · show ((code >>> 47) &&& 1 == 1) = true ↔ _
    rw [beq_iff_eq, mask1, hshift]
  · have h4 : code &&& 3 < 4 := by
      rw [mask2]
      exact Nat.mod_lt _ (by norm_num)
    unfold middleType middleTypeRaw
    interval_cases h : code &&& 3 <;> simp [middlePatchSet]

/-- Projection fact: the fill color of a patch is the color passed to
`drawPatch`. -/
lemma drawPatch_color (pos : Rat × Rat) (turn : Nat) (invert : Bool)
    (type_ : Nat) (ps : Rat) (c : RGBA) (pw : Nat) :
    (drawPatch pos turn invert type_ ps c pw).color = c := by
  unfold drawPatch
  by_cases h : invert <;> simp [h]

/-- C4: the generator is seeded with `code mod (2^31 - 1)` and the draws come
in the order first palette index (draw 0), second palette index (draw 1),
then — only when the background is opaque — the background index (draw 2);
the foreground color is the first drawn color with the configured alpha, the
other color is the second drawn color (with alpha) when `twoColor` and the
foreground otherwise, the middle color is the foreground exactly when
`swapCross`; every drawn tile color carries the alpha but the background
fill does not. -/
theorem color_sampling_resolution (code n : Nat) (s : Settings)
    (r1 g1 b1 r2 g2 b2 : Nat)
    (h1 : hexConvert
        (s.colorPalette.getD (sampledFirstIndex code s) defaultColor).code =
      .ok (r1, g1, b1))
    (h2 : hexConvert
        (s.colorPalette.getD (sampledSecondIndex code s) defaultColor).code =
      .ok (r2, g2, b2)) :
    sampledFirstIndex code s =
      randValue (code % (2 ^ 31 - 1)) 0 % s.colorPalette.length ∧
    sampledSecondIndex code s =
      randValue (code % (2 ^ 31 - 1)) 1 % s.colorPalette.length ∧
    sampledBackgroundIndex code s =
      randValue (code % (2 ^ 31 - 1)) 2 % s.backgroundColors.length ∧
    (s.transparentBackground = true →
      Render code n s =
        .ok ⟨n, n, none,
          renderFills code n s ⟨r1, g1, b1, s.alpha⟩
            (if s.twoColor then ⟨r2, g2, b2, s.alpha⟩
             else ⟨r1, g1, b1, s.alpha⟩)⟩) ∧
    (∀ br bgc bb, s.transparentBackground = false →
      hexConvert (s.backgroundColors.getD (sampledBackgroundIndex code s) []) =
        .ok (br, bgc, bb) →
      Render code n s =
        .ok ⟨n, n, some (br, bgc, bb),
          renderFills code n s ⟨r1, g1, b1, s.alpha⟩
            (if s.twoColor then ⟨r2, g2, b2, s.alpha⟩
             else ⟨r1, g1, b1, s.alpha⟩)⟩) ∧
    (∀ img, Render code n s = .ok img →
      img.fills.map FillCmd.color =
        [if swapCross code then ⟨r1, g1, b1, s.alpha⟩
         else if s.twoColor then ⟨r2, g2, b2, s.alpha⟩
         else ⟨r1, g1, b1, s.alpha⟩,
         ⟨r1, g1, b1, s.alpha⟩, ⟨r1, g1, b1, s.alpha⟩,
         ⟨r1, g1, b1, s.alpha⟩, ⟨r1, g1, b1, s.alpha⟩,
         if s.twoColor then ⟨r2, g2, b2, s.alpha⟩ else ⟨r1, g1, b1, s.alpha⟩,
         if s.twoColor then ⟨r2, g2, b2, s.alpha⟩ else ⟨r1, g1, b1, s.alpha⟩,
         if s.twoColor then ⟨r2, g2, b2, s.alpha⟩ else ⟨r1, g1, b1, s.alpha⟩,
         if s.twoColor then ⟨r2, g2, b2, s.alpha⟩ else ⟨r1, g1, b1, s.alpha⟩]) := by
  have hM : MaxInt32 = 2 ^ 31 - 1 := by norm_num [MaxInt32]
  refine ⟨by rw [sampledFirstIndex, hM], by rw [sampledSecondIndex, hM],
    by rw [sampledBackgroundIndex, hM], ?_, ?_, ?_⟩
  · intro htr
    exact render_ok_transparent code n s r1 g1 b1 r2 g2 b2 htr h1 h2
  · intro br bgc bb htr h3
    exact render_ok_withBg code n s r1 g1 b1 r2 g2 b2 br bgc bb htr h1 h2 h3
  · intro img himg
    have hfills : img.fills =
        renderFills code n s ⟨r1, g1, b1, s.alpha⟩
          (if s.twoColor then ⟨r2, g2, b2, s.alpha⟩
           else ⟨r1, g1, b1, s.alpha⟩) := by
      rcases htr : s.transparentBackground with hf | ht
      · rcases h3 : hexConvert
            (s.backgroundColors.getD (sampledBackgroundIndex code s) []) with
          e | ⟨br, bgc, bb⟩
        · rw [render_error_background code n s e _ _ htr h1 h2 h3] at himg
          exact absurd himg (by simp)
        · rw [render_ok_withBg code n s r1 g1 b1 r2 g2 b2 br bgc bb
            htr h1 h2 h3] at himg
          cases himg
          rfl
      · rw [render_ok_transparent code n s r1 g1 b1 r2 g2 b2 htr h1 h2]
          at himg
        cases himg
        rfl
    rw [hfills]
    by_cases hsw : swapCross code <;>
      simp [renderFills, drawPatch_color, hsw]

/-- C4 witness: at code 5 with the concrete witness settings the draws are
index 1 (green) and index 2 (blue) and the render resolves as claimed. -/
theorem color_sampling_resolution_witness :
    sampledFirstIndex 5 witnessSettings =
      randValue (5 % (2 ^ 31 - 1)) 0 % witnessSettings.colorPalette.length ∧
    sampledSecondIndex 5 witnessSettings =
      randValue (5 % (2 ^ 31 - 1)) 1 % witnessSettings.colorPalette.length ∧
    sampledBackgroundIndex 5 witnessSettings =
      randValue (5 % (2 ^ 31 - 1)) 2 %
        witnessSettings.backgroundColors.length ∧
    (witnessSettings.transparentBackground = true →
      Render 5 12 witnessSettings =
        .ok ⟨12, 12, none,
          renderFills 5 12 witnessSettings ⟨0, 255, 0, 255⟩
            (if witnessSettings.twoColor then ⟨0, 0, 255, 255⟩
             else ⟨0, 255, 0, 255⟩)⟩) ∧
    (∀ br bgc bb, witnessSettings.transparentBackground = false →
      hexConvert
          (witnessSettings.backgroundColors.getD
            (sampledBackgroundIndex 5 witnessSettings) []) =
        .ok (br, bgc, bb) →
      Render 5 12 witnessSettings =
        .ok ⟨12, 12, some (br, bgc, bb),
          renderFills 5 12 witnessSettings ⟨0, 255, 0, 255⟩
            (if witnessSettings.twoColor then ⟨0, 0, 255, 255⟩
             else ⟨0, 255, 0, 255⟩)⟩) ∧
    (∀ img, Render 5 12 witnessSettings = .ok img →
      img.fills.map FillCmd.color =
        [if swapCross 5 then ⟨0, 255, 0, 255⟩
         else if witnessSettings.twoColor then ⟨0, 0, 255, 255⟩
         else ⟨0, 255, 0, 255⟩,
         ⟨0, 255, 0, 255⟩, ⟨0, 255, 0, 255⟩,
         ⟨0, 255, 0, 255⟩, ⟨0, 255, 0, 255⟩,
         if witnessSettings.twoColor then ⟨0, 0, 255, 255⟩
         else ⟨0, 255, 0, 255⟩,
         if witnessSettings.twoColor then ⟨0, 0, 255, 255⟩
         else ⟨0, 255, 0, 255⟩,
         if witnessSettings.twoColor then ⟨0, 0, 255, 255⟩
         else ⟨0, 255, 0, 255⟩,
         if witnessSettings.twoColor then ⟨0, 0, 255, 255⟩
         else ⟨0, 255, 0, 255⟩]) :=
  color_sampling_resolution 5 12 witnessSettings 0 255 0 0 0 255 rfl rfl

/-- C5: a successful render consists of the background fill (present exactly
when the background is not transparent, and drawn before the patches), then
the middle tile at (1,1) with turn 0, then the four side tiles at
(1,0),(2,1),(1,2),(0,1) with turns `sideTurn+1+i` and the foreground color,
then the four corner tiles at (0,0),(2,0),(2,2),(0,2) with turns
`cornerTurn+1+i` and the other color — the order recorded by `renderFills`;
every patch reduces its turn count mod 4, and the template coordinates are
scaled by `patchSize / 4` where `patchSize = totalSize / 3` exactly. -/
theorem draw_order_and_geometry (code n : Nat) (s : Settings)
    (r1 g1 b1 r2 g2 b2 : Nat)
    (h1 : hexConvert
        (s.colorPalette.getD (sampledFirstIndex code s) defaultColor).code =
      .ok (r1, g1, b1))
    (h2 : hexConvert
        (s.colorPalette.getD (sampledSecondIndex code s) defaultColor).code =
      .ok (r2, g2, b2)) :
    (∀ img, Render code n s = .ok img →
      img.fills =
        renderFills code n s ⟨r1, g1, b1, s.alpha⟩
          (if s.twoColor then ⟨r2, g2, b2, s.alpha⟩
           else ⟨r1, g1, b1, s.alpha⟩) ∧
      img.background.isSome = !s.transparentBackground) ∧
    (∀ (pos : Rat × Rat) (turn : Nat) (inv : Bool) (ty : Nat) (c : RGBA)
        (pw : Nat) (ps : Rat),
      drawPatch pos turn inv ty ps c pw = drawPatch pos (turn % 4) inv ty ps c pw) ∧
    (∀ (pos : Rat × Rat) (turn : Nat) (inv : Bool) (ty : Nat) (c : RGBA)
        (pw : Nat) (ps : Rat),
      (drawPatch pos turn inv ty ps c pw).subpaths.getD 0 [] =
        (pathSet.getD ty []).map fun p =>
          patchTransform pos (turn % 4) ps pw
            (p.1 * (ps / 4), p.2 * (ps / 4))) := by
  refine ⟨?_, ?_, ?_⟩
  · intro img himg
    rcases htr : s.transparentBackground with hf | ht
    · rcases h3 : hexConvert
          (s.backgroundColors.getD (sampledBackgroundIndex code s) []) with
        e | ⟨br, bgc, bb⟩
      · rw [render_error_background code n s e _ _ htr h1 h2 h3] at himg
        exact absurd himg (by simp)
      · rw [render_ok_withBg code n s r1 g1 b1 r2 g2 b2 br bgc bb
          htr h1 h2 h3] at himg
        cases himg
        exact ⟨rfl, rfl⟩
    · rw [render_ok_transparent code n s r1 g1 b1 r2 g2 b2 htr h1 h2] at himg
      cases himg
      exact ⟨rfl, rfl⟩
  · intro pos turn inv ty c pw ps
    unfold drawPatch
    rw [Nat.mod_mod_of_dvd turn (dvd_refl 4)]
  · intro pos turn inv ty c pw ps
    have harg : ∀ p : Rat × Rat,
        (p.1 / 4 * ps, p.2 / 4 * ps) = (p.1 * (ps / 4), p.2 * (ps / 4)) := by
      intro p
      rw [Prod.ext_iff]
      constructor <;> (simp; ring)
    unfold drawPatch
    by_cases hinv : inv <;> simp [hinv, harg]

/-- C5 witness: the draw-order and geometry statement at code 5 with the
concrete witness settings. -/
theorem draw_order_and_geometry_witness :
    (∀ img, Render 5 12 witnessSettings = .ok img →
      img.fills =
        renderFills 5 12 witnessSettings ⟨0, 255, 0, 255⟩
          (if witnessSettings.twoColor then ⟨0, 0, 255, 255⟩
           else ⟨0, 255, 0, 255⟩) ∧
      img.background.isSome = !witnessSettings.transparentBackground) ∧
    (∀ (pos : Rat × Rat) (turn : Nat) (inv : Bool) (ty : Nat) (c : RGBA)
        (pw : Nat) (ps : Rat),
      drawPatch pos turn inv ty ps c pw =
        drawPatch pos (turn % 4) inv ty ps c pw) ∧
    (∀ (pos : Rat × Rat) (turn : Nat) (inv : Bool) (ty : Nat) (c : RGBA)
        (pw : Nat) (ps : Rat),
      (drawPatch pos turn inv ty ps c pw).subpaths.getD 0 [] =
        (pathSet.getD ty []).map fun p =>
          patchTransform pos (turn % 4) ps pw
            (p.1 * (ps / 4), p.2 * (ps / 4))) :=
  draw_order_and_geometry 5 12 witnessSettings 0 255 0 0 0 255 rfl rfl

/-- C6: a resolved color string (palette or background entry) that is not
exactly 6 hex digits after an optional `#` is exactly a `hexConvert`
failure; `Render` fails with the error of the first failing resolution in
the order first color, second color, then background (the background only
being resolved when opaque); when every resolved string is valid the render
succeeds; an erroring render returns no image; hex resolution failures are
the only error source; and `Code` is total with a 64-bit result. -/
theorem config_error_taxonomy (code n : Nat) (s : Settings) :
    (∀ str : List Char,
      (∃ v, hexConvert str = .ok v) ↔ validHexColor str = true) ∧
    (∀ e, hexConvert
        (s.colorPalette.getD (sampledFirstIndex code s) defaultColor).code =
        .error e →
      Render code n s = .error e) ∧
    (∀ e v, hexConvert
        (s.colorPalette.getD (sampledFirstIndex code s) defaultColor).code =
        .ok v →
      hexConvert
        (s.colorPalette.getD (sampledSecondIndex code s) defaultColor).code =
        .error e →
      Render code n s = .error e) ∧
    (∀ e v w, s.transparentBackground = false →
      hexConvert
        (s.colorPalette.getD (sampledFirstIndex code s) defaultColor).code =
        .ok v →
      hexConvert
        (s.colorPalette.getD (sampledSecondIndex code s) defaultColor).code =
        .ok w →
      hexConvert
        (s.backgroundColors.getD (sampledBackgroundIndex code s) []) =
        .error e →
      Render code n s = .error e) ∧
    ((∃ v, hexConvert
        (s.colorPalette.getD (sampledFirstIndex code s) defaultColor).code =
        .ok v) →
     (∃ w, hexConvert
        (s.colorPalette.getD (sampledSecondIndex code s) defaultColor).code =
        .ok w) →
     (s.transparentBackground = false →
       ∃ u, hexConvert
          (s.backgroundColors.getD (sampledBackgroundIndex code s) []) =
          .ok u) →
     ∃ img, Render code n s = .ok img) ∧
    (∀ e, Render code n s = .error e →
      (hexConvert
          (s.colorPalette.getD (sampledFirstIndex code s) defaultColor).code
        ).isOk = false ∨
      (hexConvert
          (s.colorPalette.getD (sampledSecondIndex code s) defaultColor).code
        ).isOk = false ∨
      (s.transparentBackground = false ∧
        (hexConvert
            (s.backgroundColors.getD (sampledBackgroundIndex code s) [])
          ).isOk = false)) ∧
    (∀ e img, Render code n s = .error e → Render code n s ≠ .ok img) ∧
    (∀ bytes : List Nat, Code bytes < 2 ^ 64) := by
  refine ⟨hexConvert_isOk_iff, render_error_first code n s,
    ?_, ?_, ?_, ?_, ?_, code_lt_two_pow_64⟩
  · intro e v h1 h2
    exact render_error_second code n s e v h1 h2
  · intro e v w htr h1 h2 h3
    exact render_error_background code n s e v w htr h1 h2 h3
  · rintro ⟨⟨r1, g1, b1⟩, h1⟩ ⟨⟨r2, g2, b2⟩, h2⟩ hbg
    cases htr : s.transparentBackground with
    | true =>
      exact ⟨_, render_ok_transparent code n s r1 g1 b1 r2 g2 b2 htr h1 h2⟩
    | false =>
      obtain ⟨⟨br, bgc, bb⟩, h3⟩ := hbg htr
      exact ⟨_, render_ok_withBg code n s r1 g1 b1 r2 g2 b2 br bgc bb
        htr h1 h2 h3⟩
  · intro e he
    cases hc1 : hexConvert
        (s.colorPalette.getD (sampledFirstIndex code s) defaultColor).code with
    | error e1 => exact Or.inl (by simp [hc1, Except.isOk, Except.toBool])
    | ok v =>
      obtain ⟨r1, g1, b1⟩ := v
      cases hc2 : hexConvert
          (s.colorPalette.getD (sampledSecondIndex code s)
            defaultColor).code with
      | error e2 =>
        exact Or.inr (Or.inl (by simp [hc2, Except.isOk, Except.toBool]))
      | ok w =>
        obtain ⟨r2, g2, b2⟩ := w
        cases htr : s.transparentBackground with
        | true =>
          rw [render_ok_transparent code n s r1 g1 b1 r2 g2 b2 htr hc1 hc2]
            at he
          exact absurd he (by simp)
        | false =>
          cases hc3 : hexConvert
              (s.backgroundColors.getD (sampledBackgroundIndex code s) []) with
          | error e3 =>
            exact Or.inr (Or.inr
              ⟨rfl, by simp [hc3, Except.isOk, Except.toBool]⟩)
          | ok u =>
            obtain ⟨br, bgc, bb⟩ := u
            rw [render_ok_withBg code n s r1 g1 b1 r2 g2 b2 br bgc bb
              htr hc1 hc2 hc3] at he
            exact absurd he (by simp)
  · intro e img he
    rw [he]
    simp

/-- C9: for a non-empty palette both palette draws are in range, for a
non-empty background list the background draw is in range (so the `getD`
indexing in `Render` never falls back to its default), the selected entries
are members of their lists, and a singleton palette or background list
always yields its unique entry. -/
theorem sampling_bounds (code : Nat) (s : Settings)
    (hp : 0 < s.colorPalette.length) :
    sampledFirstIndex code s < s.colorPalette.length ∧
    sampledSecondIndex code s < s.colorPalette.length ∧
    (0 < s.backgroundColors.length →
      sampledBackgroundIndex code s < s.backgroundColors.length) ∧
    s.colorPalette.getD (sampledFirstIndex code s) defaultColor ∈
      s.colorPalette ∧
    s.colorPalette.getD (sampledSecondIndex code s) defaultColor ∈
      s.colorPalette ∧
    (∀ c, s.colorPalette = [c] →
      s.colorPalette.getD (sampledFirstIndex code s) defaultColor = c ∧
      s.colorPalette.getD (sampledSecondIndex code s) defaultColor = c) ∧
    (∀ b, s.backgroundColors = [b] →
      s.backgroundColors.getD (sampledBackgroundIndex code s) [] = b) := by
  have hi1 : sampledFirstIndex code s < s.colorPalette.length :=
    Nat.mod_lt _ hp
  have hi2 : sampledSecondIndex code s < s.colorPalette.length :=
    Nat.mod_lt _ hp
  refine ⟨hi1, hi2, fun hb => Nat.mod_lt _ hb, ?_, ?_, ?_, ?_⟩
  · rw [List.getD_eq_getElem s.colorPalette defaultColor hi1]
    exact List.getElem_mem hi1
  · rw [List.getD_eq_getElem s.colorPalette defaultColor hi2]
    exact List.getElem_mem hi2
  · intro c hc
    have hl : s.colorPalette.length = 1 := by rw [hc]; rfl
    have e1 : sampledFirstIndex code s = 0 := by
      rw [sampledFirstIndex, hl, Nat.mod_one]
    have e2 : sampledSecondIndex code s = 0 := by
      rw [sampledSecondIndex, hl, Nat.mod_one]
    rw [e1, e2, hc]
    exact ⟨rfl, rfl⟩
  · intro b hb
    have hl : s.backgroundColors.length = 1 := by rw [hb]; rfl
    have e3 : sampledBackgroundIndex code s = 0 := by
      rw [sampledBackgroundIndex, hl, Nat.mod_one]
    rw [e3, hb]
    rfl

/-- C9 witness: the bounds at code 5 with the concrete witness settings
(palette of three entries, one background color). -/
theorem sampling_bounds_witness :
    sampledFirstIndex 5 witnessSettings <
      witnessSettings.colorPalette.length ∧
    sampledSecondIndex 5 witnessSettings <
      witnessSettings.colorPalette.length ∧
    (0 < witnessSettings.backgroundColors.length →
      sampledBackgroundIndex 5 witnessSettings <
        witnessSettings.backgroundColors.length) ∧
    witnessSettings.colorPalette.getD (sampledFirstIndex 5 witnessSettings)
      defaultColor ∈ witnessSettings.colorPalette ∧
    witnessSettings.colorPalette.getD (sampledSecondIndex 5 witnessSettings)
      defaultColor ∈ witnessSettings.colorPalette ∧
    (∀ c, witnessSettings.colorPalette = [c] →
      witnessSettings.colorPalette.getD (sampledFirstIndex 5 witnessSettings)
        defaultColor = c ∧
      witnessSettings.colorPalette.getD (sampledSecondIndex 5 witnessSettings)
        defaultColor = c) ∧
    (∀ b, witnessSettings.backgroundColors = [b] →
      witnessSettings.backgroundColors.getD
        (sampledBackgroundIndex 5 witnessSettings) [] = b) :=
  sampling_bounds 5 witnessSettings (by decide)

/-- C10: the three pseudo-random draws depend on the code only through its
residue modulo 2^31 - 1, because the generator seed is `code % math.MaxInt32`
and `math.MaxInt32 = 2^31 - 1`. -/
theorem draws_depend_on_seed_residue (c1 c2 : Nat) (s : Settings)
    (h : c1 % (2 ^ 31 - 1) = c2 % (2 ^ 31 - 1)) :
    sampledFirstIndex c1 s = sampledFirstIndex c2 s ∧
    sampledSecondIndex c1 s = sampledSecondIndex c2 s ∧
    sampledBackgroundIndex c1 s = sampledBackgroundIndex c2 s ∧
    MaxInt32 = 2 ^ 31 - 1 := by
  have hM : MaxInt32 = 2 ^ 31 - 1 := by norm_num [MaxInt32]
  unfold sampledFirstIndex sampledSecondIndex sampledBackgroundIndex
  rw [hM, h]
  exact ⟨rfl, rfl, rfl, hM⟩

/-- C10 witness: codes 1 and 2^31 share the residue 1 modulo 2^31 - 1 and
draw identically with the witness settings. -/
theorem draws_depend_on_seed_residue_witness :
    sampledFirstIndex 1 witnessSettings =
      sampledFirstIndex 2147483648 witnessSettings ∧
    sampledSecondIndex 1 witnessSettings =
      sampledSecondIndex 2147483648 witnessSettings ∧
    sampledBackgroundIndex 1 witnessSettings =
      sampledBackgroundIndex 2147483648 witnessSettings ∧
    MaxInt32 = 2 ^ 31 - 1 :=
  draws_depend_on_seed_residue 1 2147483648 witnessSettings (by norm_num)

/-- The subpaths of a patch do not depend on the fill color. -/
lemma drawPatch_subpaths_shape (pos : Rat × Rat) (turn : Nat) (inv : Bool)
    (ty : Nat) (ps : Rat) (c : RGBA) (pw : Nat) :
    (drawPatch pos turn inv ty ps c pw).subpaths =
      drawPatchShape pos turn inv ty ps pw := by
  unfold drawPatchShape drawPatch
  by_cases h : inv <;> simp [h]

/-- Masked shift fields below bit `j` are unchanged by flipping bit `j`. -/
lemma maskShift_xor_high (x k m j : Nat) (hkm : k + m ≤ j) :
    (x ^^^ 1 <<< j) >>> k &&& (2 ^ m - 1) = x >>> k &&& (2 ^ m - 1) := by
  apply Nat.eq_of_testBit_eq
  intro i
  rw [Nat.testBit_and, Nat.testBit_and, Nat.testBit_shiftRight,
    Nat.testBit_shiftRight, Nat.testBit_two_pow_sub_one]
  by_cases him : i < m
  · have hne : j ≠ k + i := by omega
    rw [Nat.testBit_xor, Nat.shiftLeft_eq, one_mul, Nat.testBit_two_pow,
      decide_eq_false hne, Bool.xor_false]
  · simp [him]

/-- The single-bit mask is reduction mod 2. -/
lemma and_one_eq_mod (x : Nat) : x &&& 1 = x % 2 := by
  have h := Nat.and_pow_two_sub_one_eq_mod x 1
  norm_num at h
  try exact h
  try norm_num

/-- Flipping bit 47 toggles `swapCross`. -/
lemma swapCross_xor (x : Nat) : swapCross (x ^^^ 1 <<< 47) = !swapCross x := by
  unfold swapCross
  have e1 : ∀ y : Nat, (y >>> 47) &&& 1 = y / 2 ^ 47 % 2 := fun y => by
    rw [Nat.shiftRight_eq_div_pow, and_one_eq_mod]
  have conv1 : ∀ y : Nat, ((y >>> 47) &&& 1 == 1) = y.testBit 47 := fun y => by
    rw [e1 y, Nat.testBit_to_div_mod, Bool.eq_iff_iff]
    simp
  have hx : (x ^^^ 1 <<< 47).testBit 47 = !(x.testBit 47) := by
    rw [Nat.testBit_xor, Nat.shiftLeft_eq, one_mul, Nat.testBit_two_pow]
    simp
  rw [conv1, conv1, hx]

/-- Any successful render draws the nine `renderFills` patches for some pair
of resolved colors. -/
lemma render_ok_fills (code n : Nat) (s : Settings) (img : Image)
    (h : Render code n s = .ok img) :
    ∃ fore other, img.fills = renderFills code n s fore other := by
  cases hc1 : hexConvert
      (s.colorPalette.getD (sampledFirstIndex code s) defaultColor).code with
  | error e =>
    rw [render_error_first code n s e hc1] at h
    exact absurd h (by simp)
  | ok v =>
    obtain ⟨r1, g1, b1⟩ := v
    cases hc2 : hexConvert
        (s.colorPalette.getD (sampledSecondIndex code s) defaultColor).code with
    | error e =>
      rw [render_error_second code n s e _ hc1 hc2] at h
      exact absurd h (by simp)
    | ok w =>
      obtain ⟨r2, g2, b2⟩ := w
      cases htr : s.transparentBackground with
      | true =>
        rw [render_ok_transparent code n s r1 g1 b1 r2 g2 b2 htr hc1 hc2] at h
        cases h
        exact ⟨_, _, rfl⟩
      | false =>
        cases hc3 : hexConvert
            (s.backgroundColors.getD (sampledBackgroundIndex code s) []) with
        | error e =>
          rw [render_error_background code n s e _ _ htr hc1 hc2 hc3] at h
          exact absurd h (by simp)
        | ok u =>
          obtain ⟨br, bgc, bb⟩ := u
          rw [render_ok_withBg code n s r1 g1 b1 r2 g2 b2 br bgc bb
            htr hc1 hc2 hc3] at h
          cases h
          exact ⟨_, _, rfl⟩

set_option maxRecDepth 4000

/-- C7 counterexample: at codes 0 and 2^47 (which differ exactly in bit 47)
with the concrete witness settings, the first corner tile (fill number 5) is
drawn in different colors, because the generator seed `code % (2^31-1)`
depends on bit 47 and the second palette draw differs; so the images differ
outside the middle tile, refuting the claim. -/
theorem swapcross_counterexample :
    (140737488355328 : Nat) = 2 ^ 47 ∧
    (140737488355328 : Nat) = 0 ^^^ 1 <<< 47 ∧
    (0 : Nat) % MaxInt32 ≠ 140737488355328 % MaxInt32 ∧
    (Render 0 12 witnessSettingsT).map
        (fun img => (img.fills.getD 5 ⟨[], ⟨0, 0, 0, 0⟩⟩).color) ≠
      (Render 140737488355328 12 witnessSettingsT).map
        (fun img => (img.fills.getD 5 ⟨[], ⟨0, 0, 0, 0⟩⟩).color) := by
  refine ⟨by norm_num, by decide, by decide, ?_⟩
  rw [render_ok_transparent 0 12 witnessSettingsT 0 255 0 0 0 255 rfl rfl rfl,
    render_ok_transparent 140737488355328 12 witnessSettingsT 0 255 0 255 0 0
      rfl rfl rfl]
  intro hcontra
  simp only [Except.map, renderFills, Except.ok.injEq] at hcontra
  exact absurd hcontra (by decide)

/-- C7 (amended): flipping bit 47 changes no decoded shape field — template
indices, invert flags and turn counts are unchanged and only `swapCross`
toggles — so the tile geometry (every fill's subpaths) of two successful
renders is identical; but the generator seed `code mod (2^31-1)` also
depends on bit 47, so the sampled colors may change; when the three sampled
draws coincide, the two images agree everywhere except possibly in the
middle tile's fill color. -/
theorem swapcross_amended (code n : Nat) (s : Settings) :
    middleTypeRaw (code ^^^ 1 <<< 47) = middleTypeRaw code ∧
    middleType (code ^^^ 1 <<< 47) = middleType code ∧
    middleInvert (code ^^^ 1 <<< 47) = middleInvert code ∧
    cornerType (code ^^^ 1 <<< 47) = cornerType code ∧
    cornerInvert (code ^^^ 1 <<< 47) = cornerInvert code ∧
    cornerTurn (code ^^^ 1 <<< 47) = cornerTurn code ∧
    sideType (code ^^^ 1 <<< 47) = sideType code ∧
    sideInvert (code ^^^ 1 <<< 47) = sideInvert code ∧
    sideTurn (code ^^^ 1 <<< 47) = sideTurn code ∧
    swapCross (code ^^^ 1 <<< 47) = !swapCross code ∧
    (∀ img img2, Render code n s = .ok img →
      Render (code ^^^ 1 <<< 47) n s = .ok img2 →
      img2.fills.map FillCmd.subpaths = img.fills.map FillCmd.subpaths) ∧
    (sampledFirstIndex (code ^^^ 1 <<< 47) s = sampledFirstIndex code s →
      sampledSecondIndex (code ^^^ 1 <<< 47) s = sampledSecondIndex code s →
      sampledBackgroundIndex (code ^^^ 1 <<< 47) s =
        sampledBackgroundIndex code s →
      ∀ img img2, Render code n s = .ok img →
        Render (code ^^^ 1 <<< 47) n s = .ok img2 →
        img2.width = img.width ∧ img2.height = img.height ∧
        img2.background = img.background ∧
        img2.fills.tail = img.fills.tail ∧
        (img2.fills.getD 0 ⟨[], ⟨0, 0, 0, 0⟩⟩).subpaths =
          (img.fills.getD 0 ⟨[], ⟨0, 0, 0, 0⟩⟩).subpaths) := by
  have hm : ∀ k m : Nat, k + m ≤ 47 →
      (code ^^^ 1 <<< 47) >>> k &&& (2 ^ m - 1) =
        code >>> k &&& (2 ^ m - 1) :=
    fun k m h => maskShift_xor_high code k m 47 h
  have e1 : middleTypeRaw (code ^^^ 1 <<< 47) = middleTypeRaw code := by
    have h := hm 0 2 (by norm_num)
    rw [Nat.shiftRight_zero, Nat.shiftRight_zero] at h
    norm_num at h
    exact h
  have e2 : middleType (code ^^^ 1 <<< 47) = middleType code := by
    unfold middleType
    rw [e1]
  have e3 : middleInvert (code ^^^ 1 <<< 47) = middleInvert code := by
    have h := hm 2 1 (by norm_num)
    norm_num at h
    unfold middleInvert
    rw [and_one_eq_mod, and_one_eq_mod, h]
  have e4 : cornerType (code ^^^ 1 <<< 47) = cornerType code := by
    have h := hm 3 4 (by norm_num)
    norm_num at h
    unfold cornerType
    rw [h]
  have e5 : cornerInvert (code ^^^ 1 <<< 47) = cornerInvert code := by
    have h := hm 7 1 (by norm_num)
    norm_num at h
    unfold cornerInvert
    rw [and_one_eq_mod, and_one_eq_mod, h]
  have e6 : cornerTurn (code ^^^ 1 <<< 47) = cornerTurn code := by
    have h := hm 8 2 (by norm_num)
    norm_num at h
    unfold cornerTurn
    rw [h]
  have e7 : sideType (code ^^^ 1 <<< 47) = sideType code := by
    have h := hm 10 4 (by norm_num)
    norm_num at h
    unfold sideType
    rw [h]
  have e8 : sideInvert (code ^^^ 1 <<< 47) = sideInvert code := by
    have h := hm 14 1 (by norm_num)
    norm_num at h
    unfold sideInvert
    rw [and_one_eq_mod, and_one_eq_mod, h]
  have e9 : sideTurn (code ^^^ 1 <<< 47) = sideTurn code := by
    have h := hm 15 2 (by norm_num)
    norm_num at h
    unfold sideTurn
    rw [h]
  refine ⟨e1, e2, e3, e4, e5, e6, e7, e8, e9, swapCross_xor code, ?_, ?_⟩
  · intro img img2 h1 h2
    obtain ⟨f, o, hf⟩ := render_ok_fills code n s img h1
    obtain ⟨f2, o2, hf2⟩ := render_ok_fills (code ^^^ 1 <<< 47) n s img2 h2
    rw [hf, hf2]
    simp only [renderFills, List.map_cons, List.map_nil,
      drawPatch_subpaths_shape]
    rw [e2, e3, e4, e5, e6, e7, e8, e9]
  · intro hi1 hi2 hi3 img img2 h1 h2
    cases hc1 : hexConvert
        (s.colorPalette.getD (sampledFirstIndex code s) defaultColor).code with
    | error e =>
      rw [render_error_first code n s e hc1] at h1
      exact absurd h1 (by simp)
    | ok v =>
      obtain ⟨r1, g1, b1⟩ := v
      have hc1x : hexConvert
          (s.colorPalette.getD (sampledFirstIndex (code ^^^ 1 <<< 47) s)
            defaultColor).code = .ok (r1, g1, b1) := by
        rw [hi1]
        exact hc1
      cases hc2 : hexConvert
          (s.colorPalette.getD (sampledSecondIndex code s)
            defaultColor).code with
      | error e =>
        rw [render_error_second code n s e _ hc1 hc2] at h1
        exact absurd h1 (by simp)
      | ok w =>
        obtain ⟨r2, g2, b2⟩ := w
        have hc2x : hexConvert
            (s.colorPalette.getD (sampledSecondIndex (code ^^^ 1 <<< 47) s)
              defaultColor).code = .ok (r2, g2, b2) := by
          rw [hi2]
          exact hc2
        cases htr : s.transparentBackground with
        | true =>
          rw [render_ok_transparent code n s r1 g1 b1 r2 g2 b2
            htr hc1 hc2] at h1
          rw [render_ok_transparent (code ^^^ 1 <<< 47) n s r1 g1 b1 r2 g2 b2
            htr hc1x hc2x] at h2
          cases h1
          cases h2
          refine ⟨rfl, rfl, rfl, ?_, ?_⟩
          · simp only [renderFills, List.tail_cons]
            rw [e4, e5, e6, e7, e8, e9]
          · simp only [renderFills, List.getD_cons_zero,
              drawPatch_subpaths_shape]
            rw [e2, e3]
        | false =>
          cases hc3 : hexConvert
              (s.backgroundColors.getD (sampledBackgroundIndex code s) []) with
          | error e =>
            rw [render_error_background code n s e _ _ htr hc1 hc2 hc3] at h1
            exact absurd h1 (by simp)
          | ok u =>
            obtain ⟨br, bgc, bb⟩ := u
            have hc3x : hexConvert
                (s.backgroundColors.getD
                  (sampledBackgroundIndex (code ^^^ 1 <<< 47) s) []) =
                .ok (br, bgc, bb) := by
              rw [hi3]
              exact hc3
            rw [render_ok_withBg code n s r1 g1 b1 r2 g2 b2 br bgc bb
              htr hc1 hc2 hc3] at h1
            rw [render_ok_withBg (code ^^^ 1 <<< 47) n s r1 g1 b1 r2 g2 b2
              br bgc bb htr hc1x hc2x hc3x] at h2
            cases h1
            cases h2
            refine ⟨rfl, rfl, rfl, ?_, ?_⟩
            · simp only [renderFills, List.tail_cons]
              rw [e4, e5, e6, e7, e8, e9]
            · simp only [renderFills, List.getD_cons_zero,
                drawPatch_subpaths_shape]
              rw [e2, e3]

/-! ## The invert-complement law: universal winding facts.
The remaining lemmas prove, for every patch size, tile position, pen
width, template and rotation, that the plain and inverted draws fill
complementary point sets inside the tile. The case analyses over the
crossing-rule conditions are large, so the heartbeat limit is raised. -/

set_option maxHeartbeats 4000000

/-- An edge whose endpoints share their second relative coordinate is
horizontal and contributes no crossing. -/
lemma edgeContrib_const_y (u v : Rat × Rat) (h : u.2 = v.2) :
    edgeContrib u v = 0 := by
  unfold edgeContrib
  split_ifs <;> first | rfl | linarith

/-- `polyEdges` commutes with mapping a function over the vertices. -/
lemma polyEdges_map {α β : Type} (f : α → β) (P : List α) :
    polyEdges (P.map f) = (polyEdges P).map fun e => (f e.1, f e.2) := by
  cases P with
  | nil => rfl
  | cons p ps =>
    show List.zip (List.map f (p :: ps)) (List.map f ps ++ [f p]) = _
    rw [show List.map f ps ++ [f p] = List.map f (ps ++ [p]) by simp,
      List.zip_map]
    rfl

/-! ## Scale and translation invariance of the winding machinery -/

/-- Multiplying by a positive factor preserves nonpositivity. -/
lemma mul_nonpos_iff_left (s a : Rat) (hs : 0 < s) : s * a ≤ 0 ↔ a ≤ 0 := by
  constructor
  · intro h
    by_contra hc
    push_neg at hc
    nlinarith
  · intro h
    nlinarith

/-- Multiplying by a positive factor preserves positivity. -/
lemma mul_pos_iff_left (s a : Rat) (hs : 0 < s) : 0 < s * a ↔ 0 < a := by
  constructor
  · intro h
    by_contra hc
    push_neg at hc
    nlinarith
  · intro h
    nlinarith

/-- Multiplying by a positive factor preserves negativity. -/
lemma mul_neg_iff_left (s a : Rat) (hs : 0 < s) : s * a < 0 ↔ a < 0 := by
  constructor
  · intro h
    by_contra hc
    push_neg at hc
    nlinarith
  · intro h
    nlinarith

/-- The crossing rule is invariant under scaling both relative
coordinates by a positive factor: the span conditions scale by `s` and the
cross product by `s * s`. -/
lemma edgeContrib_scale (s : Rat) (hs : 0 < s) (u v : Rat × Rat) :
    edgeContrib (s * u.1, s * u.2) (s * v.1, s * v.2) = edgeContrib u v := by
  unfold edgeContrib
  dsimp only
  have hc : s * u.1 * (s * v.2) - s * u.2 * (s * v.1) =
      s * s * (u.1 * v.2 - u.2 * v.1) := by ring
  have hss : 0 < s * s := mul_pos hs hs
  have i1 : s * u.2 ≤ 0 ↔ u.2 ≤ 0 := mul_nonpos_iff_left s u.2 hs
  have i2 : 0 < s * v.2 ↔ 0 < v.2 := mul_pos_iff_left s v.2 hs
  have i3 : s * v.2 ≤ 0 ↔ v.2 ≤ 0 := mul_nonpos_iff_left s v.2 hs
  have i4 : 0 < s * s * (u.1 * v.2 - u.2 * v.1) ↔
      0 < u.1 * v.2 - u.2 * v.1 :=
    mul_pos_iff_left (s * s) (u.1 * v.2 - u.2 * v.1) hss
  have i5 : s * s * (u.1 * v.2 - u.2 * v.1) < 0 ↔
      u.1 * v.2 - u.2 * v.1 < 0 :=
    mul_neg_iff_left (s * s) (u.1 * v.2 - u.2 * v.1) hss
  simp only [hc, i1, i2, i3, i4, i5]

/-- Winding numbers are invariant under a positive scaling followed by a
translation, applied to the polygon vertices and the query point alike. -/
lemma windingAt_affine (s : Rat) (hs : 0 < s) (d1 d2 x y : Rat)
    (P : List (Rat × Rat)) :
    windingAt (s * x + d1, s * y + d2)
      (P.map fun p => (s * p.1 + d1, s * p.2 + d2)) = windingAt (x, y) P := by
  unfold windingAt
  rw [polyEdges_map, List.map_map]
  congr 1
  apply List.map_congr_left
  intro e _
  show edgeContrib _ _ = edgeContrib _ _
  have hp1 : ((s * e.1.1 + d1) - (s * x + d1), (s * e.1.2 + d2) - (s * y + d2))
      = (s * (e.1.1 - x), s * (e.1.2 - y)) := by
    rw [Prod.ext_iff]
    refine ⟨?_, ?_⟩ <;> (dsimp only; ring)
  have hp2 : ((s * e.2.1 + d1) - (s * x + d1), (s * e.2.2 + d2) - (s * y + d2))
      = (s * (e.2.1 - x), s * (e.2.2 - y)) := by
    rw [Prod.ext_iff]
    refine ⟨?_, ?_⟩ <;> (dsimp only; ring)
  rw [hp1, hp2]
  exact edgeContrib_scale s hs (e.1.1 - x, e.1.2 - y) (e.2.1 - x, e.2.2 - y)

/-! ## The subpaths of `drawPatch` in affine-of-rotated form -/

/-- The transform of `drawPatch` on a scaled template point, rewritten as
the logical-grid rotation about (2, 2) followed by the tile scaling and
translation: scaling commutes with the rotation about the tile center. -/
lemma patchTransform_affine (pos : Rat × Rat) (t : Nat) (ps : Rat)
    (pw : Nat) (a b : Rat) :
    patchTransform pos t ps pw (a / 4 * ps, b / 4 * ps) =
      (ps / 4 * (rotAbout t (2, 2) (a, b)).1 + (pos.1 * ps + (pw : Rat) / 2),
       ps / 4 * (rotAbout t (2, 2) (a, b)).2 +
         (pos.2 * ps + (pw : Rat) / 2)) := by
  unfold patchTransform rotAbout rotQuarter
  have h4 : t % 4 = 0 ∨ t % 4 = 1 ∨ t % 4 = 2 ∨ t % 4 = 3 := by omega
  rcases h4 with h | h | h | h <;>
    (rw [h, Prod.ext_iff]
     refine ⟨?_, ?_⟩ <;> (push_cast; ring))

/-- The single subpath of a plain draw: the template rotated on the
logical 4x4 grid, then scaled by `patchSize / 4` and moved to the tile. -/
lemma drawPatch_subpaths_plain (pos : Rat × Rat) (turn ty : Nat) (ps : Rat)
    (c : RGBA) (pw : Nat) :
    (drawPatch pos turn false ty ps c pw).subpaths =
      [((pathSet.getD ty []).map (rotAbout (turn % 4) (2, 2))).map
        (fun p => (ps / 4 * p.1 + (pos.1 * ps + (pw : Rat) / 2),
                   ps / 4 * p.2 + (pos.2 * ps + (pw : Rat) / 2)))] := by
  unfold drawPatch
  simp only [Bool.false_eq_true, if_false, List.map_map]
  congr 1
  apply List.map_congr_left
  intro p _
  exact patchTransform_affine pos (turn % 4) ps pw p.1 p.2

/-- The two subpaths of an inverted draw: the transformed template and the
tile boundary square, both as rotated logical polygons under the same
affine map. -/
lemma drawPatch_subpaths_invert (pos : Rat × Rat) (turn ty : Nat) (ps : Rat)
    (c : RGBA) (pw : Nat) :
    (drawPatch pos turn true ty ps c pw).subpaths =
      [((pathSet.getD ty []).map (rotAbout (turn % 4) (2, 2))).map
        (fun p => (ps / 4 * p.1 + (pos.1 * ps + (pw : Rat) / 2),
                   ps / 4 * p.2 + (pos.2 * ps + (pw : Rat) / 2))),
       (([(0, 0), (0, 4), (4, 4), (4, 0)] :
          List (Rat × Rat)).map (rotAbout (turn % 4) (2, 2))).map
        (fun p => (ps / 4 * p.1 + (pos.1 * ps + (pw : Rat) / 2),
                   ps / 4 * p.2 + (pos.2 * ps + (pw : Rat) / 2)))] := by
  have e0 : patchTransform pos (turn % 4) ps pw (0, 0) =
      (ps / 4 * (rotAbout (turn % 4) (2, 2) (0, 0)).1 +
        (pos.1 * ps + (pw : Rat) / 2),
       ps / 4 * (rotAbout (turn % 4) (2, 2) (0, 0)).2 +
        (pos.2 * ps + (pw : Rat) / 2)) := by
    conv_lhs => rw [show ((0 : Rat), (0 : Rat)) =
      ((0 : Rat) / 4 * ps, (0 : Rat) / 4 * ps) from by norm_num]
    exact patchTransform_affine pos (turn % 4) ps pw 0 0
  have e1 : patchTransform pos (turn % 4) ps pw (0, ps) =
      (ps / 4 * (rotAbout (turn % 4) (2, 2) (0, 4)).1 +
        (pos.1 * ps + (pw : Rat) / 2),
       ps / 4 * (rotAbout (turn % 4) (2, 2) (0, 4)).2 +
        (pos.2 * ps + (pw : Rat) / 2)) := by
    conv_lhs => rw [show ((0 : Rat), ps) =
      ((0 : Rat) / 4 * ps, (4 : Rat) / 4 * ps) from by norm_num]
    exact patchTransform_affine pos (turn % 4) ps pw 0 4
  have e2 : patchTransform pos (turn % 4) ps pw (ps, ps) =
      (ps / 4 * (rotAbout (turn % 4) (2, 2) (4, 4)).1 +
        (pos.1 * ps + (pw : Rat) / 2),
       ps / 4 * (rotAbout (turn % 4) (2, 2) (4, 4)).2 +
        (pos.2 * ps + (pw : Rat) / 2)) := by
    conv_lhs => rw [show (ps, ps) =
      ((4 : Rat) / 4 * ps, (4 : Rat) / 4 * ps) from by norm_num]
    exact patchTransform_affine pos (turn % 4) ps pw 4 4
  have e3 : patchTransform pos (turn % 4) ps pw (ps, 0) =
      (ps / 4 * (rotAbout (turn % 4) (2, 2) (4, 0)).1 +
        (pos.1 * ps + (pw : Rat) / 2),
       ps / 4 * (rotAbout (turn % 4) (2, 2) (4, 0)).2 +
        (pos.2 * ps + (pw : Rat) / 2)) := by
    conv_lhs => rw [show (ps, (0 : Rat)) =
      ((4 : Rat) / 4 * ps, (0 : Rat) / 4 * ps) from by norm_num]
    exact patchTransform_affine pos (turn % 4) ps pw 4 0
  unfold drawPatch
  simp only [if_true, List.map_map, List.map_cons, List.map_nil]
  rw [e0, e1, e2, e3]
  congr 1
  apply List.map_congr_left
  intro p _
  exact patchTransform_affine pos (turn % 4) ps pw p.1 p.2

/-- The filled-test comparison for a two-subpath command against a
one-subpath command whose winding differs by the boundary value -1. -/
lemma filled_of_winding (q : Rat × Rat) (cmdT cmdF : FillCmd) (a : Int)
    (hT : cmdWinding q cmdT = a + -1) (hF : cmdWinding q cmdF = a)
    (ha : a = 0 ∨ a = 1) :
    cmdFilled q cmdT = !cmdFilled q cmdF := by
  unfold cmdFilled
  simp only [hT, hF]
  rcases ha with h | h <;> subst h <;> decide

/-- Evaluation rule for `cmdFilled` from a computed total winding. -/
lemma filled_iff_winding (q : Rat × Rat) (cmd : FillCmd) (a : Int)
    (h : cmdWinding q cmd = a) : cmdFilled q cmd = decide (a ≠ 0) := by
  unfold cmdFilled
  simp only [h]

/-- The complement law for one tile, template and rotation, given the two
core winding facts: if the rotated logical template winds every point 0 or
1 times and the rotated boundary square winds interior points -1 times,
then at every point strictly inside the tile exactly one of the inverted
and plain draws is filled. -/
lemma complement_general (pos : Rat × Rat) (turn ty : Nat) (ps : Rat)
    (pw : Nat) (c c2 : RGBA) (q : Rat × Rat) (P Sq : List (Rat × Rat))
    (hps : 0 < ps)
    (hP : (pathSet.getD ty []).map (rotAbout (turn % 4) (2, 2)) = P)
    (hSq : ([(0, 0), (0, 4), (4, 4), (4, 0)] :
        List (Rat × Rat)).map (rotAbout (turn % 4) (2, 2)) = Sq)
    (hcore : ∀ x y : Rat, windingAt (x, y) P = 0 ∨ windingAt (x, y) P = 1)
    (hsq : ∀ x y : Rat, 0 < x → x < 4 → 0 < y → y < 4 →
      windingAt (x, y) Sq = -1)
    (hx1 : pos.1 * ps + (pw : Rat) / 2 < q.1)
    (hx2 : q.1 < pos.1 * ps + (pw : Rat) / 2 + ps)
    (hy1 : pos.2 * ps + (pw : Rat) / 2 < q.2)
    (hy2 : q.2 < pos.2 * ps + (pw : Rat) / 2 + ps) :
    cmdFilled q (drawPatch pos turn true ty ps c pw) =
      !cmdFilled q (drawPatch pos turn false ty ps c2 pw) := by
  have hs4 : 0 < ps / 4 := by linarith
  have hne : ps / 4 ≠ 0 := ne_of_gt hs4
  obtain ⟨x0, y0, hb1, hb2, hb3, hb4, rfl⟩ : ∃ x0 y0 : Rat,
      0 < x0 ∧ x0 < 4 ∧ 0 < y0 ∧ y0 < 4 ∧
      q = (ps / 4 * x0 + (pos.1 * ps + (pw : Rat) / 2),
           ps / 4 * y0 + (pos.2 * ps + (pw : Rat) / 2)) := by
    refine ⟨(q.1 - (pos.1 * ps + (pw : Rat) / 2)) / (ps / 4),
            (q.2 - (pos.2 * ps + (pw : Rat) / 2)) / (ps / 4),
            div_pos (by linarith) hs4, ?_,
            div_pos (by linarith) hs4, ?_, ?_⟩
    · rw [div_lt_iff₀ hs4]
      linarith
    · rw [div_lt_iff₀ hs4]
      linarith
    · rw [Prod.ext_iff]
      constructor <;>
        (dsimp only
         rw [mul_comm, div_mul_cancel₀ _ hne]
         ring)
  have hT : cmdWinding
      (ps / 4 * x0 + (pos.1 * ps + (pw : Rat) / 2),
       ps / 4 * y0 + (pos.2 * ps + (pw : Rat) / 2))
      (drawPatch pos turn true ty ps c pw) =
      windingAt (x0, y0) P + -1 := by
    unfold cmdWinding
    rw [drawPatch_subpaths_invert pos turn ty ps c pw, hP, hSq]
    simp only [List.map_cons, List.map_nil, List.sum_cons, List.sum_nil]
    rw [windingAt_affine (ps / 4) hs4 _ _ x0 y0 P,
      windingAt_affine (ps / 4) hs4 _ _ x0 y0 Sq,
      hsq x0 y0 hb1 hb2 hb3 hb4]
    ring
  have hF : cmdWinding
      (ps / 4 * x0 + (pos.1 * ps + (pw : Rat) / 2),
       ps / 4 * y0 + (pos.2 * ps + (pw : Rat) / 2))
      (drawPatch pos turn false ty ps c2 pw) =
      windingAt (x0, y0) P := by
    unfold cmdWinding
    rw [drawPatch_subpaths_plain pos turn ty ps c2 pw, hP]
    simp only [List.map_cons, List.map_nil, List.sum_cons, List.sum_nil]
    rw [windingAt_affine (ps / 4) hs4 _ _ x0 y0 P]
    ring
  exact filled_of_winding _ _ _ _ hT hF (hcore x0 y0)

/-- The plain draw of the empty template (index 15) fills no point. -/
lemma plain_empty_unfilled (pos : Rat × Rat) (turn : Nat) (ps : Rat)
    (c : RGBA) (pw : Nat) (q : Rat × Rat) :
    cmdFilled q (drawPatch pos turn false 15 ps c pw) = false := by
  have h : cmdWinding q (drawPatch pos turn false 15 ps c pw) = 0 := by
    unfold cmdWinding
    rw [drawPatch_subpaths_plain pos turn 15 ps c pw,
      show (pathSet.getD 15 ([] : List (Rat × Rat))) = [] from rfl]
    simp only [List.map_nil, List.map_cons, List.sum_cons, List.sum_nil]
    rw [show windingAt q [] = 0 from rfl]
    norm_num
  rw [filled_iff_winding q _ 0 h]
  decide

/-- The inverted draw of the empty template fills every point strictly
inside the tile. -/
lemma inverted_empty_covers (pos : Rat × Rat) (turn : Nat) (ps : Rat)
    (c : RGBA) (pw : Nat) (q : Rat × Rat) (Sq : List (Rat × Rat))
    (hps : 0 < ps)
    (hSq : ([(0, 0), (0, 4), (4, 4), (4, 0)] :
        List (Rat × Rat)).map (rotAbout (turn % 4) (2, 2)) = Sq)
    (hsq : ∀ x y : Rat, 0 < x → x < 4 → 0 < y → y < 4 →
      windingAt (x, y) Sq = -1)
    (hx1 : pos.1 * ps + (pw : Rat) / 2 < q.1)
    (hx2 : q.1 < pos.1 * ps + (pw : Rat) / 2 + ps)
    (hy1 : pos.2 * ps + (pw : Rat) / 2 < q.2)
    (hy2 : q.2 < pos.2 * ps + (pw : Rat) / 2 + ps) :
    cmdFilled q (drawPatch pos turn true 15 ps c pw) = true := by
  have hs4 : 0 < ps / 4 := by linarith
  have hne : ps / 4 ≠ 0 := ne_of_gt hs4
  obtain ⟨x0, y0, hb1, hb2, hb3, hb4, rfl⟩ : ∃ x0 y0 : Rat,
      0 < x0 ∧ x0 < 4 ∧ 0 < y0 ∧ y0 < 4 ∧
      q = (ps / 4 * x0 + (pos.1 * ps + (pw : Rat) / 2),
           ps / 4 * y0 + (pos.2 * ps + (pw : Rat) / 2)) := by
    refine ⟨(q.1 - (pos.1 * ps + (pw : Rat) / 2)) / (ps / 4),
            (q.2 - (pos.2 * ps + (pw : Rat) / 2)) / (ps / 4),
            div_pos (by linarith) hs4, ?_,
            div_pos (by linarith) hs4, ?_, ?_⟩
    · rw [div_lt_iff₀ hs4]
      linarith
    · rw [div_lt_iff₀ hs4]
      linarith
    · rw [Prod.ext_iff]
      constructor <;>
        (dsimp only
         rw [mul_comm, div_mul_cancel₀ _ hne]
         ring)
  have h : cmdWinding
      (ps / 4 * x0 + (pos.1 * ps + (pw : Rat) / 2),
       ps / 4 * y0 + (pos.2 * ps + (pw : Rat) / 2))
      (drawPatch pos turn true 15 ps c pw) = -1 := by
    unfold cmdWinding
    rw [drawPatch_subpaths_invert pos turn 15 ps c pw, hSq,
      show (pathSet.getD 15 ([] : List (Rat × Rat))) = [] from rfl]
    simp only [List.map_nil, List.map_cons, List.sum_cons, List.sum_nil]
    rw [windingAt_affine (ps / 4) hs4 _ _ x0 y0 Sq,
      hsq x0 y0 hb1 hb2 hb3 hb4,
      show windingAt
        (ps / 4 * x0 + (pos.1 * ps + (pw : Rat) / 2),
         ps / 4 * y0 + (pos.2 * ps + (pw : Rat) / 2))
        ([] : List (Rat × Rat)) = 0 from rfl]
    norm_num
  rw [filled_iff_winding _ _ (-1) h]
  decide

/-- The winding of template 0 rotated by 0 quarter turns is 0 or 1 at every point of the plane. -/
lemma w_poly_t0_r0 (x y : Rat) :
    windingAt (x, y) [(0, 0), (4, 0), (4, 4), (0, 4)] = 0 ∨
    windingAt (x, y) [(0, 0), (4, 0), (4, 4), (0, 4)] = 1 := by
  have hw : windingAt (x, y) [(0, 0), (4, 0), (4, 4), (0, 4)] =
      edgeContrib (0 - x, 0 - y) (4 - x, 0 - y) +
      (edgeContrib (4 - x, 0 - y) (4 - x, 4 - y) +
      (edgeContrib (4 - x, 4 - y) (0 - x, 4 - y) +
      (edgeContrib (0 - x, 4 - y) (0 - x, 0 - y) + 0))) := rfl
  rw [hw, edgeContrib_const_y (0 - x, 0 - y) (4 - x, 0 - y) rfl,
    edgeContrib_const_y (4 - x, 4 - y) (0 - x, 4 - y) rfl]
  unfold edgeContrib
  norm_num
  split_ifs <;> norm_num <;> linarith

/-- The winding of template 0 rotated by 1 quarter turns is 0 or 1 at every point of the plane. -/
lemma w_poly_t0_r1 (x y : Rat) :
    windingAt (x, y) [(4, 0), (4, 4), (0, 4), (0, 0)] = 0 ∨
    windingAt (x, y) [(4, 0), (4, 4), (0, 4), (0, 0)] = 1 := by
  have hw : windingAt (x, y) [(4, 0), (4, 4), (0, 4), (0, 0)] =
      edgeContrib (4 - x, 0 - y) (4 - x, 4 - y) +
      (edgeContrib (4 - x, 4 - y) (0 - x, 4 - y) +
      (edgeContrib (0 - x, 4 - y) (0 - x, 0 - y) +
      (edgeContrib (0 - x, 0 - y) (4 - x, 0 - y) + 0))) := rfl
  rw [hw, edgeContrib_const_y (4 - x, 4 - y) (0 - x, 4 - y) rfl,
    edgeContrib_const_y (0 - x, 0 - y) (4 - x, 0 - y) rfl]
  unfold edgeContrib
  norm_num
  split_ifs <;> norm_num <;> linarith

/-- The winding of template 0 rotated by 2 quarter turns is 0 or 1 at every point of the plane. -/
lemma w_poly_t0_r2 (x y : Rat) :
    windingAt (x, y) [(4, 4), (0, 4), (0, 0), (4, 0)] = 0 ∨
    windingAt (x, y) [(4, 4), (0, 4), (0, 0), (4, 0)] = 1 := by
  have hw : windingAt (x, y) [(4, 4), (0, 4), (0, 0), (4, 0)] =
      edgeContrib (4 - x, 4 - y) (0 - x, 4 - y) +
      (edgeContrib (0 - x, 4 - y) (0 - x, 0 - y) +
      (edgeContrib (0 - x, 0 - y) (4 - x, 0 - y) +
      (edgeContrib (4 - x, 0 - y) (4 - x, 4 - y) + 0))) := rfl
  rw [hw, edgeContrib_const_y (4 - x, 4 - y) (0 - x, 4 - y) rfl,
    edgeContrib_const_y (0 - x, 0 - y) (4 - x, 0 - y) rfl]
  unfold edgeContrib
  norm_num
  split_ifs <;> norm_num <;> linarith

/-- The winding of template 0 rotated by 3 quarter turns is 0 or 1 at every point of the plane. -/
lemma w_poly_t0_r3 (x y : Rat) :
    windingAt (x, y) [(0, 4), (0, 0), (4, 0), (4, 4)] = 0 ∨
    windingAt (x, y) [(0, 4), (0, 0), (4, 0), (4, 4)] = 1 := by
  have hw : windingAt (x, y) [(0, 4), (0, 0), (4, 0), (4, 4)] =
      edgeContrib (0 - x, 4 - y) (0 - x, 0 - y) +
      (edgeContrib (0 - x, 0 - y) (4 - x, 0 - y) +
      (edgeContrib (4 - x, 0 - y) (4 - x, 4 - y) +
      (edgeContrib (4 - x, 4 - y) (0 - x, 4 - y) + 0))) := rfl
  rw [hw, edgeContrib_const_y (0 - x, 0 - y) (4 - x, 0 - y) rfl,
    edgeContrib_const_y (4 - x, 4 - y) (0 - x, 4 - y) rfl]
  unfold edgeContrib
  norm_num
  split_ifs <;> norm_num <;> linarith

/-- The winding of template 1 rotated by 0 quarter turns is 0 or 1 at every point of the plane. -/
lemma w_poly_t1_r0 (x y : Rat) :
    windingAt (x, y) [(0, 0), (4, 0), (0, 4)] = 0 ∨
    windingAt (x, y) [(0, 0), (4, 0), (0, 4)] = 1 := by
  have hw : windingAt (x, y) [(0, 0), (4, 0), (0, 4)] =
      edgeContrib (0 - x, 0 - y) (4 - x, 0 - y) +
      (edgeContrib (4 - x, 0 - y) (0 - x, 4 - y) +
      (edgeContrib (0 - x, 4 - y) (0 - x, 0 - y) + 0)) := rfl
  rw [hw, edgeContrib_const_y (0 - x, 0 - y) (4 - x, 0 - y) rfl]
  unfold edgeContrib
  norm_num
  split_ifs <;> norm_num <;> linarith

/-- The winding of template 1 rotated by 1 quarter turns is 0 or 1 at every point of the plane. -/
lemma w_poly_t1_r1 (x y : Rat) :
    windingAt (x, y) [(4, 0), (4, 4), (0, 0)] = 0 ∨
    windingAt (x, y) [(4, 0), (4, 4), (0, 0)] = 1 := by
  have hw : windingAt (x, y) [(4, 0), (4, 4), (0, 0)] =
      edgeContrib (4 - x, 0 - y) (4 - x, 4 - y) +
      (edgeContrib (4 - x, 4 - y) (0 - x, 0 - y) +
      (edgeContrib (0 - x, 0 - y) (4 - x, 0 - y) + 0)) := rfl
  rw [hw, edgeContrib_const_y (0 - x, 0 - y) (4 - x, 0 - y) rfl]
  unfold edgeContrib
  norm_num
  split_ifs <;> norm_num <;> linarith

/-- The winding of template 1 rotated by 2 quarter turns is 0 or 1 at every point of the plane. -/
lemma w_poly_t1_r2 (x y : Rat) :
    windingAt (x, y) [(4, 4), (0, 4), (4, 0)] = 0 ∨
    windingAt (x, y) [(4, 4), (0, 4), (4, 0)] = 1 := by
  have hw : windingAt (x, y) [(4, 4), (0, 4), (4, 0)] =
      edgeContrib (4 - x, 4 - y) (0 - x, 4 - y) +
      (edgeContrib (0 - x, 4 - y) (4 - x, 0 - y) +
      (edgeContrib (4 - x, 0 - y) (4 - x, 4 - y) + 0)) := rfl
  rw [hw, edgeContrib_const_y (4 - x, 4 - y) (0 - x, 4 - y) rfl]
  unfold edgeContrib
  norm_num
  split_ifs <;> norm_num <;> linarith

/-- The winding of template 1 rotated by 3 quarter turns is 0 or 1 at every point of the plane. -/
lemma w_poly_t1_r3 (x y : Rat) :
    windingAt (x, y) [(0, 4), (0, 0), (4, 4)] = 0 ∨
    windingAt (x, y) [(0, 4), (0, 0), (4, 4)] = 1 := by
  have hw : windingAt (x, y) [(0, 4), (0, 0), (4, 4)] =
      edgeContrib (0 - x, 4 - y) (0 - x, 0 - y) +
      (edgeContrib (0 - x, 0 - y) (4 - x, 4 - y) +
      (edgeContrib (4 - x, 4 - y) (0 - x, 4 - y) + 0)) := rfl
  rw [hw, edgeContrib_const_y (4 - x, 4 - y) (0 - x, 4 - y) rfl]
  unfold edgeContrib
  norm_num
  split_ifs <;> norm_num <;> linarith

/-- The winding of template 2 rotated by 0 quarter turns is 0 or 1 at every point of the plane. -/
lemma w_poly_t2_r0 (x y : Rat) :
    windingAt (x, y) [(2, 0), (4, 4), (0, 4)] = 0 ∨
    windingAt (x, y) [(2, 0), (4, 4), (0, 4)] = 1 := by
  have hw : windingAt (x, y) [(2, 0), (4, 4), (0, 4)] =
      edgeContrib (2 - x, 0 - y) (4 - x, 4 - y) +
      (edgeContrib (4 - x, 4 - y) (0 - x, 4 - y) +
      (edgeContrib (0 - x, 4 - y) (2 - x, 0 - y) + 0)) := rfl
  rw [hw, edgeContrib_const_y (4 - x, 4 - y) (0 - x, 4 - y) rfl]
  unfold edgeContrib
  norm_num
  split_ifs <;> norm_num <;> linarith

/-- The winding of template 2 rotated by 1 quarter turns is 0 or 1 at every point of the plane. -/
lemma w_poly_t2_r1 (x y : Rat) :
    windingAt (x, y) [(4, 2), (0, 4), (0, 0)] = 0 ∨
    windingAt (x, y) [(4, 2), (0, 4), (0, 0)] = 1 := by
  have hw : windingAt (x, y) [(4, 2), (0, 4), (0, 0)] =
      edgeContrib (4 - x, 2 - y) (0 - x, 4 - y) +
      (edgeContrib (0 - x, 4 - y) (0 - x, 0 - y) +
      (edgeContrib (0 - x, 0 - y) (4 - x, 2 - y) + 0)) := rfl
  rw [hw]
  unfold edgeContrib
  norm_num
  split_ifs <;> norm_num <;> linarith

/-- The winding of template 2 rotated by 2 quarter turns is 0 or 1 at every point of the plane. -/
lemma w_poly_t2_r2 (x y : Rat) :
    windingAt (x, y) [(2, 4), (0, 0), (4, 0)] = 0 ∨
    windingAt (x, y) [(2, 4), (0, 0), (4, 0)] = 1 := by
  have hw : windingAt (x, y) [(2, 4), (0, 0), (4, 0)] =
      edgeContrib (2 - x, 4 - y) (0 - x, 0 - y) +
      (edgeContrib (0 - x, 0 - y) (4 - x, 0 - y) +
      (edgeContrib (4 - x, 0 - y) (2 - x, 4 - y) + 0)) := rfl
  rw [hw, edgeContrib_const_y (0 - x, 0 - y) (4 - x, 0 - y) rfl]
  unfold edgeContrib
  norm_num
  split_ifs <;> norm_num <;> linarith

/-- The winding of template 2 rotated by 3 quarter turns is 0 or 1 at every point of the plane. -/
lemma w_poly_t2_r3 (x y : Rat) :
    windingAt (x, y) [(0, 2), (4, 0), (4, 4)] = 0 ∨
    windingAt (x, y) [(0, 2), (4, 0), (4, 4)] = 1 := by
  have hw : windingAt (x, y) [(0, 2), (4, 0), (4, 4)] =
      edgeContrib (0 - x, 2 - y) (4 - x, 0 - y) +
      (edgeContrib (4 - x, 0 - y) (4 - x, 4 - y) +
      (edgeContrib (4 - x, 4 - y) (0 - x, 2 - y) + 0)) := rfl
  rw [hw]
  unfold edgeContrib
  norm_num
  split_ifs <;> norm_num <;> linarith

/-- The winding of template 3 rotated by 0 quarter turns is 0 or 1 at every point of the plane. -/
lemma w_poly_t3_r0 (x y : Rat) :
    windingAt (x, y) [(0, 0), (2, 0), (2, 4), (0, 4)] = 0 ∨
    windingAt (x, y) [(0, 0), (2, 0), (2, 4), (0, 4)] = 1 := by
  have hw : windingAt (x, y) [(0, 0), (2, 0), (2, 4), (0, 4)] =
      edgeContrib (0 - x, 0 - y) (2 - x, 0 - y) +
      (edgeContrib (2 - x, 0 - y) (2 - x, 4 - y) +
      (edgeContrib (2 - x, 4 - y) (0 - x, 4 - y) +
      (edgeContrib (0 - x, 4 - y) (0 - x, 0 - y) + 0))) := rfl
  rw [hw, edgeContrib_const_y (0 - x, 0 - y) (2 - x, 0 - y) rfl,
    edgeContrib_const_y (2 - x, 4 - y) (0 - x, 4 - y) rfl]
  unfold edgeContrib
  norm_num
  split_ifs <;> norm_num <;> linarith

/-- The winding of template 3 rotated by 1 quarter turns is 0 or 1 at every point of the plane. -/
lemma w_poly_t3_r1 (x y : Rat) :
    windingAt (x, y) [(4, 0), (4, 2), (0, 2), (0, 0)] = 0 ∨
    windingAt (x, y) [(4, 0), (4, 2), (0, 2), (0, 0)] = 1 := by
  have hw : windingAt (x, y) [(4, 0), (4, 2), (0, 2), (0, 0)] =
      edgeContrib (4 - x, 0 - y) (4 - x, 2 - y) +
      (edgeContrib (4 - x, 2 - y) (0 - x, 2 - y) +
      (edgeContrib (0 - x, 2 - y) (0 - x, 0 - y) +
      (edgeContrib (0 - x, 0 - y) (4 - x, 0 - y) + 0))) := rfl
  rw [hw, edgeContrib_const_y (4 - x, 2 - y) (0 - x, 2 - y) rfl,
    edgeContrib_const_y (0 - x, 0 - y) (4 - x, 0 - y) rfl]
  unfold edgeContrib
  norm_num
  split_ifs <;> norm_num <;> linarith

/-- The winding of template 3 rotated by 2 quarter turns is 0 or 1 at every point of the plane. -/
lemma w_poly_t3_r2 (x y : Rat) :
    windingAt (x, y) [(4, 4), (2, 4), (2, 0), (4, 0)] = 0 ∨
    windingAt (x, y) [(4, 4), (2, 4), (2, 0), (4, 0)] = 1 := by
  have hw : windingAt (x, y) [(4, 4), (2, 4), (2, 0), (4, 0)] =
      edgeContrib (4 - x, 4 - y) (2 - x, 4 - y) +
      (edgeContrib (2 - x, 4 - y) (2 - x, 0 - y) +
      (edgeContrib (2 - x, 0 - y) (4 - x, 0 - y) +
      (edgeContrib (4 - x, 0 - y) (4 - x, 4 - y) + 0))) := rfl
  rw [hw, edgeContrib_const_y (4 - x, 4 - y) (2 - x, 4 - y) rfl,
    edgeContrib_const_y (2 - x, 0 - y) (4 - x, 0 - y) rfl]
  unfold edgeContrib
  norm_num
  split_ifs <;> norm_num <;> linarith

/-- The winding of template 3 rotated by 3 quarter turns is 0 or 1 at every point of the plane. -/
lemma w_poly_t3_r3 (x y : Rat) :
    windingAt (x, y) [(0, 4), (0, 2), (4, 2), (4, 4)] = 0 ∨
    windingAt (x, y) [(0, 4), (0, 2), (4, 2), (4, 4)] = 1 := by
  have hw : windingAt (x, y) [(0, 4), (0, 2), (4, 2), (4, 4)] =
      edgeContrib (0 - x, 4 - y) (0 - x, 2 - y) +
      (edgeContrib (0 - x, 2 - y) (4 - x, 2 - y) +
      (edgeContrib (4 - x, 2 - y) (4 - x, 4 - y) +
      (edgeContrib (4 - x, 4 - y) (0 - x, 4 - y) + 0))) := rfl
  rw [hw, edgeContrib_const_y (0 - x, 2 - y) (4 - x, 2 - y) rfl,
    edgeContrib_const_y (4 - x, 4 - y) (0 - x, 4 - y) rfl]
  unfold edgeContrib
  norm_num
  split_ifs <;> norm_num <;> linarith

/-- The winding of template 4 rotated by 0 quarter turns is 0 or 1 at every point of the plane. -/
lemma w_poly_t4_r0 (x y : Rat) :
    windingAt (x, y) [(2, 0), (4, 2), (2, 4), (0, 2)] = 0 ∨
    windingAt (x, y) [(2, 0), (4, 2), (2, 4), (0, 2)] = 1 := by
  have hw : windingAt (x, y) [(2, 0), (4, 2), (2, 4), (0, 2)] =
      edgeContrib (2 - x, 0 - y) (4 - x, 2 - y) +
      (edgeContrib (4 - x, 2 - y) (2 - x, 4 - y) +
      (edgeContrib (2 - x, 4 - y) (0 - x, 2 - y) +
      (edgeContrib (0 - x, 2 - y) (2 - x, 0 - y) + 0))) := rfl
  rw [hw]
  unfold edgeContrib
  norm_num
  split_ifs <;> norm_num <;> linarith

/-- The winding of template 4 rotated by 1 quarter turns is 0 or 1 at every point of the plane. The rotated vertex list is a cyclic shift of the unrotated one. -/
lemma w_poly_t4_r1 (x y : Rat) :
    windingAt (x, y) [(4, 2), (2, 4), (0, 2), (2, 0)] = 0 ∨
    windingAt (x, y) [(4, 2), (2, 4), (0, 2), (2, 0)] = 1 := by
  have he : windingAt (x, y) [(4, 2), (2, 4), (0, 2), (2, 0)] = windingAt (x, y) [(2, 0), (4, 2), (2, 4), (0, 2)] := by
    have h1 : windingAt (x, y) [(4, 2), (2, 4), (0, 2), (2, 0)] =
        edgeContrib (4 - x, 2 - y) (2 - x, 4 - y) +
      (edgeContrib (2 - x, 4 - y) (0 - x, 2 - y) +
      (edgeContrib (0 - x, 2 - y) (2 - x, 0 - y) +
      (edgeContrib (2 - x, 0 - y) (4 - x, 2 - y) + 0))) := rfl
    have h2 : windingAt (x, y) [(2, 0), (4, 2), (2, 4), (0, 2)] =
        edgeContrib (2 - x, 0 - y) (4 - x, 2 - y) +
      (edgeContrib (4 - x, 2 - y) (2 - x, 4 - y) +
      (edgeContrib (2 - x, 4 - y) (0 - x, 2 - y) +
      (edgeContrib (0 - x, 2 - y) (2 - x, 0 - y) + 0))) := rfl
    rw [h1, h2]; ring
  rw [he]
  exact w_poly_t4_r0 x y

/-- The winding of template 4 rotated by 2 quarter turns is 0 or 1 at every point of the plane. The rotated vertex list is a cyclic shift of the unrotated one. -/
lemma w_poly_t4_r2 (x y : Rat) :
    windingAt (x, y) [(2, 4), (0, 2), (2, 0), (4, 2)] = 0 ∨
    windingAt (x, y) [(2, 4), (0, 2), (2, 0), (4, 2)] = 1 := by
  have he : windingAt (x, y) [(2, 4), (0, 2), (2, 0), (4, 2)] = windingAt (x, y) [(2, 0), (4, 2), (2, 4), (0, 2)] := by
    have h1 : windingAt (x, y) [(2, 4), (0, 2), (2, 0), (4, 2)] =
        edgeContrib (2 - x, 4 - y) (0 - x, 2 - y) +
      (edgeContrib (0 - x, 2 - y) (2 - x, 0 - y) +
      (edgeContrib (2 - x, 0 - y) (4 - x, 2 - y) +
      (edgeContrib (4 - x, 2 - y) (2 - x, 4 - y) + 0))) := rfl
    have h2 : windingAt (x, y) [(2, 0), (4, 2), (2, 4), (0, 2)] =
        edgeContrib (2 - x, 0 - y) (4 - x, 2 - y) +
      (edgeContrib (4 - x, 2 - y) (2 - x, 4 - y) +
      (edgeContrib (2 - x, 4 - y) (0 - x, 2 - y) +
      (edgeContrib (0 - x, 2 - y) (2 - x, 0 - y) + 0))) := rfl
    rw [h1, h2]; ring
  rw [he]
  exact w_poly_t4_r0 x y

/-- The winding of template 4 rotated by 3 quarter turns is 0 or 1 at every point of the plane. The rotated vertex list is a cyclic shift of the unrotated one. -/
lemma w_poly_t4_r3 (x y : Rat) :
    windingAt (x, y) [(0, 2), (2, 0), (4, 2), (2, 4)] = 0 ∨
    windingAt (x, y) [(0, 2), (2, 0), (4, 2), (2, 4)] = 1 := by
  have he : windingAt (x, y) [(0, 2), (2, 0), (4, 2), (2, 4)] = windingAt (x, y) [(2, 0), (4, 2), (2, 4), (0, 2)] := by
    have h1 : windingAt (x, y) [(0, 2), (2, 0), (4, 2), (2, 4)] =
        edgeContrib (0 - x, 2 - y) (2 - x, 0 - y) +
      (edgeContrib (2 - x, 0 - y) (4 - x, 2 - y) +
      (edgeContrib (4 - x, 2 - y) (2 - x, 4 - y) +
      (edgeContrib (2 - x, 4 - y) (0 - x, 2 - y) + 0))) := rfl
    have h2 : windingAt (x, y) [(2, 0), (4, 2), (2, 4), (0, 2)] =
        edgeContrib (2 - x, 0 - y) (4 - x, 2 - y) +
      (edgeContrib (4 - x, 2 - y) (2 - x, 4 - y) +
      (edgeContrib (2 - x, 4 - y) (0 - x, 2 - y) +
      (edgeContrib (0 - x, 2 - y) (2 - x, 0 - y) + 0))) := rfl
    rw [h1, h2]; ring
  rw [he]
  exact w_poly_t4_r0 x y

/-- The winding of template 5 rotated by 0 quarter turns is 0 or 1 at every point of the plane. -/
lemma w_poly_t5_r0 (x y : Rat) :
    windingAt (x, y) [(0, 0), (4, 2), (4, 4), (2, 4)] = 0 ∨
    windingAt (x, y) [(0, 0), (4, 2), (4, 4), (2, 4)] = 1 := by
  have hw : windingAt (x, y) [(0, 0), (4, 2), (4, 4), (2, 4)] =
      edgeContrib (0 - x, 0 - y) (4 - x, 2 - y) +
      (edgeContrib (4 - x, 2 - y) (4 - x, 4 - y) +
      (edgeContrib (4 - x, 4 - y) (2 - x, 4 - y) +
      (edgeContrib (2 - x, 4 - y) (0 - x, 0 - y) + 0))) := rfl
  rw [hw, edgeContrib_const_y (4 - x, 4 - y) (2 - x, 4 - y) rfl]
  unfold edgeContrib
  norm_num
  split_ifs <;> norm_num <;> linarith

/-- The winding of template 5 rotated by 1 quarter turns is 0 or 1 at every point of the plane. -/
lemma w_poly_t5_r1 (x y : Rat) :
    windingAt (x, y) [(4, 0), (2, 4), (0, 4), (0, 2)] = 0 ∨
    windingAt (x, y) [(4, 0), (2, 4), (0, 4), (0, 2)] = 1 := by
  have hw : windingAt (x, y) [(4, 0), (2, 4), (0, 4), (0, 2)] =
      edgeContrib (4 - x, 0 - y) (2 - x, 4 - y) +
      (edgeContrib (2 - x, 4 - y) (0 - x, 4 - y) +
      (edgeContrib (0 - x, 4 - y) (0 - x, 2 - y) +
      (edgeContrib (0 - x, 2 - y) (4 - x, 0 - y) + 0))) := rfl
  rw [hw, edgeContrib_const_y (2 - x, 4 - y) (0 - x, 4 - y) rfl]
  unfold edgeContrib
  norm_num
  split_ifs <;> norm_num <;> linarith

/-- The winding of template 5 rotated by 2 quarter turns is 0 or 1 at every point of the plane. -/
lemma w_poly_t5_r2 (x y : Rat) :
    windingAt (x, y) [(4, 4), (0, 2), (0, 0), (2, 0)] = 0 ∨
    windingAt (x, y) [(4, 4), (0, 2), (0, 0), (2, 0)] = 1 := by
  have hw : windingAt (x, y) [(4, 4), (0, 2), (0, 0), (2, 0)] =
      edgeContrib (4 - x, 4 - y) (0 - x, 2 - y) +
      (edgeContrib (0 - x, 2 - y) (0 - x, 0 - y) +
      (edgeContrib (0 - x, 0 - y) (2 - x, 0 - y) +
      (edgeContrib (2 - x, 0 - y) (4 - x, 4 - y) + 0))) := rfl
  rw [hw, edgeContrib_const_y (0 - x, 0 - y) (2 - x, 0 - y) rfl]
  unfold edgeContrib
  norm_num
  split_ifs <;> norm_num <;> linarith

/-- The winding of template 5 rotated by 3 quarter turns is 0 or 1 at every point of the plane. -/
lemma w_poly_t5_r3 (x y : Rat) :
    windingAt (x, y) [(0, 4), (2, 0), (4, 0), (4, 2)] = 0 ∨
    windingAt (x, y) [(0, 4), (2, 0), (4, 0), (4, 2)] = 1 := by
  have hw : windingAt (x, y) [(0, 4), (2, 0), (4, 0), (4, 2)] =
      edgeContrib (0 - x, 4 - y) (2 - x, 0 - y) +
      (edgeContrib (2 - x, 0 - y) (4 - x, 0 - y) +
      (edgeContrib (4 - x, 0 - y) (4 - x, 2 - y) +
      (edgeContrib (4 - x, 2 - y) (0 - x, 4 - y) + 0))) := rfl
  rw [hw, edgeContrib_const_y (2 - x, 0 - y) (4 - x, 0 - y) rfl]
  unfold edgeContrib
  norm_num
  split_ifs <;> norm_num <;> linarith

/-- The winding of template 6 rotated by 0 quarter turns is 0 or 1 at every point of the plane. -/
lemma w_poly_t6_r0 (x y : Rat) :
    windingAt (x, y) [(2, 0), (4, 4), (2, 4), (3, 2), (1, 2), (2, 4), (0, 4)] = 0 ∨
    windingAt (x, y) [(2, 0), (4, 4), (2, 4), (3, 2), (1, 2), (2, 4), (0, 4)] = 1 := by
  have hw : windingAt (x, y) [(2, 0), (4, 4), (2, 4), (3, 2), (1, 2), (2, 4), (0, 4)] =
      edgeContrib (2 - x, 0 - y) (4 - x, 4 - y) +
      (edgeContrib (4 - x, 4 - y) (2 - x, 4 - y) +
      (edgeContrib (2 - x, 4 - y) (3 - x, 2 - y) +
      (edgeContrib (3 - x, 2 - y) (1 - x, 2 - y) +
      (edgeContrib (1 - x, 2 - y) (2 - x, 4 - y) +
      (edgeContrib (2 - x, 4 - y) (0 - x, 4 - y) +
      (edgeContrib (0 - x, 4 - y) (2 - x, 0 - y) + 0)))))) := rfl
  rw [hw, edgeContrib_const_y (4 - x, 4 - y) (2 - x, 4 - y) rfl,
    edgeContrib_const_y (3 - x, 2 - y) (1 - x, 2 - y) rfl,
    edgeContrib_const_y (2 - x, 4 - y) (0 - x, 4 - y) rfl]
  unfold edgeContrib
  norm_num
  split_ifs <;> norm_num <;> linarith

/-- Winding bound, rotated outer triangle of the Sierpinski template (turn 1). -/
lemma w_t6_r1_outer (x y : Rat) :
    windingAt (x, y) [(4, 2), (0, 4), (0, 0)] = 0 ∨
    windingAt (x, y) [(4, 2), (0, 4), (0, 0)] = 1 := by
  have hw : windingAt (x, y) [(4, 2), (0, 4), (0, 0)] =
      edgeContrib (4 - x, 2 - y) (0 - x, 4 - y) +
      (edgeContrib (0 - x, 4 - y) (0 - x, 0 - y) +
      (edgeContrib (0 - x, 0 - y) (4 - x, 2 - y) + 0)) := rfl
  rw [hw]
  unfold edgeContrib
  norm_num
  split_ifs <;> norm_num <;> linarith

/-- Winding bound, rotated notch triangle of the Sierpinski template (turn 1): the notch is traced clockwise. -/
lemma w_t6_r1_notch (x y : Rat) :
    windingAt (x, y) [(0, 2), (2, 3), (2, 1)] = 0 ∨
    windingAt (x, y) [(0, 2), (2, 3), (2, 1)] = -1 := by
  have hw : windingAt (x, y) [(0, 2), (2, 3), (2, 1)] =
      edgeContrib (0 - x, 2 - y) (2 - x, 3 - y) +
      (edgeContrib (2 - x, 3 - y) (2 - x, 1 - y) +
      (edgeContrib (2 - x, 1 - y) (0 - x, 2 - y) + 0)) := rfl
  rw [hw]
  unfold edgeContrib
  norm_num
  split_ifs <;> norm_num <;> linarith

/-- Every point of the linear region holding the rotated notch is wound once by the rotated outer triangle (turn 1). -/
lemma w_t6_r1_loc (x y : Rat) (k1 : 1 ≤ y) (k2 : y < 3) (k3 : x < 2) (k4 : 2 * y - 4 ≤ x) (k5 : 4 ≤ x + 2 * y) :
    windingAt (x, y) [(4, 2), (0, 4), (0, 0)] = 1 := by
  have hw : windingAt (x, y) [(4, 2), (0, 4), (0, 0)] =
      edgeContrib (4 - x, 2 - y) (0 - x, 4 - y) +
      (edgeContrib (0 - x, 4 - y) (0 - x, 0 - y) +
      (edgeContrib (0 - x, 0 - y) (4 - x, 2 - y) + 0)) := rfl
  rw [hw]
  unfold edgeContrib
  norm_num
  split_ifs <;> first | (norm_num; done) | linarith | (norm_num; linarith)

/-- A point wound by the rotated notch lies in the linear region inside the rotated outer triangle (turn 1). -/
lemma w_t6_r1_sub (x y : Rat)
    (h : windingAt (x, y) [(0, 2), (2, 3), (2, 1)] = -1) :
    windingAt (x, y) [(4, 2), (0, 4), (0, 0)] = 1 := by
  have h2 : windingAt (x, y) [(0, 2), (2, 3), (2, 1)] =
      edgeContrib (0 - x, 2 - y) (2 - x, 3 - y) +
      (edgeContrib (2 - x, 3 - y) (2 - x, 1 - y) +
      (edgeContrib (2 - x, 1 - y) (0 - x, 2 - y) + 0)) := rfl
  have hL : 1 ≤ y ∧ y < 3 ∧ x < 2 ∧ 2 * y - 4 ≤ x ∧ 4 ≤ x + 2 * y := by
    rw [h2] at h
    unfold edgeContrib at h
    norm_num at h
    revert h
    split_ifs <;> intro h <;>
      first
        | (exfalso; revert h; norm_num; linarith)
        | (refine ⟨?_, ?_, ?_, ?_, ?_⟩ <;> linarith)
  exact w_t6_r1_loc x y hL.1 hL.2.1 hL.2.2.1 hL.2.2.2.1
    hL.2.2.2.2

/-- Contribution of the rotated outer edge splits at the notch apex, which lies on it (turn 1). -/
lemma w_t6_r1_split (x y : Rat) :
    edgeContrib (0 - x, 4 - y) (0 - x, 0 - y) =
      edgeContrib (0 - x, 4 - y) (0 - x, 2 - y) +
      edgeContrib (0 - x, 2 - y) (0 - x, 0 - y) := by
  unfold edgeContrib
  norm_num
  split_ifs <;> first | (norm_num; done) | linarith | (norm_num; linarith)

/-- The winding of the Sierpinski template rotated by 1 quarter turns is 0 or 1 at every point. -/
lemma w_poly_t6_r1 (x y : Rat) :
    windingAt (x, y) [(4, 2), (0, 4), (0, 2), (2, 3), (2, 1), (0, 2), (0, 0)] = 0 ∨
    windingAt (x, y) [(4, 2), (0, 4), (0, 2), (2, 3), (2, 1), (0, 2), (0, 0)] = 1 := by
  have h1 : windingAt (x, y) [(4, 2), (0, 4), (0, 2), (2, 3), (2, 1), (0, 2), (0, 0)] =
      edgeContrib (4 - x, 2 - y) (0 - x, 4 - y) +
      (edgeContrib (0 - x, 4 - y) (0 - x, 2 - y) +
      (edgeContrib (0 - x, 2 - y) (2 - x, 3 - y) +
      (edgeContrib (2 - x, 3 - y) (2 - x, 1 - y) +
      (edgeContrib (2 - x, 1 - y) (0 - x, 2 - y) +
      (edgeContrib (0 - x, 2 - y) (0 - x, 0 - y) +
      (edgeContrib (0 - x, 0 - y) (4 - x, 2 - y) + 0)))))) := rfl
  have h2 : windingAt (x, y) [(4, 2), (0, 4), (0, 0)] =
      edgeContrib (4 - x, 2 - y) (0 - x, 4 - y) +
      (edgeContrib (0 - x, 4 - y) (0 - x, 0 - y) +
      (edgeContrib (0 - x, 0 - y) (4 - x, 2 - y) + 0)) := rfl
  have h3 : windingAt (x, y) [(0, 2), (2, 3), (2, 1)] =
      edgeContrib (0 - x, 2 - y) (2 - x, 3 - y) +
      (edgeContrib (2 - x, 3 - y) (2 - x, 1 - y) +
      (edgeContrib (2 - x, 1 - y) (0 - x, 2 - y) + 0)) := rfl
  have hsum : windingAt (x, y) [(4, 2), (0, 4), (0, 2), (2, 3), (2, 1), (0, 2), (0, 0)] =
      windingAt (x, y) [(4, 2), (0, 4), (0, 0)] +
        windingAt (x, y) [(0, 2), (2, 3), (2, 1)] := by
    rw [h1, h2, h3, w_t6_r1_split x y]; ring
  rcases w_t6_r1_notch x y with hn | hn
  · rcases w_t6_r1_outer x y with ho | ho
    · left; rw [hsum, hn, ho]; norm_num
    · right; rw [hsum, hn, ho]; norm_num
  · left
    rw [hsum, hn, w_t6_r1_sub x y hn]
    norm_num

/-- The winding of template 6 rotated by 2 quarter turns is 0 or 1 at every point of the plane. -/
lemma w_poly_t6_r2 (x y : Rat) :
    windingAt (x, y) [(2, 4), (0, 0), (2, 0), (1, 2), (3, 2), (2, 0), (4, 0)] = 0 ∨
    windingAt (x, y) [(2, 4), (0, 0), (2, 0), (1, 2), (3, 2), (2, 0), (4, 0)] = 1 := by
  have hw : windingAt (x, y) [(2, 4), (0, 0), (2, 0), (1, 2), (3, 2), (2, 0), (4, 0)] =
      edgeContrib (2 - x, 4 - y) (0 - x, 0 - y) +
      (edgeContrib (0 - x, 0 - y) (2 - x, 0 - y) +
      (edgeContrib (2 - x, 0 - y) (1 - x, 2 - y) +
      (edgeContrib (1 - x, 2 - y) (3 - x, 2 - y) +
      (edgeContrib (3 - x, 2 - y) (2 - x, 0 - y) +
      (edgeContrib (2 - x, 0 - y) (4 - x, 0 - y) +
      (edgeContrib (4 - x, 0 - y) (2 - x, 4 - y) + 0)))))) := rfl
  rw [hw, edgeContrib_const_y (0 - x, 0 - y) (2 - x, 0 - y) rfl,
    edgeContrib_const_y (1 - x, 2 - y) (3 - x, 2 - y) rfl,
    edgeContrib_const_y (2 - x, 0 - y) (4 - x, 0 - y) rfl]
  unfold edgeContrib
  norm_num
  split_ifs <;> norm_num <;> linarith

/-- Winding bound, rotated outer triangle of the Sierpinski template (turn 3). -/
lemma w_t6_r3_outer (x y : Rat) :
    windingAt (x, y) [(0, 2), (4, 0), (4, 4)] = 0 ∨
    windingAt (x, y) [(0, 2), (4, 0), (4, 4)] = 1 := by
  have hw : windingAt (x, y) [(0, 2), (4, 0), (4, 4)] =
      edgeContrib (0 - x, 2 - y) (4 - x, 0 - y) +
      (edgeContrib (4 - x, 0 - y) (4 - x, 4 - y) +
      (edgeContrib (4 - x, 4 - y) (0 - x, 2 - y) + 0)) := rfl
  rw [hw]
  unfold edgeContrib
  norm_num
  split_ifs <;> norm_num <;> linarith

/-- Winding bound, rotated notch triangle of the Sierpinski template (turn 3): the notch is traced clockwise. -/
lemma w_t6_r3_notch (x y : Rat) :
    windingAt (x, y) [(4, 2), (2, 1), (2, 3)] = 0 ∨
    windingAt (x, y) [(4, 2), (2, 1), (2, 3)] = -1 := by
  have hw : windingAt (x, y) [(4, 2), (2, 1), (2, 3)] =
      edgeContrib (4 - x, 2 - y) (2 - x, 1 - y) +
      (edgeContrib (2 - x, 1 - y) (2 - x, 3 - y) +
      (edgeContrib (2 - x, 3 - y) (4 - x, 2 - y) + 0)) := rfl
  rw [hw]
  unfold edgeContrib
  norm_num
  split_ifs <;> norm_num <;> linarith

/-- Every point of the linear region holding the rotated notch is wound once by the rotated outer triangle (turn 3). -/
lemma w_t6_r3_loc (x y : Rat) (k1 : 1 < y) (k2 : y < 3) (k3 : 2 ≤ x) (k4 : x < 2 * y) (k5 : x < 8 - 2 * y) :
    windingAt (x, y) [(0, 2), (4, 0), (4, 4)] = 1 := by
  have hw : windingAt (x, y) [(0, 2), (4, 0), (4, 4)] =
      edgeContrib (0 - x, 2 - y) (4 - x, 0 - y) +
      (edgeContrib (4 - x, 0 - y) (4 - x, 4 - y) +
      (edgeContrib (4 - x, 4 - y) (0 - x, 2 - y) + 0)) := rfl
  rw [hw]
  unfold edgeContrib
  norm_num
  split_ifs <;> first | (norm_num; done) | linarith | (norm_num; linarith)

/-- A point wound by the rotated notch lies in the linear region inside the rotated outer triangle (turn 3). -/
lemma w_t6_r3_sub (x y : Rat)
    (h : windingAt (x, y) [(4, 2), (2, 1), (2, 3)] = -1) :
    windingAt (x, y) [(0, 2), (4, 0), (4, 4)] = 1 := by
  have h2 : windingAt (x, y) [(4, 2), (2, 1), (2, 3)] =
      edgeContrib (4 - x, 2 - y) (2 - x, 1 - y) +
      (edgeContrib (2 - x, 1 - y) (2 - x, 3 - y) +
      (edgeContrib (2 - x, 3 - y) (4 - x, 2 - y) + 0)) := rfl
  have hL : 1 < y ∧ y < 3 ∧ 2 ≤ x ∧ x < 2 * y ∧ x < 8 - 2 * y := by
    rw [h2] at h
    unfold edgeContrib at h
    norm_num at h
    revert h
    split_ifs <;> intro h <;>
      first
        | (exfalso; revert h; norm_num; linarith)
        | (refine ⟨?_, ?_, ?_, ?_, ?_⟩ <;> linarith)
  exact w_t6_r3_loc x y hL.1 hL.2.1 hL.2.2.1 hL.2.2.2.1
    hL.2.2.2.2

/-- Contribution of the rotated outer edge splits at the notch apex, which lies on it (turn 3). -/
lemma w_t6_r3_split (x y : Rat) :
    edgeContrib (4 - x, 0 - y) (4 - x, 4 - y) =
      edgeContrib (4 - x, 0 - y) (4 - x, 2 - y) +
      edgeContrib (4 - x, 2 - y) (4 - x, 4 - y) := by
  unfold edgeContrib
  norm_num
  split_ifs <;> first | (norm_num; done) | linarith | (norm_num; linarith)

/-- The winding of the Sierpinski template rotated by 3 quarter turns is 0 or 1 at every point. -/
lemma w_poly_t6_r3 (x y : Rat) :
    windingAt (x, y) [(0, 2), (4, 0), (4, 2), (2, 1), (2, 3), (4, 2), (4, 4)] = 0 ∨
    windingAt (x, y) [(0, 2), (4, 0), (4, 2), (2, 1), (2, 3), (4, 2), (4, 4)] = 1 := by
  have h1 : windingAt (x, y) [(0, 2), (4, 0), (4, 2), (2, 1), (2, 3), (4, 2), (4, 4)] =
      edgeContrib (0 - x, 2 - y) (4 - x, 0 - y) +
      (edgeContrib (4 - x, 0 - y) (4 - x, 2 - y) +
      (edgeContrib (4 - x, 2 - y) (2 - x, 1 - y) +
      (edgeContrib (2 - x, 1 - y) (2 - x, 3 - y) +
      (edgeContrib (2 - x, 3 - y) (4 - x, 2 - y) +
      (edgeContrib (4 - x, 2 - y) (4 - x, 4 - y) +
      (edgeContrib (4 - x, 4 - y) (0 - x, 2 - y) + 0)))))) := rfl
  have h2 : windingAt (x, y) [(0, 2), (4, 0), (4, 4)] =
      edgeContrib (0 - x, 2 - y) (4 - x, 0 - y) +
      (edgeContrib (4 - x, 0 - y) (4 - x, 4 - y) +
      (edgeContrib (4 - x, 4 - y) (0 - x, 2 - y) + 0)) := rfl
  have h3 : windingAt (x, y) [(4, 2), (2, 1), (2, 3)] =
      edgeContrib (4 - x, 2 - y) (2 - x, 1 - y) +
      (edgeContrib (2 - x, 1 - y) (2 - x, 3 - y) +
      (edgeContrib (2 - x, 3 - y) (4 - x, 2 - y) + 0)) := rfl
  have hsum : windingAt (x, y) [(0, 2), (4, 0), (4, 2), (2, 1), (2, 3), (4, 2), (4, 4)] =
      windingAt (x, y) [(0, 2), (4, 0), (4, 4)] +
        windingAt (x, y) [(4, 2), (2, 1), (2, 3)] := by
    rw [h1, h2, h3, w_t6_r3_split x y]; ring
  rcases w_t6_r3_notch x y with hn | hn
  · rcases w_t6_r3_outer x y with ho | ho
    · left; rw [hsum, hn, ho]; norm_num
    · right; rw [hsum, hn, ho]; norm_num
  · left
    rw [hsum, hn, w_t6_r3_sub x y hn]
    norm_num

/-- The winding of template 7 rotated by 0 quarter turns is 0 or 1 at every point of the plane. -/
lemma w_poly_t7_r0 (x y : Rat) :
    windingAt (x, y) [(0, 0), (4, 2), (2, 4)] = 0 ∨
    windingAt (x, y) [(0, 0), (4, 2), (2, 4)] = 1 := by
  have hw : windingAt (x, y) [(0, 0), (4, 2), (2, 4)] =
      edgeContrib (0 - x, 0 - y) (4 - x, 2 - y) +
      (edgeContrib (4 - x, 2 - y) (2 - x, 4 - y) +
      (edgeContrib (2 - x, 4 - y) (0 - x, 0 - y) + 0)) := rfl
  rw [hw]
  unfold edgeContrib
  norm_num
  split_ifs <;> norm_num <;> linarith

/-- The winding of template 7 rotated by 1 quarter turns is 0 or 1 at every point of the plane. -/
lemma w_poly_t7_r1 (x y : Rat) :
    windingAt (x, y) [(4, 0), (2, 4), (0, 2)] = 0 ∨
    windingAt (x, y) [(4, 0), (2, 4), (0, 2)] = 1 := by
  have hw : windingAt (x, y) [(4, 0), (2, 4), (0, 2)] =
      edgeContrib (4 - x, 0 - y) (2 - x, 4 - y) +
      (edgeContrib (2 - x, 4 - y) (0 - x, 2 - y) +
      (edgeContrib (0 - x, 2 - y) (4 - x, 0 - y) + 0)) := rfl
  rw [hw]
  unfold edgeContrib
  norm_num
  split_ifs <;> norm_num <;> linarith

/-- The winding of template 7 rotated by 2 quarter turns is 0 or 1 at every point of the plane. -/
lemma w_poly_t7_r2 (x y : Rat) :
    windingAt (x, y) [(4, 4), (0, 2), (2, 0)] = 0 ∨
    windingAt (x, y) [(4, 4), (0, 2), (2, 0)] = 1 := by
  have hw : windingAt (x, y) [(4, 4), (0, 2), (2, 0)] =
      edgeContrib (4 - x, 4 - y) (0 - x, 2 - y) +
      (edgeContrib (0 - x, 2 - y) (2 - x, 0 - y) +
      (edgeContrib (2 - x, 0 - y) (4 - x, 4 - y) + 0)) := rfl
  rw [hw]
  unfold edgeContrib
  norm_num
  split_ifs <;> norm_num <;> linarith

/-- The winding of template 7 rotated by 3 quarter turns is 0 or 1 at every point of the plane. -/
lemma w_poly_t7_r3 (x y : Rat) :
    windingAt (x, y) [(0, 4), (2, 0), (4, 2)] = 0 ∨
    windingAt (x, y) [(0, 4), (2, 0), (4, 2)] = 1 := by
  have hw : windingAt (x, y) [(0, 4), (2, 0), (4, 2)] =
      edgeContrib (0 - x, 4 - y) (2 - x, 0 - y) +
      (edgeContrib (2 - x, 0 - y) (4 - x, 2 - y) +
      (edgeContrib (4 - x, 2 - y) (0 - x, 4 - y) + 0)) := rfl
  rw [hw]
  unfold edgeContrib
  norm_num
  split_ifs <;> norm_num <;> linarith

/-- The winding of template 8 rotated by 0 quarter turns is 0 or 1 at every point of the plane. -/
lemma w_poly_t8_r0 (x y : Rat) :
    windingAt (x, y) [(1, 1), (3, 1), (3, 3), (1, 3)] = 0 ∨
    windingAt (x, y) [(1, 1), (3, 1), (3, 3), (1, 3)] = 1 := by
  have hw : windingAt (x, y) [(1, 1), (3, 1), (3, 3), (1, 3)] =
      edgeContrib (1 - x, 1 - y) (3 - x, 1 - y) +
      (edgeContrib (3 - x, 1 - y) (3 - x, 3 - y) +
      (edgeContrib (3 - x, 3 - y) (1 - x, 3 - y) +
      (edgeContrib (1 - x, 3 - y) (1 - x, 1 - y) + 0))) := rfl
  rw [hw, edgeContrib_const_y (1 - x, 1 - y) (3 - x, 1 - y) rfl,
    edgeContrib_const_y (3 - x, 3 - y) (1 - x, 3 - y) rfl]
  unfold edgeContrib
  norm_num
  split_ifs <;> norm_num <;> linarith

/-- The winding of template 8 rotated by 1 quarter turns is 0 or 1 at every point of the plane. -/
lemma w_poly_t8_r1 (x y : Rat) :
    windingAt (x, y) [(3, 1), (3, 3), (1, 3), (1, 1)] = 0 ∨
    windingAt (x, y) [(3, 1), (3, 3), (1, 3), (1, 1)] = 1 := by
  have hw : windingAt (x, y) [(3, 1), (3, 3), (1, 3), (1, 1)] =
      edgeContrib (3 - x, 1 - y) (3 - x, 3 - y) +
      (edgeContrib (3 - x, 3 - y) (1 - x, 3 - y) +
      (edgeContrib (1 - x, 3 - y) (1 - x, 1 - y) +
      (edgeContrib (1 - x, 1 - y) (3 - x, 1 - y) + 0))) := rfl
  rw [hw, edgeContrib_const_y (3 - x, 3 - y) (1 - x, 3 - y) rfl,
    edgeContrib_const_y (1 - x, 1 - y) (3 - x, 1 - y) rfl]
  unfold edgeContrib
  norm_num
  split_ifs <;> norm_num <;> linarith

/-- The winding of template 8 rotated by 2 quarter turns is 0 or 1 at every point of the plane. -/
lemma w_poly_t8_r2 (x y : Rat) :
    windingAt (x, y) [(3, 3), (1, 3), (1, 1), (3, 1)] = 0 ∨
    windingAt (x, y) [(3, 3), (1, 3), (1, 1), (3, 1)] = 1 := by
  have hw : windingAt (x, y) [(3, 3), (1, 3), (1, 1), (3, 1)] =
      edgeContrib (3 - x, 3 - y) (1 - x, 3 - y) +
      (edgeContrib (1 - x, 3 - y) (1 - x, 1 - y) +
      (edgeContrib (1 - x, 1 - y) (3 - x, 1 - y) +
      (edgeContrib (3 - x, 1 - y) (3 - x, 3 - y) + 0))) := rfl
  rw [hw, edgeContrib_const_y (3 - x, 3 - y) (1 - x, 3 - y) rfl,
    edgeContrib_const_y (1 - x, 1 - y) (3 - x, 1 - y) rfl]
  unfold edgeContrib
  norm_num
  split_ifs <;> norm_num <;> linarith

/-- The winding of template 8 rotated by 3 quarter turns is 0 or 1 at every point of the plane. -/
lemma w_poly_t8_r3 (x y : Rat) :
    windingAt (x, y) [(1, 3), (1, 1), (3, 1), (3, 3)] = 0 ∨
    windingAt (x, y) [(1, 3), (1, 1), (3, 1), (3, 3)] = 1 := by
  have hw : windingAt (x, y) [(1, 3), (1, 1), (3, 1), (3, 3)] =
      edgeContrib (1 - x, 3 - y) (1 - x, 1 - y) +
      (edgeContrib (1 - x, 1 - y) (3 - x, 1 - y) +
      (edgeContrib (3 - x, 1 - y) (3 - x, 3 - y) +
      (edgeContrib (3 - x, 3 - y) (1 - x, 3 - y) + 0))) := rfl
  rw [hw, edgeContrib_const_y (1 - x, 1 - y) (3 - x, 1 - y) rfl,
    edgeContrib_const_y (3 - x, 3 - y) (1 - x, 3 - y) rfl]
  unfold edgeContrib
  norm_num
  split_ifs <;> norm_num <;> linarith

/-- The winding of template 9 rotated by 0 quarter turns is 0 or 1 at every point of the plane. -/
lemma w_poly_t9_r0 (x y : Rat) :
    windingAt (x, y) [(2, 0), (4, 0), (0, 4), (0, 2), (2, 2)] = 0 ∨
    windingAt (x, y) [(2, 0), (4, 0), (0, 4), (0, 2), (2, 2)] = 1 := by
  have hw : windingAt (x, y) [(2, 0), (4, 0), (0, 4), (0, 2), (2, 2)] =
      edgeContrib (2 - x, 0 - y) (4 - x, 0 - y) +
      (edgeContrib (4 - x, 0 - y) (0 - x, 4 - y) +
      (edgeContrib (0 - x, 4 - y) (0 - x, 2 - y) +
      (edgeContrib (0 - x, 2 - y) (2 - x, 2 - y) +
      (edgeContrib (2 - x, 2 - y) (2 - x, 0 - y) + 0)))) := rfl
  rw [hw, edgeContrib_const_y (2 - x, 0 - y) (4 - x, 0 - y) rfl,
    edgeContrib_const_y (0 - x, 2 - y) (2 - x, 2 - y) rfl]
  unfold edgeContrib
  norm_num
  split_ifs <;> norm_num <;> linarith

/-- The winding of template 9 rotated by 1 quarter turns is 0 or 1 at every point of the plane. -/
lemma w_poly_t9_r1 (x y : Rat) :
    windingAt (x, y) [(4, 2), (4, 4), (0, 0), (2, 0), (2, 2)] = 0 ∨
    windingAt (x, y) [(4, 2), (4, 4), (0, 0), (2, 0), (2, 2)] = 1 := by
  have hw : windingAt (x, y) [(4, 2), (4, 4), (0, 0), (2, 0), (2, 2)] =
      edgeContrib (4 - x, 2 - y) (4 - x, 4 - y) +
      (edgeContrib (4 - x, 4 - y) (0 - x, 0 - y) +
      (edgeContrib (0 - x, 0 - y) (2 - x, 0 - y) +
      (edgeContrib (2 - x, 0 - y) (2 - x, 2 - y) +
      (edgeContrib (2 - x, 2 - y) (4 - x, 2 - y) + 0)))) := rfl
  rw [hw, edgeContrib_const_y (0 - x, 0 - y) (2 - x, 0 - y) rfl,
    edgeContrib_const_y (2 - x, 2 - y) (4 - x, 2 - y) rfl]
  unfold edgeContrib
  norm_num
  split_ifs <;> norm_num <;> linarith

/-- The winding of template 9 rotated by 2 quarter turns is 0 or 1 at every point of the plane. -/
lemma w_poly_t9_r2 (x y : Rat) :
    windingAt (x, y) [(2, 4), (0, 4), (4, 0), (4, 2), (2, 2)] = 0 ∨
    windingAt (x, y) [(2, 4), (0, 4), (4, 0), (4, 2), (2, 2)] = 1 := by
  have hw : windingAt (x, y) [(2, 4), (0, 4), (4, 0), (4, 2), (2, 2)] =
      edgeContrib (2 - x, 4 - y) (0 - x, 4 - y) +
      (edgeContrib (0 - x, 4 - y) (4 - x, 0 - y) +
      (edgeContrib (4 - x, 0 - y) (4 - x, 2 - y) +
      (edgeContrib (4 - x, 2 - y) (2 - x, 2 - y) +
      (edgeContrib (2 - x, 2 - y) (2 - x, 4 - y) + 0)))) := rfl
  rw [hw, edgeContrib_const_y (2 - x, 4 - y) (0 - x, 4 - y) rfl,
    edgeContrib_const_y (4 - x, 2 - y) (2 - x, 2 - y) rfl]
  unfold edgeContrib
  norm_num
  split_ifs <;> norm_num <;> linarith

/-- The winding of template 9 rotated by 3 quarter turns is 0 or 1 at every point of the plane. -/
lemma w_poly_t9_r3 (x y : Rat) :
    windingAt (x, y) [(0, 2), (0, 0), (4, 4), (2, 4), (2, 2)] = 0 ∨
    windingAt (x, y) [(0, 2), (0, 0), (4, 4), (2, 4), (2, 2)] = 1 := by
  have hw : windingAt (x, y) [(0, 2), (0, 0), (4, 4), (2, 4), (2, 2)] =
      edgeContrib (0 - x, 2 - y) (0 - x, 0 - y) +
      (edgeContrib (0 - x, 0 - y) (4 - x, 4 - y) +
      (edgeContrib (4 - x, 4 - y) (2 - x, 4 - y) +
      (edgeContrib (2 - x, 4 - y) (2 - x, 2 - y) +
      (edgeContrib (2 - x, 2 - y) (0 - x, 2 - y) + 0)))) := rfl
  rw [hw, edgeContrib_const_y (4 - x, 4 - y) (2 - x, 4 - y) rfl,
    edgeContrib_const_y (2 - x, 2 - y) (0 - x, 2 - y) rfl]
  unfold edgeContrib
  norm_num
  split_ifs <;> norm_num <;> linarith

/-- The winding of template 10 rotated by 0 quarter turns is 0 or 1 at every point of the plane. -/
lemma w_poly_t10_r0 (x y : Rat) :
    windingAt (x, y) [(0, 0), (2, 0), (2, 2), (0, 2)] = 0 ∨
    windingAt (x, y) [(0, 0), (2, 0), (2, 2), (0, 2)] = 1 := by
  have hw : windingAt (x, y) [(0, 0), (2, 0), (2, 2), (0, 2)] =
      edgeContrib (0 - x, 0 - y) (2 - x, 0 - y) +
      (edgeContrib (2 - x, 0 - y) (2 - x, 2 - y) +
      (edgeContrib (2 - x, 2 - y) (0 - x, 2 - y) +
      (edgeContrib (0 - x, 2 - y) (0 - x, 0 - y) + 0))) := rfl
  rw [hw, edgeContrib_const_y (0 - x, 0 - y) (2 - x, 0 - y) rfl,
    edgeContrib_const_y (2 - x, 2 - y) (0 - x, 2 - y) rfl]
  unfold edgeContrib
  norm_num
  split_ifs <;> norm_num <;> linarith

/-- The winding of template 10 rotated by 1 quarter turns is 0 or 1 at every point of the plane. -/
lemma w_poly_t10_r1 (x y : Rat) :
    windingAt (x, y) [(4, 0), (4, 2), (2, 2), (2, 0)] = 0 ∨
    windingAt (x, y) [(4, 0), (4, 2), (2, 2), (2, 0)] = 1 := by
  have hw : windingAt (x, y) [(4, 0), (4, 2), (2, 2), (2, 0)] =
      edgeContrib (4 - x, 0 - y) (4 - x, 2 - y) +
      (edgeContrib (4 - x, 2 - y) (2 - x, 2 - y) +
      (edgeContrib (2 - x, 2 - y) (2 - x, 0 - y) +
      (edgeContrib (2 - x, 0 - y) (4 - x, 0 - y) + 0))) := rfl
  rw [hw, edgeContrib_const_y (4 - x, 2 - y) (2 - x, 2 - y) rfl,
    edgeContrib_const_y (2 - x, 0 - y) (4 - x, 0 - y) rfl]
  unfold edgeContrib
  norm_num
  split_ifs <;> norm_num <;> linarith

/-- The winding of template 10 rotated by 2 quarter turns is 0 or 1 at every point of the plane. -/
lemma w_poly_t10_r2 (x y : Rat) :
    windingAt (x, y) [(4, 4), (2, 4), (2, 2), (4, 2)] = 0 ∨
    windingAt (x, y) [(4, 4), (2, 4), (2, 2), (4, 2)] = 1 := by
  have hw : windingAt (x, y) [(4, 4), (2, 4), (2, 2), (4, 2)] =
      edgeContrib (4 - x, 4 - y) (2 - x, 4 - y) +
      (edgeContrib (2 - x, 4 - y) (2 - x, 2 - y) +
      (edgeContrib (2 - x, 2 - y) (4 - x, 2 - y) +
      (edgeContrib (4 - x, 2 - y) (4 - x, 4 - y) + 0))) := rfl
  rw [hw, edgeContrib_const_y (4 - x, 4 - y) (2 - x, 4 - y) rfl,
    edgeContrib_const_y (2 - x, 2 - y) (4 - x, 2 - y) rfl]
  unfold edgeContrib
  norm_num
  split_ifs <;> norm_num <;> linarith

/-- The winding of template 10 rotated by 3 quarter turns is 0 or 1 at every point of the plane. -/
lemma w_poly_t10_r3 (x y : Rat) :
    windingAt (x, y) [(0, 4), (0, 2), (2, 2), (2, 4)] = 0 ∨
    windingAt (x, y) [(0, 4), (0, 2), (2, 2), (2, 4)] = 1 := by
  have hw : windingAt (x, y) [(0, 4), (0, 2), (2, 2), (2, 4)] =
      edgeContrib (0 - x, 4 - y) (0 - x, 2 - y) +
      (edgeContrib (0 - x, 2 - y) (2 - x, 2 - y) +
      (edgeContrib (2 - x, 2 - y) (2 - x, 4 - y) +
      (edgeContrib (2 - x, 4 - y) (0 - x, 4 - y) + 0))) := rfl
  rw [hw, edgeContrib_const_y (0 - x, 2 - y) (2 - x, 2 - y) rfl,
    edgeContrib_const_y (2 - x, 4 - y) (0 - x, 4 - y) rfl]
  unfold edgeContrib
  norm_num
  split_ifs <;> norm_num <;> linarith

/-- The winding of template 11 rotated by 0 quarter turns is 0 or 1 at every point of the plane. -/
lemma w_poly_t11_r0 (x y : Rat) :
    windingAt (x, y) [(0, 2), (4, 2), (2, 4)] = 0 ∨
    windingAt (x, y) [(0, 2), (4, 2), (2, 4)] = 1 := by
  have hw : windingAt (x, y) [(0, 2), (4, 2), (2, 4)] =
      edgeContrib (0 - x, 2 - y) (4 - x, 2 - y) +
      (edgeContrib (4 - x, 2 - y) (2 - x, 4 - y) +
      (edgeContrib (2 - x, 4 - y) (0 - x, 2 - y) + 0)) := rfl
  rw [hw, edgeContrib_const_y (0 - x, 2 - y) (4 - x, 2 - y) rfl]
  unfold edgeContrib
  norm_num
  split_ifs <;> norm_num <;> linarith

/-- The winding of template 11 rotated by 1 quarter turns is 0 or 1 at every point of the plane. -/
lemma w_poly_t11_r1 (x y : Rat) :
    windingAt (x, y) [(2, 0), (2, 4), (0, 2)] = 0 ∨
    windingAt (x, y) [(2, 0), (2, 4), (0, 2)] = 1 := by
  have hw : windingAt (x, y) [(2, 0), (2, 4), (0, 2)] =
      edgeContrib (2 - x, 0 - y) (2 - x, 4 - y) +
      (edgeContrib (2 - x, 4 - y) (0 - x, 2 - y) +
      (edgeContrib (0 - x, 2 - y) (2 - x, 0 - y) + 0)) := rfl
  rw [hw]
  unfold edgeContrib
  norm_num
  split_ifs <;> norm_num <;> linarith

/-- The winding of template 11 rotated by 2 quarter turns is 0 or 1 at every point of the plane. -/
lemma w_poly_t11_r2 (x y : Rat) :
    windingAt (x, y) [(4, 2), (0, 2), (2, 0)] = 0 ∨
    windingAt (x, y) [(4, 2), (0, 2), (2, 0)] = 1 := by
  have hw : windingAt (x, y) [(4, 2), (0, 2), (2, 0)] =
      edgeContrib (4 - x, 2 - y) (0 - x, 2 - y) +
      (edgeContrib (0 - x, 2 - y) (2 - x, 0 - y) +
      (edgeContrib (2 - x, 0 - y) (4 - x, 2 - y) + 0)) := rfl
  rw [hw, edgeContrib_const_y (4 - x, 2 - y) (0 - x, 2 - y) rfl]
  unfold edgeContrib
  norm_num
  split_ifs <;> norm_num <;> linarith

/-- The winding of template 11 rotated by 3 quarter turns is 0 or 1 at every point of the plane. -/
lemma w_poly_t11_r3 (x y : Rat) :
    windingAt (x, y) [(2, 4), (2, 0), (4, 2)] = 0 ∨
    windingAt (x, y) [(2, 4), (2, 0), (4, 2)] = 1 := by
  have hw : windingAt (x, y) [(2, 4), (2, 0), (4, 2)] =
      edgeContrib (2 - x, 4 - y) (2 - x, 0 - y) +
      (edgeContrib (2 - x, 0 - y) (4 - x, 2 - y) +
      (edgeContrib (4 - x, 2 - y) (2 - x, 4 - y) + 0)) := rfl
  rw [hw]
  unfold edgeContrib
  norm_num
  split_ifs <;> norm_num <;> linarith

/-- The winding of template 12 rotated by 0 quarter turns is 0 or 1 at every point of the plane. -/
lemma w_poly_t12_r0 (x y : Rat) :
    windingAt (x, y) [(2, 2), (4, 4), (0, 4)] = 0 ∨
    windingAt (x, y) [(2, 2), (4, 4), (0, 4)] = 1 := by
  have hw : windingAt (x, y) [(2, 2), (4, 4), (0, 4)] =
      edgeContrib (2 - x, 2 - y) (4 - x, 4 - y) +
      (edgeContrib (4 - x, 4 - y) (0 - x, 4 - y) +
      (edgeContrib (0 - x, 4 - y) (2 - x, 2 - y) + 0)) := rfl
  rw [hw, edgeContrib_const_y (4 - x, 4 - y) (0 - x, 4 - y) rfl]
  unfold edgeContrib
  norm_num
  split_ifs <;> norm_num <;> linarith

/-- The winding of template 12 rotated by 1 quarter turns is 0 or 1 at every point of the plane. -/
lemma w_poly_t12_r1 (x y : Rat) :
    windingAt (x, y) [(2, 2), (0, 4), (0, 0)] = 0 ∨
    windingAt (x, y) [(2, 2), (0, 4), (0, 0)] = 1 := by
  have hw : windingAt (x, y) [(2, 2), (0, 4), (0, 0)] =
      edgeContrib (2 - x, 2 - y) (0 - x, 4 - y) +
      (edgeContrib (0 - x, 4 - y) (0 - x, 0 - y) +
      (edgeContrib (0 - x, 0 - y) (2 - x, 2 - y) + 0)) := rfl
  rw [hw]
  unfold edgeContrib
  norm_num
  split_ifs <;> norm_num <;> linarith

/-- The winding of template 12 rotated by 2 quarter turns is 0 or 1 at every point of the plane. -/
lemma w_poly_t12_r2 (x y : Rat) :
    windingAt (x, y) [(2, 2), (0, 0), (4, 0)] = 0 ∨
    windingAt (x, y) [(2, 2), (0, 0), (4, 0)] = 1 := by
  have hw : windingAt (x, y) [(2, 2), (0, 0), (4, 0)] =
      edgeContrib (2 - x, 2 - y) (0 - x, 0 - y) +
      (edgeContrib (0 - x, 0 - y) (4 - x, 0 - y) +
      (edgeContrib (4 - x, 0 - y) (2 - x, 2 - y) + 0)) := rfl
  rw [hw, edgeContrib_const_y (0 - x, 0 - y) (4 - x, 0 - y) rfl]
  unfold edgeContrib
  norm_num
  split_ifs <;> norm_num <;> linarith

/-- The winding of template 12 rotated by 3 quarter turns is 0 or 1 at every point of the plane. -/
lemma w_poly_t12_r3 (x y : Rat) :
    windingAt (x, y) [(2, 2), (4, 0), (4, 4)] = 0 ∨
    windingAt (x, y) [(2, 2), (4, 0), (4, 4)] = 1 := by
  have hw : windingAt (x, y) [(2, 2), (4, 0), (4, 4)] =
      edgeContrib (2 - x, 2 - y) (4 - x, 0 - y) +
      (edgeContrib (4 - x, 0 - y) (4 - x, 4 - y) +
      (edgeContrib (4 - x, 4 - y) (2 - x, 2 - y) + 0)) := rfl
  rw [hw]
  unfold edgeContrib
  norm_num
  split_ifs <;> norm_num <;> linarith

/-- The winding of template 13 rotated by 0 quarter turns is 0 or 1 at every point of the plane. -/
lemma w_poly_t13_r0 (x y : Rat) :
    windingAt (x, y) [(2, 0), (2, 2), (0, 2)] = 0 ∨
    windingAt (x, y) [(2, 0), (2, 2), (0, 2)] = 1 := by
  have hw : windingAt (x, y) [(2, 0), (2, 2), (0, 2)] =
      edgeContrib (2 - x, 0 - y) (2 - x, 2 - y) +
      (edgeContrib (2 - x, 2 - y) (0 - x, 2 - y) +
      (edgeContrib (0 - x, 2 - y) (2 - x, 0 - y) + 0)) := rfl
  rw [hw, edgeContrib_const_y (2 - x, 2 - y) (0 - x, 2 - y) rfl]
  unfold edgeContrib
  norm_num
  split_ifs <;> norm_num <;> linarith

/-- The winding of template 13 rotated by 1 quarter turns is 0 or 1 at every point of the plane. -/
lemma w_poly_t13_r1 (x y : Rat) :
    windingAt (x, y) [(4, 2), (2, 2), (2, 0)] = 0 ∨
    windingAt (x, y) [(4, 2), (2, 2), (2, 0)] = 1 := by
  have hw : windingAt (x, y) [(4, 2), (2, 2), (2, 0)] =
      edgeContrib (4 - x, 2 - y) (2 - x, 2 - y) +
      (edgeContrib (2 - x, 2 - y) (2 - x, 0 - y) +
      (edgeContrib (2 - x, 0 - y) (4 - x, 2 - y) + 0)) := rfl
  rw [hw, edgeContrib_const_y (4 - x, 2 - y) (2 - x, 2 - y) rfl]
  unfold edgeContrib
  norm_num
  split_ifs <;> norm_num <;> linarith

/-- The winding of template 13 rotated by 2 quarter turns is 0 or 1 at every point of the plane. -/
lemma w_poly_t13_r2 (x y : Rat) :
    windingAt (x, y) [(2, 4), (2, 2), (4, 2)] = 0 ∨
    windingAt (x, y) [(2, 4), (2, 2), (4, 2)] = 1 := by
  have hw : windingAt (x, y) [(2, 4), (2, 2), (4, 2)] =
      edgeContrib (2 - x, 4 - y) (2 - x, 2 - y) +
      (edgeContrib (2 - x, 2 - y) (4 - x, 2 - y) +
      (edgeContrib (4 - x, 2 - y) (2 - x, 4 - y) + 0)) := rfl
  rw [hw, edgeContrib_const_y (2 - x, 2 - y) (4 - x, 2 - y) rfl]
  unfold edgeContrib
  norm_num
  split_ifs <;> norm_num <;> linarith

/-- The winding of template 13 rotated by 3 quarter turns is 0 or 1 at every point of the plane. -/
lemma w_poly_t13_r3 (x y : Rat) :
    windingAt (x, y) [(0, 2), (2, 2), (2, 4)] = 0 ∨
    windingAt (x, y) [(0, 2), (2, 2), (2, 4)] = 1 := by
  have hw : windingAt (x, y) [(0, 2), (2, 2), (2, 4)] =
      edgeContrib (0 - x, 2 - y) (2 - x, 2 - y) +
      (edgeContrib (2 - x, 2 - y) (2 - x, 4 - y) +
      (edgeContrib (2 - x, 4 - y) (0 - x, 2 - y) + 0)) := rfl
  rw [hw, edgeContrib_const_y (0 - x, 2 - y) (2 - x, 2 - y) rfl]
  unfold edgeContrib
  norm_num
  split_ifs <;> norm_num <;> linarith

/-- The winding of template 14 rotated by 0 quarter turns is 0 or 1 at every point of the plane. -/
lemma w_poly_t14_r0 (x y : Rat) :
    windingAt (x, y) [(0, 0), (2, 0), (0, 2)] = 0 ∨
    windingAt (x, y) [(0, 0), (2, 0), (0, 2)] = 1 := by
  have hw : windingAt (x, y) [(0, 0), (2, 0), (0, 2)] =
      edgeContrib (0 - x, 0 - y) (2 - x, 0 - y) +
      (edgeContrib (2 - x, 0 - y) (0 - x, 2 - y) +
      (edgeContrib (0 - x, 2 - y) (0 - x, 0 - y) + 0)) := rfl
  rw [hw, edgeContrib_const_y (0 - x, 0 - y) (2 - x, 0 - y) rfl]
  unfold edgeContrib
  norm_num
  split_ifs <;> norm_num <;> linarith

/-- The winding of template 14 rotated by 1 quarter turns is 0 or 1 at every point of the plane. -/
lemma w_poly_t14_r1 (x y : Rat) :
    windingAt (x, y) [(4, 0), (4, 2), (2, 0)] = 0 ∨
    windingAt (x, y) [(4, 0), (4, 2), (2, 0)] = 1 := by
  have hw : windingAt (x, y) [(4, 0), (4, 2), (2, 0)] =
      edgeContrib (4 - x, 0 - y) (4 - x, 2 - y) +
      (edgeContrib (4 - x, 2 - y) (2 - x, 0 - y) +
      (edgeContrib (2 - x, 0 - y) (4 - x, 0 - y) + 0)) := rfl
  rw [hw, edgeContrib_const_y (2 - x, 0 - y) (4 - x, 0 - y) rfl]
  unfold edgeContrib
  norm_num
  split_ifs <;> norm_num <;> linarith

/-- The winding of template 14 rotated by 2 quarter turns is 0 or 1 at every point of the plane. -/
lemma w_poly_t14_r2 (x y : Rat) :
    windingAt (x, y) [(4, 4), (2, 4), (4, 2)] = 0 ∨
    windingAt (x, y) [(4, 4), (2, 4), (4, 2)] = 1 := by
  have hw : windingAt (x, y) [(4, 4), (2, 4), (4, 2)] =
      edgeContrib (4 - x, 4 - y) (2 - x, 4 - y) +
      (edgeContrib (2 - x, 4 - y) (4 - x, 2 - y) +
      (edgeContrib (4 - x, 2 - y) (4 - x, 4 - y) + 0)) := rfl
  rw [hw, edgeContrib_const_y (4 - x, 4 - y) (2 - x, 4 - y) rfl]
  unfold edgeContrib
  norm_num
  split_ifs <;> norm_num <;> linarith

/-- The winding of template 14 rotated by 3 quarter turns is 0 or 1 at every point of the plane. -/
lemma w_poly_t14_r3 (x y : Rat) :
    windingAt (x, y) [(0, 4), (0, 2), (2, 4)] = 0 ∨
    windingAt (x, y) [(0, 4), (0, 2), (2, 4)] = 1 := by
  have hw : windingAt (x, y) [(0, 4), (0, 2), (2, 4)] =
      edgeContrib (0 - x, 4 - y) (0 - x, 2 - y) +
      (edgeContrib (0 - x, 2 - y) (2 - x, 4 - y) +
      (edgeContrib (2 - x, 4 - y) (0 - x, 4 - y) + 0)) := rfl
  rw [hw, edgeContrib_const_y (2 - x, 4 - y) (0 - x, 4 - y) rfl]
  unfold edgeContrib
  norm_num
  split_ifs <;> norm_num <;> linarith

/-- The clockwise tile boundary rotated by 0 quarter turns winds every strictly interior point once negatively. -/
lemma w_square_r0 (x y : Rat) (hx1 : 0 < x) (hx2 : x < 4)
    (hy1 : 0 < y) (hy2 : y < 4) :
    windingAt (x, y) [(0, 0), (0, 4), (4, 4), (4, 0)] = -1 := by
  have hw : windingAt (x, y) [(0, 0), (0, 4), (4, 4), (4, 0)] =
      edgeContrib (0 - x, 0 - y) (0 - x, 4 - y) +
      (edgeContrib (0 - x, 4 - y) (4 - x, 4 - y) +
      (edgeContrib (4 - x, 4 - y) (4 - x, 0 - y) +
      (edgeContrib (4 - x, 0 - y) (0 - x, 0 - y) + 0))) := rfl
  rw [hw, edgeContrib_const_y (0 - x, 4 - y) (4 - x, 4 - y) rfl,
    edgeContrib_const_y (4 - x, 0 - y) (0 - x, 0 - y) rfl]
  unfold edgeContrib
  norm_num
  split_ifs <;> first | (norm_num; done) | linarith | (norm_num; linarith)

/-- The clockwise tile boundary rotated by 1 quarter turns winds every strictly interior point once negatively. -/
lemma w_square_r1 (x y : Rat) (hx1 : 0 < x) (hx2 : x < 4)
    (hy1 : 0 < y) (hy2 : y < 4) :
    windingAt (x, y) [(4, 0), (0, 0), (0, 4), (4, 4)] = -1 := by
  have hw : windingAt (x, y) [(4, 0), (0, 0), (0, 4), (4, 4)] =
      edgeContrib (4 - x, 0 - y) (0 - x, 0 - y) +
      (edgeContrib (0 - x, 0 - y) (0 - x, 4 - y) +
      (edgeContrib (0 - x, 4 - y) (4 - x, 4 - y) +
      (edgeContrib (4 - x, 4 - y) (4 - x, 0 - y) + 0))) := rfl
  rw [hw, edgeContrib_const_y (4 - x, 0 - y) (0 - x, 0 - y) rfl,
    edgeContrib_const_y (0 - x, 4 - y) (4 - x, 4 - y) rfl]
  unfold edgeContrib
  norm_num
  split_ifs <;> first | (norm_num; done) | linarith | (norm_num; linarith)

/-- The clockwise tile boundary rotated by 2 quarter turns winds every strictly interior point once negatively. -/
lemma w_square_r2 (x y : Rat) (hx1 : 0 < x) (hx2 : x < 4)
    (hy1 : 0 < y) (hy2 : y < 4) :
    windingAt (x, y) [(4, 4), (4, 0), (0, 0), (0, 4)] = -1 := by
  have hw : windingAt (x, y) [(4, 4), (4, 0), (0, 0), (0, 4)] =
      edgeContrib (4 - x, 4 - y) (4 - x, 0 - y) +
      (edgeContrib (4 - x, 0 - y) (0 - x, 0 - y) +
      (edgeContrib (0 - x, 0 - y) (0 - x, 4 - y) +
      (edgeContrib (0 - x, 4 - y) (4 - x, 4 - y) + 0))) := rfl
  rw [hw, edgeContrib_const_y (4 - x, 0 - y) (0 - x, 0 - y) rfl,
    edgeContrib_const_y (0 - x, 4 - y) (4 - x, 4 - y) rfl]
  unfold edgeContrib
  norm_num
  split_ifs <;> first | (norm_num; done) | linarith | (norm_num; linarith)

/-- The clockwise tile boundary rotated by 3 quarter turns winds every strictly interior point once negatively. -/
lemma w_square_r3 (x y : Rat) (hx1 : 0 < x) (hx2 : x < 4)
    (hy1 : 0 < y) (hy2 : y < 4) :
    windingAt (x, y) [(0, 4), (4, 4), (4, 0), (0, 0)] = -1 := by
  have hw : windingAt (x, y) [(0, 4), (4, 4), (4, 0), (0, 0)] =
      edgeContrib (0 - x, 4 - y) (4 - x, 4 - y) +
      (edgeContrib (4 - x, 4 - y) (4 - x, 0 - y) +
      (edgeContrib (4 - x, 0 - y) (0 - x, 0 - y) +
      (edgeContrib (0 - x, 0 - y) (0 - x, 4 - y) + 0))) := rfl
  rw [hw, edgeContrib_const_y (0 - x, 4 - y) (4 - x, 4 - y) rfl,
    edgeContrib_const_y (4 - x, 0 - y) (0 - x, 0 - y) rfl]
  unfold edgeContrib
  norm_num
  split_ifs <;> first | (norm_num; done) | linarith | (norm_num; linarith)


/-- C8: for every template index, rotation, fill colors, tile position,
patch size and pen width, drawing with `invert` appends one closed subpath
tracing the full tile boundary to the compound path; under the nonzero
winding fill rule the inverted and plain draws fill complementary pixel
sets: every rational point strictly inside the tile is filled by exactly
one of the two (so they are disjoint and together cover the tile); for the
empty template (index 15) the plain draw fills nothing and the inverted
draw covers every interior point. -/
theorem invert_complement (pos : Rat × Rat) (turn : Nat) (ty : Fin 16)
    (ps : Rat) (pw : Nat) (c c2 : RGBA) (q : Rat × Rat)
    (hps : 0 < ps)
    (hx1 : pos.1 * ps + (pw : Rat) / 2 < q.1)
    (hx2 : q.1 < pos.1 * ps + (pw : Rat) / 2 + ps)
    (hy1 : pos.2 * ps + (pw : Rat) / 2 < q.2)
    (hy2 : q.2 < pos.2 * ps + (pw : Rat) / 2 + ps) :
    (drawPatch pos turn true ty.val ps c pw).subpaths =
      (drawPatch pos turn false ty.val ps c pw).subpaths ++
        [[patchTransform pos (turn % 4) ps pw (0, 0),
          patchTransform pos (turn % 4) ps pw (0, ps),
          patchTransform pos (turn % 4) ps pw (ps, ps),
          patchTransform pos (turn % 4) ps pw (ps, 0)]] ∧
    cmdFilled q (drawPatch pos turn true ty.val ps c pw) =
      !cmdFilled q (drawPatch pos turn false ty.val ps c2 pw) ∧
    cmdFilled q (drawPatch pos turn false 15 ps c pw) = false ∧
    cmdFilled q (drawPatch pos turn true 15 ps c2 pw) = true := by
  have h4 : turn % 4 = 0 ∨ turn % 4 = 1 ∨ turn % 4 = 2 ∨ turn % 4 = 3 := by
    omega
  refine ⟨?_, ?_, plain_empty_unfilled pos turn ps c pw q, ?_⟩
  · unfold drawPatch
    simp
  · rcases ty with ⟨tv, htv⟩
    interval_cases tv <;> rcases h4 with hr | hr | hr | hr
    · exact complement_general pos turn 0 ps pw c c2 q
        [(0, 0), (4, 0), (4, 4), (0, 4)]
        [(0, 0), (0, 4), (4, 4), (4, 0)]
        hps
        (by rw [hr]; norm_num [pathSet, rotAbout, rotQuarter])
        (by rw [hr]; norm_num [rotAbout, rotQuarter])
        w_poly_t0_r0 w_square_r0
        hx1 hx2 hy1 hy2
    · exact complement_general pos turn 0 ps pw c c2 q
        [(4, 0), (4, 4), (0, 4), (0, 0)]
        [(4, 0), (0, 0), (0, 4), (4, 4)]
        hps
        (by rw [hr]; norm_num [pathSet, rotAbout, rotQuarter])
        (by rw [hr]; norm_num [rotAbout, rotQuarter])
        w_poly_t0_r1 w_square_r1
        hx1 hx2 hy1 hy2
    · exact complement_general pos turn 0 ps pw c c2 q
        [(4, 4), (0, 4), (0, 0), (4, 0)]
        [(4, 4), (4, 0), (0, 0), (0, 4)]
        hps
        (by rw [hr]; norm_num [pathSet, rotAbout, rotQuarter])
        (by rw [hr]; norm_num [rotAbout, rotQuarter])
        w_poly_t0_r2 w_square_r2
        hx1 hx2 hy1 hy2
    · exact complement_general pos turn 0 ps pw c c2 q
        [(0, 4), (0, 0), (4, 0), (4, 4)]
        [(0, 4), (4, 4), (4, 0), (0, 0)]
        hps
        (by rw [hr]; norm_num [pathSet, rotAbout, rotQuarter])
        (by rw [hr]; norm_num [rotAbout, rotQuarter])
        w_poly_t0_r3 w_square_r3
        hx1 hx2 hy1 hy2
    · exact complement_general pos turn 1 ps pw c c2 q
        [(0, 0), (4, 0), (0, 4)]
        [(0, 0), (0, 4), (4, 4), (4, 0)]
        hps
        (by rw [hr]; norm_num [pathSet, rotAbout, rotQuarter])
        (by rw [hr]; norm_num [rotAbout, rotQuarter])
        w_poly_t1_r0 w_square_r0
        hx1 hx2 hy1 hy2
    · exact complement_general pos turn 1 ps pw c c2 q
        [(4, 0), (4, 4), (0, 0)]
        [(4, 0), (0, 0), (0, 4), (4, 4)]
        hps
        (by rw [hr]; norm_num [pathSet, rotAbout, rotQuarter])
        (by rw [hr]; norm_num [rotAbout, rotQuarter])
        w_poly_t1_r1 w_square_r1
        hx1 hx2 hy1 hy2
    · exact complement_general pos turn 1 ps pw c c2 q
        [(4, 4), (0, 4), (4, 0)]
        [(4, 4), (4, 0), (0, 0), (0, 4)]
        hps
        (by rw [hr]; norm_num [pathSet, rotAbout, rotQuarter])
        (by rw [hr]; norm_num [rotAbout, rotQuarter])
        w_poly_t1_r2 w_square_r2
        hx1 hx2 hy1 hy2
    · exact complement_general pos turn 1 ps pw c c2 q
        [(0, 4), (0, 0), (4, 4)]
        [(0, 4), (4, 4), (4, 0), (0, 0)]
        hps
        (by rw [hr]; norm_num [pathSet, rotAbout, rotQuarter])
        (by rw [hr]; norm_num [rotAbout, rotQuarter])
        w_poly_t1_r3 w_square_r3
        hx1 hx2 hy1 hy2
    · exact complement_general pos turn 2 ps pw c c2 q
        [(2, 0), (4, 4), (0, 4)]
        [(0, 0), (0, 4), (4, 4), (4, 0)]
        hps
        (by rw [hr]; norm_num [pathSet, rotAbout, rotQuarter])
        (by rw [hr]; norm_num [rotAbout, rotQuarter])
        w_poly_t2_r0 w_square_r0
        hx1 hx2 hy1 hy2
    · exact complement_general pos turn 2 ps pw c c2 q
        [(4, 2), (0, 4), (0, 0)]
        [(4, 0), (0, 0), (0, 4), (4, 4)]
        hps
        (by rw [hr]; norm_num [pathSet, rotAbout, rotQuarter])
        (by rw [hr]; norm_num [rotAbout, rotQuarter])
        w_poly_t2_r1 w_square_r1
        hx1 hx2 hy1 hy2
    · exact complement_general pos turn 2 ps pw c c2 q
        [(2, 4), (0, 0), (4, 0)]
        [(4, 4), (4, 0), (0, 0), (0, 4)]
        hps
        (by rw [hr]; norm_num [pathSet, rotAbout, rotQuarter])
        (by rw [hr]; norm_num [rotAbout, rotQuarter])
        w_poly_t2_r2 w_square_r2
        hx1 hx2 hy1 hy2
    · exact complement_general pos turn 2 ps pw c c2 q
        [(0, 2), (4, 0), (4, 4)]
        [(0, 4), (4, 4), (4, 0), (0, 0)]
        hps
        (by rw [hr]; norm_num [pathSet, rotAbout, rotQuarter])
        (by rw [hr]; norm_num [rotAbout, rotQuarter])
        w_poly_t2_r3 w_square_r3
        hx1 hx2 hy1 hy2
    · exact complement_general pos turn 3 ps pw c c2 q
        [(0, 0), (2, 0), (2, 4), (0, 4)]
        [(0, 0), (0, 4), (4, 4), (4, 0)]
        hps
        (by rw [hr]; norm_num [pathSet, rotAbout, rotQuarter])
        (by rw [hr]; norm_num [rotAbout, rotQuarter])
        w_poly_t3_r0 w_square_r0
        hx1 hx2 hy1 hy2
    · exact complement_general pos turn 3 ps pw c c2 q
        [(4, 0), (4, 2), (0, 2), (0, 0)]
        [(4, 0), (0, 0), (0, 4), (4, 4)]
        hps
        (by rw [hr]; norm_num [pathSet, rotAbout, rotQuarter])
        (by rw [hr]; norm_num [rotAbout, rotQuarter])
        w_poly_t3_r1 w_square_r1
        hx1 hx2 hy1 hy2
    · exact complement_general pos turn 3 ps pw c c2 q
        [(4, 4), (2, 4), (2, 0), (4, 0)]
        [(4, 4), (4, 0), (0, 0), (0, 4)]
        hps
        (by rw [hr]; norm_num [pathSet, rotAbout, rotQuarter])
        (by rw [hr]; norm_num [rotAbout, rotQuarter])
        w_poly_t3_r2 w_square_r2
        hx1 hx2 hy1 hy2
    · exact complement_general pos turn 3 ps pw c c2 q
        [(0, 4), (0, 2), (4, 2), (4, 4)]
        [(0, 4), (4, 4), (4, 0), (0, 0)]
        hps
        (by rw [hr]; norm_num [pathSet, rotAbout, rotQuarter])
        (by rw [hr]; norm_num [rotAbout, rotQuarter])
        w_poly_t3_r3 w_square_r3
        hx1 hx2 hy1 hy2
    · exact complement_general pos turn 4 ps pw c c2 q
        [(2, 0), (4, 2), (2, 4), (0, 2)]
        [(0, 0), (0, 4), (4, 4), (4, 0)]
        hps
        (by rw [hr]; norm_num [pathSet, rotAbout, rotQuarter])
        (by rw [hr]; norm_num [rotAbout, rotQuarter])
        w_poly_t4_r0 w_square_r0
        hx1 hx2 hy1 hy2
    · exact complement_general pos turn 4 ps pw c c2 q
        [(4, 2), (2, 4), (0, 2), (2, 0)]
        [(4, 0), (0, 0), (0, 4), (4, 4)]
        hps
        (by rw [hr]; norm_num [pathSet, rotAbout, rotQuarter])
        (by rw [hr]; norm_num [rotAbout, rotQuarter])
        w_poly_t4_r1 w_square_r1
        hx1 hx2 hy1 hy2
    · exact complement_general pos turn 4 ps pw c c2 q
        [(2, 4), (0, 2), (2, 0), (4, 2)]
        [(4, 4), (4, 0), (0, 0), (0, 4)]
        hps
        (by rw [hr]; norm_num [pathSet, rotAbout, rotQuarter])
        (by rw [hr]; norm_num [rotAbout, rotQuarter])
        w_poly_t4_r2 w_square_r2
        hx1 hx2 hy1 hy2
    · exact complement_general pos turn 4 ps pw c c2 q
        [(0, 2), (2, 0), (4, 2), (2, 4)]
        [(0, 4), (4, 4), (4, 0), (0, 0)]
        hps
        (by rw [hr]; norm_num [pathSet, rotAbout, rotQuarter])
        (by rw [hr]; norm_num [rotAbout, rotQuarter])
        w_poly_t4_r3 w_square_r3
        hx1 hx2 hy1 hy2
    · exact complement_general pos turn 5 ps pw c c2 q
        [(0, 0), (4, 2), (4, 4), (2, 4)]
        [(0, 0), (0, 4), (4, 4), (4, 0)]
        hps
        (by rw [hr]; norm_num [pathSet, rotAbout, rotQuarter])
        (by rw [hr]; norm_num [rotAbout, rotQuarter])
        w_poly_t5_r0 w_square_r0
        hx1 hx2 hy1 hy2
    · exact complement_general pos turn 5 ps pw c c2 q
        [(4, 0), (2, 4), (0, 4), (0, 2)]
        [(4, 0), (0, 0), (0, 4), (4, 4)]
        hps
        (by rw [hr]; norm_num [pathSet, rotAbout, rotQuarter])
        (by rw [hr]; norm_num [rotAbout, rotQuarter])
        w_poly_t5_r1 w_square_r1
        hx1 hx2 hy1 hy2
    · exact complement_general pos turn 5 ps pw c c2 q
        [(4, 4), (0, 2), (0, 0), (2, 0)]
        [(4, 4), (4, 0), (0, 0), (0, 4)]
        hps
        (by rw [hr]; norm_num [pathSet, rotAbout, rotQuarter])
        (by rw [hr]; norm_num [rotAbout, rotQuarter])
        w_poly_t5_r2 w_square_r2
        hx1 hx2 hy1 hy2
    · exact complement_general pos turn 5 ps pw c c2 q
        [(0, 4), (2, 0), (4, 0), (4, 2)]
        [(0, 4), (4, 4), (4, 0), (0, 0)]
        hps
        (by rw [hr]; norm_num [pathSet, rotAbout, rotQuarter])
        (by rw [hr]; norm_num [rotAbout, rotQuarter])
        w_poly_t5_r3 w_square_r3
        hx1 hx2 hy1 hy2
    · exact complement_general pos turn 6 ps pw c c2 q
        [(2, 0), (4, 4), (2, 4), (3, 2), (1, 2), (2, 4), (0, 4)]
        [(0, 0), (0, 4), (4, 4), (4, 0)]
        hps
        (by rw [hr]; norm_num [pathSet, rotAbout, rotQuarter])
        (by rw [hr]; norm_num [rotAbout, rotQuarter])
        w_poly_t6_r0 w_square_r0
        hx1 hx2 hy1 hy2
    · exact complement_general pos turn 6 ps pw c c2 q
        [(4, 2), (0, 4), (0, 2), (2, 3), (2, 1), (0, 2), (0, 0)]
        [(4, 0), (0, 0), (0, 4), (4, 4)]
        hps
        (by rw [hr]; norm_num [pathSet, rotAbout, rotQuarter])
        (by rw [hr]; norm_num [rotAbout, rotQuarter])
        w_poly_t6_r1 w_square_r1
        hx1 hx2 hy1 hy2
    · exact complement_general pos turn 6 ps pw c c2 q
        [(2, 4), (0, 0), (2, 0), (1, 2), (3, 2), (2, 0), (4, 0)]
        [(4, 4), (4, 0), (0, 0), (0, 4)]
        hps
        (by rw [hr]; norm_num [pathSet, rotAbout, rotQuarter])
        (by rw [hr]; norm_num [rotAbout, rotQuarter])
        w_poly_t6_r2 w_square_r2
        hx1 hx2 hy1 hy2
    · exact complement_general pos turn 6 ps pw c c2 q
        [(0, 2), (4, 0), (4, 2), (2, 1), (2, 3), (4, 2), (4, 4)]
        [(0, 4), (4, 4), (4, 0), (0, 0)]
        hps
        (by rw [hr]; norm_num [pathSet, rotAbout, rotQuarter])
        (by rw [hr]; norm_num [rotAbout, rotQuarter])
        w_poly_t6_r3 w_square_r3
        hx1 hx2 hy1 hy2
    · exact complement_general pos turn 7 ps pw c c2 q
        [(0, 0), (4, 2), (2, 4)]
        [(0, 0), (0, 4), (4, 4), (4, 0)]
        hps
        (by rw [hr]; norm_num [pathSet, rotAbout, rotQuarter])
        (by rw [hr]; norm_num [rotAbout, rotQuarter])
        w_poly_t7_r0 w_square_r0
        hx1 hx2 hy1 hy2
    · exact complement_general pos turn 7 ps pw c c2 q
        [(4, 0), (2, 4), (0, 2)]
        [(4, 0), (0, 0), (0, 4), (4, 4)]
        hps
        (by rw [hr]; norm_num [pathSet, rotAbout, rotQuarter])
        (by rw [hr]; norm_num [rotAbout, rotQuarter])
        w_poly_t7_r1 w_square_r1
        hx1 hx2 hy1 hy2
    · exact complement_general pos turn 7 ps pw c c2 q
        [(4, 4), (0, 2), (2, 0)]
        [(4, 4), (4, 0), (0, 0), (0, 4)]
        hps
        (by rw [hr]; norm_num [pathSet, rotAbout, rotQuarter])
        (by rw [hr]; norm_num [rotAbout, rotQuarter])
        w_poly_t7_r2 w_square_r2
        hx1 hx2 hy1 hy2
    · exact complement_general pos turn 7 ps pw c c2 q
        [(0, 4), (2, 0), (4, 2)]
        [(0, 4), (4, 4), (4, 0), (0, 0)]
        hps
        (by rw [hr]; norm_num [pathSet, rotAbout, rotQuarter])
        (by rw [hr]; norm_num [rotAbout, rotQuarter])
        w_poly_t7_r3 w_square_r3
        hx1 hx2 hy1 hy2
    · exact complement_general pos turn 8 ps pw c c2 q
        [(1, 1), (3, 1), (3, 3), (1, 3)]
        [(0, 0), (0, 4), (4, 4), (4, 0)]
        hps
        (by rw [hr]; norm_num [pathSet, rotAbout, rotQuarter])
        (by rw [hr]; norm_num [rotAbout, rotQuarter])
        w_poly_t8_r0 w_square_r0
        hx1 hx2 hy1 hy2
    · exact complement_general pos turn 8 ps pw c c2 q
        [(3, 1), (3, 3), (1, 3), (1, 1)]
        [(4, 0), (0, 0), (0, 4), (4, 4)]
        hps
        (by rw [hr]; norm_num [pathSet, rotAbout, rotQuarter])
        (by rw [hr]; norm_num [rotAbout, rotQuarter])
        w_poly_t8_r1 w_square_r1
        hx1 hx2 hy1 hy2
    · exact complement_general pos turn 8 ps pw c c2 q
        [(3, 3), (1, 3), (1, 1), (3, 1)]
        [(4, 4), (4, 0), (0, 0), (0, 4)]
        hps
        (by rw [hr]; norm_num [pathSet, rotAbout, rotQuarter])
        (by rw [hr]; norm_num [rotAbout, rotQuarter])
        w_poly_t8_r2 w_square_r2
        hx1 hx2 hy1 hy2
    · exact complement_general pos turn 8 ps pw c c2 q
        [(1, 3), (1, 1), (3, 1), (3, 3)]
        [(0, 4), (4, 4), (4, 0), (0, 0)]
        hps
        (by rw [hr]; norm_num [pathSet, rotAbout, rotQuarter])
        (by rw [hr]; norm_num [rotAbout, rotQuarter])
        w_poly_t8_r3 w_square_r3
        hx1 hx2 hy1 hy2
    · exact complement_general pos turn 9 ps pw c c2 q
        [(2, 0), (4, 0), (0, 4), (0, 2), (2, 2)]
        [(0, 0), (0, 4), (4, 4), (4, 0)]
        hps
        (by rw [hr]; norm_num [pathSet, rotAbout, rotQuarter])
        (by rw [hr]; norm_num [rotAbout, rotQuarter])
        w_poly_t9_r0 w_square_r0
        hx1 hx2 hy1 hy2
    · exact complement_general pos turn 9 ps pw c c2 q
        [(4, 2), (4, 4), (0, 0), (2, 0), (2, 2)]
        [(4, 0), (0, 0), (0, 4), (4, 4)]
        hps
        (by rw [hr]; norm_num [pathSet, rotAbout, rotQuarter])
        (by rw [hr]; norm_num [rotAbout, rotQuarter])
        w_poly_t9_r1 w_square_r1
        hx1 hx2 hy1 hy2
    · exact complement_general pos turn 9 ps pw c c2 q
        [(2, 4), (0, 4), (4, 0), (4, 2), (2, 2)]
        [(4, 4), (4, 0), (0, 0), (0, 4)]
        hps
        (by rw [hr]; norm_num [pathSet, rotAbout, rotQuarter])
        (by rw [hr]; norm_num [rotAbout, rotQuarter])
        w_poly_t9_r2 w_square_r2
        hx1 hx2 hy1 hy2
    · exact complement_general pos turn 9 ps pw c c2 q
        [(0, 2), (0, 0), (4, 4), (2, 4), (2, 2)]
        [(0, 4), (4, 4), (4, 0), (0, 0)]
        hps
        (by rw [hr]; norm_num [pathSet, rotAbout, rotQuarter])
        (by rw [hr]; norm_num [rotAbout, rotQuarter])
        w_poly_t9_r3 w_square_r3
        hx1 hx2 hy1 hy2
    · exact complement_general pos turn 10 ps pw c c2 q
        [(0, 0), (2, 0), (2, 2), (0, 2)]
        [(0, 0), (0, 4), (4, 4), (4, 0)]
        hps
        (by rw [hr]; norm_num [pathSet, rotAbout, rotQuarter])
        (by rw [hr]; norm_num [rotAbout, rotQuarter])
        w_poly_t10_r0 w_square_r0
        hx1 hx2 hy1 hy2
    · exact complement_general pos turn 10 ps pw c c2 q
        [(4, 0), (4, 2), (2, 2), (2, 0)]
        [(4, 0), (0, 0), (0, 4), (4, 4)]
        hps
        (by rw [hr]; norm_num [pathSet, rotAbout, rotQuarter])
        (by rw [hr]; norm_num [rotAbout, rotQuarter])
        w_poly_t10_r1 w_square_r1
        hx1 hx2 hy1 hy2
    · exact complement_general pos turn 10 ps pw c c2 q
        [(4, 4), (2, 4), (2, 2), (4, 2)]
        [(4, 4), (4, 0), (0, 0), (0, 4)]
        hps
        (by rw [hr]; norm_num [pathSet, rotAbout, rotQuarter])
        (by rw [hr]; norm_num [rotAbout, rotQuarter])
        w_poly_t10_r2 w_square_r2
        hx1 hx2 hy1 hy2
    · exact complement_general pos turn 10 ps pw c c2 q
        [(0, 4), (0, 2), (2, 2), (2, 4)]
        [(0, 4), (4, 4), (4, 0), (0, 0)]
        hps
        (by rw [hr]; norm_num [pathSet, rotAbout, rotQuarter])
        (by rw [hr]; norm_num [rotAbout, rotQuarter])
        w_poly_t10_r3 w_square_r3
        hx1 hx2 hy1 hy2
    · exact complement_general pos turn 11 ps pw c c2 q
        [(0, 2), (4, 2), (2, 4)]
        [(0, 0), (0, 4), (4, 4), (4, 0)]
        hps
        (by rw [hr]; norm_num [pathSet, rotAbout, rotQuarter])
        (by rw [hr]; norm_num [rotAbout, rotQuarter])
        w_poly_t11_r0 w_square_r0
        hx1 hx2 hy1 hy2
    · exact complement_general pos turn 11 ps pw c c2 q
        [(2, 0), (2, 4), (0, 2)]
        [(4, 0), (0, 0), (0, 4), (4, 4)]
        hps
        (by rw [hr]; norm_num [pathSet, rotAbout, rotQuarter])
        (by rw [hr]; norm_num [rotAbout, rotQuarter])
        w_poly_t11_r1 w_square_r1
        hx1 hx2 hy1 hy2
    · exact complement_general pos turn 11 ps pw c c2 q
        [(4, 2), (0, 2), (2, 0)]
        [(4, 4), (4, 0), (0, 0), (0, 4)]
        hps
        (by rw [hr]; norm_num [pathSet, rotAbout, rotQuarter])
        (by rw [hr]; norm_num [rotAbout, rotQuarter])
        w_poly_t11_r2 w_square_r2
        hx1 hx2 hy1 hy2
    · exact complement_general pos turn 11 ps pw c c2 q
        [(2, 4), (2, 0), (4, 2)]
        [(0, 4), (4, 4), (4, 0), (0, 0)]
        hps
        (by rw [hr]; norm_num [pathSet, rotAbout, rotQuarter])
        (by rw [hr]; norm_num [rotAbout, rotQuarter])
        w_poly_t11_r3 w_square_r3
        hx1 hx2 hy1 hy2
    · exact complement_general pos turn 12 ps pw c c2 q
        [(2, 2), (4, 4), (0, 4)]
        [(0, 0), (0, 4), (4, 4), (4, 0)]
        hps
        (by rw [hr]; norm_num [pathSet, rotAbout, rotQuarter])
        (by rw [hr]; norm_num [rotAbout, rotQuarter])
        w_poly_t12_r0 w_square_r0
        hx1 hx2 hy1 hy2
    · exact complement_general pos turn 12 ps pw c c2 q
        [(2, 2), (0, 4), (0, 0)]
        [(4, 0), (0, 0), (0, 4), (4, 4)]
        hps
        (by rw [hr]; norm_num [pathSet, rotAbout, rotQuarter])
        (by rw [hr]; norm_num [rotAbout, rotQuarter])
        w_poly_t12_r1 w_square_r1
        hx1 hx2 hy1 hy2
    · exact complement_general pos turn 12 ps pw c c2 q
        [(2, 2), (0, 0), (4, 0)]
        [(4, 4), (4, 0), (0, 0), (0, 4)]
        hps
        (by rw [hr]; norm_num [pathSet, rotAbout, rotQuarter])
        (by rw [hr]; norm_num [rotAbout, rotQuarter])
        w_poly_t12_r2 w_square_r2
        hx1 hx2 hy1 hy2
    · exact complement_general pos turn 12 ps pw c c2 q
        [(2, 2), (4, 0), (4, 4)]
        [(0, 4), (4, 4), (4, 0), (0, 0)]
        hps
        (by rw [hr]; norm_num [pathSet, rotAbout, rotQuarter])
        (by rw [hr]; norm_num [rotAbout, rotQuarter])
        w_poly_t12_r3 w_square_r3
        hx1 hx2 hy1 hy2
    · exact complement_general pos turn 13 ps pw c c2 q
        [(2, 0), (2, 2), (0, 2)]
        [(0, 0), (0, 4), (4, 4), (4, 0)]
        hps
        (by rw [hr]; norm_num [pathSet, rotAbout, rotQuarter])
        (by rw [hr]; norm_num [rotAbout, rotQuarter])
        w_poly_t13_r0 w_square_r0
        hx1 hx2 hy1 hy2
    · exact complement_general pos turn 13 ps pw c c2 q
        [(4, 2), (2, 2), (2, 0)]
        [(4, 0), (0, 0), (0, 4), (4, 4)]
        hps
        (by rw [hr]; norm_num [pathSet, rotAbout, rotQuarter])
        (by rw [hr]; norm_num [rotAbout, rotQuarter])
        w_poly_t13_r1 w_square_r1
        hx1 hx2 hy1 hy2
    · exact complement_general pos turn 13 ps pw c c2 q
        [(2, 4), (2, 2), (4, 2)]
        [(4, 4), (4, 0), (0, 0), (0, 4)]
        hps
        (by rw [hr]; norm_num [pathSet, rotAbout, rotQuarter])
        (by rw [hr]; norm_num [rotAbout, rotQuarter])
        w_poly_t13_r2 w_square_r2
        hx1 hx2 hy1 hy2
    · exact complement_general pos turn 13 ps pw c c2 q
        [(0, 2), (2, 2), (2, 4)]
        [(0, 4), (4, 4), (4, 0), (0, 0)]
        hps
        (by rw [hr]; norm_num [pathSet, rotAbout, rotQuarter])
        (by rw [hr]; norm_num [rotAbout, rotQuarter])
        w_poly_t13_r3 w_square_r3
        hx1 hx2 hy1 hy2
    · exact complement_general pos turn 14 ps pw c c2 q
        [(0, 0), (2, 0), (0, 2)]
        [(0, 0), (0, 4), (4, 4), (4, 0)]
        hps
        (by rw [hr]; norm_num [pathSet, rotAbout, rotQuarter])
        (by rw [hr]; norm_num [rotAbout, rotQuarter])
        w_poly_t14_r0 w_square_r0
        hx1 hx2 hy1 hy2
    · exact complement_general pos turn 14 ps pw c c2 q
        [(4, 0), (4, 2), (2, 0)]
        [(4, 0), (0, 0), (0, 4), (4, 4)]
        hps
        (by rw [hr]; norm_num [pathSet, rotAbout, rotQuarter])
        (by rw [hr]; norm_num [rotAbout, rotQuarter])
        w_poly_t14_r1 w_square_r1
        hx1 hx2 hy1 hy2
    · exact complement_general pos turn 14 ps pw c c2 q
        [(4, 4), (2, 4), (4, 2)]
        [(4, 4), (4, 0), (0, 0), (0, 4)]
        hps
        (by rw [hr]; norm_num [pathSet, rotAbout, rotQuarter])
        (by rw [hr]; norm_num [rotAbout, rotQuarter])
        w_poly_t14_r2 w_square_r2
        hx1 hx2 hy1 hy2
    · exact complement_general pos turn 14 ps pw c c2 q
        [(0, 4), (0, 2), (2, 4)]
        [(0, 4), (4, 4), (4, 0), (0, 0)]
        hps
        (by rw [hr]; norm_num [pathSet, rotAbout, rotQuarter])
        (by rw [hr]; norm_num [rotAbout, rotQuarter])
        w_poly_t14_r3 w_square_r3
        hx1 hx2 hy1 hy2
    · exact complement_general pos turn 15 ps pw c c2 q
        [] [(0, 0), (0, 4), (4, 4), (4, 0)]
        hps rfl
        (by rw [hr]; norm_num [rotAbout, rotQuarter])
        (fun x y => Or.inl rfl) w_square_r0
        hx1 hx2 hy1 hy2
    · exact complement_general pos turn 15 ps pw c c2 q
        [] [(4, 0), (0, 0), (0, 4), (4, 4)]
        hps rfl
        (by rw [hr]; norm_num [rotAbout, rotQuarter])
        (fun x y => Or.inl rfl) w_square_r1
        hx1 hx2 hy1 hy2
    · exact complement_general pos turn 15 ps pw c c2 q
        [] [(4, 4), (4, 0), (0, 0), (0, 4)]
        hps rfl
        (by rw [hr]; norm_num [rotAbout, rotQuarter])
        (fun x y => Or.inl rfl) w_square_r2
        hx1 hx2 hy1 hy2
    · exact complement_general pos turn 15 ps pw c c2 q
        [] [(0, 4), (4, 4), (4, 0), (0, 0)]
        hps rfl
        (by rw [hr]; norm_num [rotAbout, rotQuarter])
        (fun x y => Or.inl rfl) w_square_r3
        hx1 hx2 hy1 hy2
  · rcases h4 with hr | hr | hr | hr
    · exact inverted_empty_covers pos turn ps c2 pw q
        [(0, 0), (0, 4), (4, 4), (4, 0)]
        hps
        (by rw [hr]; norm_num [rotAbout, rotQuarter])
        w_square_r0
        hx1 hx2 hy1 hy2
    · exact inverted_empty_covers pos turn ps c2 pw q
        [(4, 0), (0, 0), (0, 4), (4, 4)]
        hps
        (by rw [hr]; norm_num [rotAbout, rotQuarter])
        w_square_r1
        hx1 hx2 hy1 hy2
    · exact inverted_empty_covers pos turn ps c2 pw q
        [(4, 4), (4, 0), (0, 0), (0, 4)]
        hps
        (by rw [hr]; norm_num [rotAbout, rotQuarter])
        w_square_r2
        hx1 hx2 hy1 hy2
    · exact inverted_empty_covers pos turn ps c2 pw q
        [(0, 4), (4, 4), (4, 0), (0, 0)]
        hps
        (by rw [hr]; norm_num [rotAbout, rotQuarter])
        w_square_r3
        hx1 hx2 hy1 hy2

/-- C8 witness: the complement law applied at the unrotated full-square
template in the top-left tile of a 12-pixel canvas (patch size 4, zero pen
width) at the interior point (1, 1). -/
theorem invert_complement_witness :
    ((0 : Rat) < 4) ∧
    (((0 : Rat), (0 : Rat)).1 * 4 + ((0 : Nat) : Rat) / 2 <
      ((1 : Rat), (1 : Rat)).1) ∧
    (((1 : Rat), (1 : Rat)).1 <
      ((0 : Rat), (0 : Rat)).1 * 4 + ((0 : Nat) : Rat) / 2 + 4) ∧
    (((0 : Rat), (0 : Rat)).2 * 4 + ((0 : Nat) : Rat) / 2 <
      ((1 : Rat), (1 : Rat)).2) ∧
    (((1 : Rat), (1 : Rat)).2 <
      ((0 : Rat), (0 : Rat)).2 * 4 + ((0 : Nat) : Rat) / 2 + 4) ∧
    cmdFilled ((1 : Rat), (1 : Rat))
        (drawPatch ((0 : Rat), (0 : Rat)) 0 true (0 : Fin 16).val 4
          ⟨0, 0, 0, 0⟩ 0) =
      !cmdFilled ((1 : Rat), (1 : Rat))
        (drawPatch ((0 : Rat), (0 : Rat)) 0 false (0 : Fin 16).val 4
          ⟨255, 255, 255, 255⟩ 0) :=
  ⟨by norm_num, by norm_num, by norm_num, by norm_num, by norm_num,
   (invert_complement ((0 : Rat), (0 : Rat)) 0 0 4 0 ⟨0, 0, 0, 0⟩
     ⟨255, 255, 255, 255⟩ ((1 : Rat), (1 : Rat)) (by norm_num) (by norm_num)
     (by norm_num) (by norm_num) (by norm_num)).2.1⟩



end Identicon


